import Mathlib

/-!
Verification of the schema compilation engine: a shallow embedding of the
SQL compiler, the Mermaid ER-diagram compiler and the schema-store update
operations, together with theorems about the properties of their outputs.

Strings are Lean `String`s (lists of characters); the JavaScript runtime's
`Array.join`, `String.trim`, `replace(/'/g, "''")`, `toUpperCase` and the
line structure of the produced text are modelled by the executable
functions below.  The single impure read of the source (`new
Date().toISOString()` in the header) is passed in as an explicit `now`
argument, so the compiler is a pure function of (schema, now).
-/

/-! ## String toolkit -/

/-- Split a character list at every occurrence of `c` (the model of
splitting a string into lines at a separator character).  Always returns a
nonempty list. -/
def splitChar (c : Char) : List Char → List (List Char)
  | [] => [[]]
  | x :: xs =>
    match splitChar c xs with
    | [] => [[]]
    | l :: ls => if x = c then [] :: l :: ls else (x :: l) :: ls

/-- The lines of a string: its character data split at newline characters. -/
def linesL (s : String) : List (List Char) := splitChar '\n' s.data

/-- `Array.join(sep)` of JavaScript: concatenate with `sep` between
consecutive elements, empty string for the empty list. -/
def joinSep (sep : String) : List String → String
  | [] => ""
  | [s] => s
  | s :: s2 :: rest => s ++ sep ++ joinSep sep (s2 :: rest)

/-- Whitespace test used by the model of `String.trim`. -/
def wsChar (c : Char) : Bool := c.isWhitespace

/-- Model of JavaScript `String.prototype.trim`: drop whitespace from both
ends. -/
def trimWS (s : String) : String :=
  ⟨((s.data.dropWhile wsChar).reverse.dropWhile wsChar).reverse⟩

/-- Model of `str.replace(/'/g, "''")` on character data: double every
single-quote character. -/
def escQuote : List Char → List Char
  | [] => []
  | c :: r => if c = '\'' then '\'' :: '\'' :: escQuote r else c :: escQuote r

/-- Uppercase every character (model of `String.prototype.toUpperCase` on
the ASCII fragment relevant here). -/
def upperChars (l : List Char) : List Char := l.map Char.toUpper

/-- Prefix test on character lists (`leadsWith pat l` iff `pat` is a prefix
of `l`). -/
def leadsWith : List Char → List Char → Bool
  | [], _ => true
  | _ :: _, [] => false
  | a :: as, b :: bs => a == b && leadsWith as bs

/-- Substring test (model of `String.prototype.includes`). -/
def containsSub (pat : List Char) : List Char → Bool
  | [] => leadsWith pat []
  | c :: rest => leadsWith pat (c :: rest) || containsSub pat rest

/-- Decimal rendering of a natural number (agrees with the JavaScript
rendering of a nonnegative integer). -/
def natStr (n : Nat) : String := ⟨Nat.toDigits 10 n⟩

/-- Decimal rendering of an integer (the JavaScript `Number.toString` on
integral values). -/
def intStr : Int → String
  | Int.ofNat m => natStr m
  | Int.negSucc m => "-" ++ natStr (m + 1)

/-! ## The intermediate representation (engine/types.ts) -/

inductive SQLDialect
  | mysql
  | postgresql
deriving DecidableEq

inductive ColumnType
  | integer | bigint | smallint | serial | bigserial
  | varchar | text | char | boolean
  | date | timestamp | timestamptz | time
  | decimal | numeric | float | double
  | json | jsonb | uuid | blob | enum
deriving DecidableEq

inductive Cardinality
  | oneToOne
  | oneToMany
  | manyToMany
deriving DecidableEq

inductive OnDeleteAction
  | cascade | setNull | setDefault | restrict | noAction
deriving DecidableEq

/-- Rendering of an `OnDeleteAction` (the TypeScript value is the string
itself). -/
def onDeleteStr : OnDeleteAction → String
  | .cascade => "CASCADE"
  | .setNull => "SET NULL"
  | .setDefault => "SET DEFAULT"
  | .restrict => "RESTRICT"
  | .noAction => "NO ACTION"

/-- A column default value: `string | number | boolean | null`.  Numbers
are modelled as integers (the repository only ever renders them with
`toString`). -/
inductive DefaultValue
  | vNull
  | vBool (b : Bool)
  | vNum (n : Int)
  | vStr (s : String)
deriving DecidableEq

/-- `ColumnDefinition`.  Optional strings that the source only tests for
truthiness (`comment`) are plain strings with `""` meaning absent, which is
how the JavaScript code treats them; `length`/`precision`/`scale` are `Nat`
with `0` meaning absent (the source reads them as `x || default`, under
which `0` and `undefined` coincide). -/
structure ColumnDefinition where
  id : String
  name : String
  type : ColumnType
  length : Nat := 0
  precision : Nat := 0
  scale : Nat := 0
  isPrimaryKey : Bool
  isNullable : Bool
  isUnique : Bool
  defaultValue : Option DefaultValue := none
  enumValues : List String := []
  comment : String := ""
deriving DecidableEq

inductive IndexType
  | btree | hash | gin | gist
deriving DecidableEq

/-- `index.type.toUpperCase()` on the closed enumeration of index methods. -/
def upperIndexType : IndexType → String
  | .btree => "BTREE"
  | .hash => "HASH"
  | .gin => "GIN"
  | .gist => "GIST"

structure IndexDefinition where
  id : String
  name : String
  columns : List String
  isUnique : Bool
  type : Option IndexType := none
deriving DecidableEq

structure ForeignKeyDefinition where
  id : String
  constraintName : String
  columnName : String
  referencedTable : String
  referencedColumn : String
  onDelete : OnDeleteAction
  onUpdate : Option OnDeleteAction := none
deriving DecidableEq

structure TableDefinition where
  id : String
  name : String
  schema : String := ""
  columns : List ColumnDefinition
  indexes : List IndexDefinition := []
  foreignKeys : List ForeignKeyDefinition := []
  comment : String := ""
deriving DecidableEq

structure JunctionTable where
  name : String
  sourceColumn : String
  targetColumn : String
deriving DecidableEq

structure RelationshipDefinition where
  id : String
  name : String
  sourceTable : String
  sourceColumn : String
  targetTable : String
  targetColumn : String
  cardinality : Cardinality
  onDelete : OnDeleteAction
  junctionTable : Option JunctionTable := none
deriving DecidableEq

inductive ParamDirection
  | dirIn | dirOut | dirInOut
deriving DecidableEq

def dirStr : ParamDirection → String
  | .dirIn => "IN"
  | .dirOut => "OUT"
  | .dirInOut => "INOUT"

structure ProcedureParameter where
  name : String
  type : ColumnType
  direction : ParamDirection
  defaultValue : Option String := none
deriving DecidableEq

inductive ProcReturnType
  | ofType (t : ColumnType)
  | voidT
  | tableT
deriving DecidableEq

structure StoredProcedureDefinition where
  id : String
  name : String
  parameters : List ProcedureParameter
  returnType : Option ProcReturnType := none
  body : String
  language : String := ""
  comment : String := ""
deriving DecidableEq

structure SchemaDefinition where
  id : String
  name : String
  description : String
  dialect : SQLDialect
  tables : List TableDefinition
  relationships : List RelationshipDefinition
  storedProcedures : List StoredProcedureDefinition
  createdAt : String := ""
  updatedAt : String := ""
deriving DecidableEq

/-! ## The SQL compiler (engine/sqlCompiler.ts) -/

/-- The fixed two-dialect type-mapping table. -/
def typeMapping (d : SQLDialect) (t : ColumnType) : String :=
  match d, t with
  | .postgresql, .integer => "INTEGER"
  | .postgresql, .bigint => "BIGINT"
  | .postgresql, .smallint => "SMALLINT"
  | .postgresql, .serial => "SERIAL"
  | .postgresql, .bigserial => "BIGSERIAL"
  | .postgresql, .varchar => "VARCHAR"
  | .postgresql, .text => "TEXT"
  | .postgresql, .char => "CHAR"
  | .postgresql, .boolean => "BOOLEAN"
  | .postgresql, .date => "DATE"
  | .postgresql, .timestamp => "TIMESTAMP"
  | .postgresql, .timestamptz => "TIMESTAMPTZ"
  | .postgresql, .time => "TIME"
  | .postgresql, .decimal => "DECIMAL"
  | .postgresql, .numeric => "NUMERIC"
  | .postgresql, .float => "REAL"
  | .postgresql, .double => "DOUBLE PRECISION"
  | .postgresql, .json => "JSON"
  | .postgresql, .jsonb => "JSONB"
  | .postgresql, .uuid => "UUID"
  | .postgresql, .blob => "BYTEA"
  | .postgresql, .enum => "VARCHAR"
  | .mysql, .integer => "INT"
  | .mysql, .bigint => "BIGINT"
  | .mysql, .smallint => "SMALLINT"
  | .mysql, .serial => "INT AUTO_INCREMENT"
  | .mysql, .bigserial => "BIGINT AUTO_INCREMENT"
  | .mysql, .varchar => "VARCHAR"
  | .mysql, .text => "TEXT"
  | .mysql, .char => "CHAR"
  | .mysql, .boolean => "TINYINT(1)"
  | .mysql, .date => "DATE"
  | .mysql, .timestamp => "TIMESTAMP"
  | .mysql, .timestamptz => "TIMESTAMP"
  | .mysql, .time => "TIME"
  | .mysql, .decimal => "DECIMAL"
  | .mysql, .numeric => "NUMERIC"
  | .mysql, .float => "FLOAT"
  | .mysql, .double => "DOUBLE"
  | .mysql, .json => "JSON"
  | .mysql, .jsonb => "JSON"
  | .mysql, .uuid => "CHAR(36)"
  | .mysql, .blob => "BLOB"
  | .mysql, .enum => "ENUM"

/-- Identifier quoting: double quotes for PostgreSQL, backticks for MySQL. -/
def quoteId (d : SQLDialect) (s : String) : String :=
  match d with
  | .postgresql => "\"" ++ s ++ "\""
  | .mysql => "`" ++ s ++ "`"

/-- `escapeString`: double embedded single quotes. -/
def escapeString (s : String) : String := ⟨escQuote s.data⟩

def dialectDisplayName : SQLDialect → String
  | .postgresql => "PostgreSQL"
  | .mysql => "MySQL"

/-- The header comment block; `now` is the value of
`new Date().toISOString()` at the moment of compilation. -/
def generateHeader (S : SchemaDefinition) (now : String) : String :=
  "-- ============================================\n-- Database Schema: " ++ S.name
    ++ "\n-- Dialect: " ++ dialectDisplayName S.dialect
    ++ "\n-- Generated: " ++ now
    ++ "\n-- Description: "
    ++ (if S.description = "" then "Auto-generated schema" else S.description)
    ++ "\n-- ============================================"

/-- Insertion-ordered collection of an element into a list (the model of
`Set.add` followed by iteration in insertion order). -/
def addDistinct (acc : List String) (s : String) : List String :=
  if s ∈ acc then acc else acc ++ [s]

/-- The distinct non-default namespaces referenced by the tables, in first
occurrence order. -/
def schemaNames (S : SchemaDefinition) : List String :=
  S.tables.foldl
    (fun acc t => if t.schema ≠ "" ∧ t.schema ≠ "public" then addDistinct acc t.schema else acc)
    []

def generateSchemaStatements (S : SchemaDefinition) : String :=
  if schemaNames S = [] then ""
  else joinSep "\n"
    ((schemaNames S).map (fun s => "CREATE SCHEMA IF NOT EXISTS " ++ quoteId S.dialect s ++ ";"))

/-- One `CREATE TYPE … AS ENUM (…)` statement per enum column with a
nonempty value list, in table-then-column order. -/
def enumTypeLines (S : SchemaDefinition) : List String :=
  S.tables.foldl
    (fun acc tb =>
      tb.columns.foldl
        (fun acc2 col =>
          acc2 ++
            (if col.type = ColumnType.enum ∧ col.enumValues ≠ [] then
              ["CREATE TYPE " ++ tb.name ++ "_" ++ col.name ++ "_enum AS ENUM ("
                ++ joinSep ", " (col.enumValues.map (fun v => "'" ++ v ++ "'")) ++ ");"]
            else []))
        acc)
    []

def generateEnumTypes (S : SchemaDefinition) : String :=
  if enumTypeLines S = [] then ""
  else "-- Enum Types\n" ++ joinSep "\n" (enumTypeLines S)

/-- The (possibly namespace-qualified) quoted table name. -/
def qualifiedTableName (d : SQLDialect) (tb : TableDefinition) : String :=
  if tb.schema ≠ "" then quoteId d tb.schema ++ "." ++ quoteId d tb.name
  else quoteId d tb.name

/-- `getColumnType`: the physical type keyword with length / precision and
scale / enum special cases. -/
def getColumnType (d : SQLDialect) (tb : TableDefinition) (col : ColumnDefinition) : String :=
  match col.type with
  | .varchar =>
    typeMapping d col.type ++ "(" ++ natStr (if col.length = 0 then 255 else col.length) ++ ")"
  | .char =>
    typeMapping d col.type ++ "(" ++ natStr (if col.length = 0 then 255 else col.length) ++ ")"
  | .decimal =>
    typeMapping d col.type ++ "(" ++ natStr (if col.precision = 0 then 10 else col.precision)
      ++ ", " ++ natStr (if col.scale = 0 then 2 else col.scale) ++ ")"
  | .numeric =>
    typeMapping d col.type ++ "(" ++ natStr (if col.precision = 0 then 10 else col.precision)
      ++ ", " ++ natStr (if col.scale = 0 then 2 else col.scale) ++ ")"
  | .enum =>
    if d = SQLDialect.postgresql then tb.name ++ "_" ++ col.name ++ "_enum"
    else "ENUM(" ++ joinSep ", " (col.enumValues.map (fun v => "'" ++ v ++ "'")) ++ ")"
  | _ => typeMapping d col.type

/-- Whether a string default is recognized as a SQL function expression
(case-insensitive containment of one of the three markers). -/
def isFnMarker (s : String) : Bool :=
  containsSub "CURRENT_TIMESTAMP".data (upperChars s.data)
    || containsSub "NOW()".data (upperChars s.data)
    || containsSub "UUID".data (upperChars s.data)

/-- `formatDefaultValue`. -/
def formatDefaultValue (d : SQLDialect) (col : ColumnDefinition) : String :=
  match col.defaultValue with
  | some DefaultValue.vNull => "NULL"
  | some (DefaultValue.vBool b) =>
    if d = SQLDialect.mysql then (if b then "1" else "0") else (if b then "TRUE" else "FALSE")
  | some (DefaultValue.vNum n) => intStr n
  | some (DefaultValue.vStr s) =>
    if isFnMarker s then s else "'" ++ escapeString s ++ "'"
  | none => "undefined"

/-- The space-separated parts of one column definition line.  A `DEFAULT`
part is emitted only when the default value is present and not `null`. -/
def colParts (d : SQLDialect) (tb : TableDefinition) (col : ColumnDefinition) : List String :=
  ["  " ++ quoteId d col.name, getColumnType d tb col]
    ++ (if col.isNullable = false ∧ col.isPrimaryKey = false then ["NOT NULL"] else [])
    ++ (if col.isUnique = true ∧ col.isPrimaryKey = false then ["UNIQUE"] else [])
    ++ (match col.defaultValue with
        | none => []
        | some DefaultValue.vNull => []
        | some _ => ["DEFAULT " ++ formatDefaultValue d col])

def generateColumn (d : SQLDialect) (tb : TableDefinition) (col : ColumnDefinition) : String :=
  joinSep " " (colParts d tb col)

def pkColumns (tb : TableDefinition) : List ColumnDefinition :=
  tb.columns.filter (fun c => c.isPrimaryKey)

def pkClause (d : SQLDialect) (tb : TableDefinition) : String :=
  "  PRIMARY KEY (" ++ joinSep ", " ((pkColumns tb).map (fun c => quoteId d c.name)) ++ ")"

/-- The comma-joined body entries of a `CREATE TABLE`: one per column, plus
the trailing primary-key constraint when primary-key columns exist. -/
def columnDefs (d : SQLDialect) (tb : TableDefinition) : List String :=
  tb.columns.map (generateColumn d tb)
    ++ (if (pkColumns tb).isEmpty then [] else [pkClause d tb])

/-- PostgreSQL `COMMENT ON` statements for a table. -/
def commentStatements (d : SQLDialect) (tb : TableDefinition) : List String :=
  (if tb.comment = "" then []
   else ["COMMENT ON TABLE " ++ qualifiedTableName d tb ++ " IS '"
     ++ escapeString tb.comment ++ "';"])
    ++ tb.columns.foldl
      (fun acc col =>
        acc ++
          (if col.comment = "" then []
          else ["COMMENT ON COLUMN " ++ qualifiedTableName d tb ++ "." ++ quoteId d col.name
            ++ " IS '" ++ escapeString col.comment ++ "';"]))
      []

/-- The newline-joined pieces of one table's DDL (the `lines` array of
`generateTable`; the third entry carries embedded newlines from the
`',\n'` join of the column definitions). -/
def tableLines (d : SQLDialect) (tb : TableDefinition) : List String :=
  (if tb.comment = "" then [] else ["-- " ++ tb.comment])
    ++ ["CREATE TABLE " ++ qualifiedTableName d tb ++ " ("]
    ++ [joinSep ",\n" (columnDefs d tb)]
    ++ [")" ++ (if d = SQLDialect.mysql then " ENGINE=InnoDB DEFAULT CHARSET=utf8mb4" else "")
      ++ ";"]
    ++ (if d = SQLDialect.postgresql then commentStatements d tb else [])

def generateTable (d : SQLDialect) (tb : TableDefinition) : String :=
  joinSep "\n" (tableLines d tb)

def generateTables (S : SchemaDefinition) : String :=
  "-- Tables\n" ++ joinSep "\n\n" (S.tables.map (generateTable S.dialect))

def indexLine (d : SQLDialect) (tb : TableDefinition) (idx : IndexDefinition) : String :=
  "CREATE " ++ (if idx.isUnique then "UNIQUE " else "") ++ "INDEX " ++ quoteId d idx.name
    ++ " ON " ++ qualifiedTableName d tb
    ++ (match idx.type with
        | some t => if d = SQLDialect.postgresql ∧ t ≠ IndexType.btree
            then " USING " ++ upperIndexType t else ""
        | none => "")
    ++ " (" ++ joinSep ", " (idx.columns.map (quoteId d)) ++ ");"

def indexLines (S : SchemaDefinition) : List String :=
  S.tables.foldl (fun acc tb => acc ++ tb.indexes.map (indexLine S.dialect tb)) []

def generateIndexes (S : SchemaDefinition) : String :=
  if indexLines S = [] then ""
  else "-- Indexes\n" ++ joinSep "\n" (indexLines S)

def fkConstraint (d : SQLDialect) (tb : TableDefinition) (fk : ForeignKeyDefinition) : String :=
  "ALTER TABLE " ++ qualifiedTableName d tb
    ++ "\n  ADD CONSTRAINT " ++ quoteId d fk.constraintName
    ++ "\n  FOREIGN KEY (" ++ quoteId d fk.columnName ++ ")"
    ++ "\n  REFERENCES " ++ quoteId d fk.referencedTable ++ " (" ++ quoteId d fk.referencedColumn
    ++ ")"
    ++ "\n  ON DELETE " ++ onDeleteStr fk.onDelete
    ++ (match fk.onUpdate with
        | some a => " ON UPDATE " ++ onDeleteStr a
        | none => "")
    ++ ";"

def fkStatements (S : SchemaDefinition) : List String :=
  S.tables.foldl (fun acc tb => acc ++ tb.foreignKeys.map (fkConstraint S.dialect tb)) []

def generateForeignKeys (S : SchemaDefinition) : String :=
  if fkStatements S = [] then ""
  else "-- Foreign Key Constraints\n" ++ joinSep "\n\n" (fkStatements S)

/-- The relationships for which a junction table is emitted. -/
def junctionRels (S : SchemaDefinition) : List RelationshipDefinition :=
  S.relationships.filter
    (fun r => r.cardinality == Cardinality.manyToMany && r.junctionTable.isSome)

/-- The DDL of one junction table. -/
def junctionSQL (d : SQLDialect) (rel : RelationshipDefinition) : String :=
  match rel.junctionTable with
  | none => ""
  | some jt =>
    "-- Junction table for " ++ rel.sourceTable ++ " <-> " ++ rel.targetTable
      ++ "\nCREATE TABLE " ++ quoteId d jt.name ++ " ("
      ++ "\n  " ++ quoteId d jt.sourceColumn ++ " "
      ++ (if d = SQLDialect.postgresql then "INTEGER" else "INT") ++ " NOT NULL,"
      ++ "\n  " ++ quoteId d jt.targetColumn ++ " "
      ++ (if d = SQLDialect.postgresql then "INTEGER" else "INT") ++ " NOT NULL,"
      ++ "\n  created_at TIMESTAMP DEFAULT "
      ++ (if d = SQLDialect.postgresql then "CURRENT_TIMESTAMP" else "CURRENT_TIMESTAMP") ++ ","
      ++ "\n  PRIMARY KEY (" ++ quoteId d jt.sourceColumn ++ ", " ++ quoteId d jt.targetColumn
      ++ "),"
      ++ "\n  FOREIGN KEY (" ++ quoteId d jt.sourceColumn ++ ") REFERENCES "
      ++ quoteId d rel.sourceTable ++ " (" ++ quoteId d rel.sourceColumn
      ++ ") ON DELETE CASCADE,"
      ++ "\n  FOREIGN KEY (" ++ quoteId d jt.targetColumn ++ ") REFERENCES "
      ++ quoteId d rel.targetTable ++ " (" ++ quoteId d rel.targetColumn
      ++ ") ON DELETE CASCADE"
      ++ "\n)" ++ (if d = SQLDialect.mysql then " ENGINE=InnoDB DEFAULT CHARSET=utf8mb4" else "")
      ++ ";"

def generateJunctionTables (S : SchemaDefinition) : String :=
  if junctionRels S = [] then ""
  else "-- Junction Tables (Many-to-Many)\n"
    ++ joinSep "\n\n" ((junctionRels S).map (junctionSQL S.dialect))

/-- One PostgreSQL function parameter: direction prefix only for non-`IN`. -/
def pgParam (p : ProcedureParameter) : String :=
  p.name ++ " " ++ (if p.direction ≠ ParamDirection.dirIn then dirStr p.direction ++ " " else "")
    ++ typeMapping SQLDialect.postgresql p.type

def pgReturnType (proc : StoredProcedureDefinition) : String :=
  match proc.returnType with
  | none => "VOID"
  | some ProcReturnType.voidT => "VOID"
  | some ProcReturnType.tableT => "TABLE"
  | some (ProcReturnType.ofType t) => typeMapping SQLDialect.postgresql t

def generatePostgresFunction (proc : StoredProcedureDefinition) : String :=
  "-- " ++ (if proc.comment = "" then proc.name else proc.comment)
    ++ "\nCREATE OR REPLACE FUNCTION " ++ quoteId SQLDialect.postgresql proc.name ++ "("
    ++ joinSep ", " (proc.parameters.map pgParam) ++ ")"
    ++ "\nRETURNS " ++ pgReturnType proc
    ++ "\nLANGUAGE " ++ (if proc.language = "" then "plpgsql" else proc.language)
    ++ "\nAS $$\n" ++ proc.body ++ "\n$$;"

def generateMySQLProcedure (proc : StoredProcedureDefinition) : String :=
  "-- " ++ (if proc.comment = "" then proc.name else proc.comment)
    ++ "\nDELIMITER //\nCREATE PROCEDURE " ++ quoteId SQLDialect.mysql proc.name ++ "("
    ++ joinSep ", "
      (proc.parameters.map
        (fun p => dirStr p.direction ++ " " ++ p.name ++ " " ++ typeMapping SQLDialect.mysql p.type))
    ++ ")\nBEGIN\n" ++ proc.body ++ "\nEND //\nDELIMITER ;"

def generateStoredProcedures (S : SchemaDefinition) : String :=
  if S.storedProcedures = [] then ""
  else "-- Stored Procedures and Functions\n"
    ++ joinSep "\n\n"
      (S.storedProcedures.map
        (fun proc =>
          if S.dialect = SQLDialect.postgresql then generatePostgresFunction proc
          else generateMySQLProcedure proc))

/-- The section list pushed by `compile`, in order; conditional sections are
present exactly when the source pushes them (a pushed-but-empty section is
removed later by the trim filter, as in the source). -/
def sqlSections (S : SchemaDefinition) (now : String) : List String :=
  [generateHeader S now]
    ++ (if S.dialect = SQLDialect.postgresql ∧ S.tables.any (fun t => t.schema ≠ "") then
        [generateSchemaStatements S] else [])
    ++ (if S.dialect = SQLDialect.postgresql ∧ generateEnumTypes S ≠ "" then
        [generateEnumTypes S] else [])
    ++ [generateTables S]
    ++ (if generateIndexes S ≠ "" then [generateIndexes S] else [])
    ++ (if generateForeignKeys S ≠ "" then [generateForeignKeys S] else [])
    ++ (if generateJunctionTables S ≠ "" then [generateJunctionTables S] else [])
    ++ (if generateStoredProcedures S ≠ "" then [generateStoredProcedures S] else [])

/-- `SQLCompiler.compile`: the sections whose trim is nonempty, joined by
blank lines. -/
def compileSQL (S : SchemaDefinition) (now : String) : String :=
  joinSep "\n\n" ((sqlSections S now).filter (fun s => trimWS s != ""))

/-! ## The Mermaid ER-diagram compiler (engine/mermaidCompiler.ts) -/

/-- A "word" character of the Mermaid sanitizers: `[A-Za-z0-9_]`. -/
def wordChar (c : Char) : Bool := c.isAlphanum || c == '_'

/-- `sanitizeName`: replace every character outside `[A-Za-z0-9_]` by an
underscore. -/
def sanitizeName (s : String) : String :=
  ⟨s.data.map (fun c => if wordChar c then c else '_')⟩

/-- `sanitizeRelationName`: like `sanitizeName` but spaces are kept. -/
def sanitizeRelName (s : String) : String :=
  ⟨s.data.map (fun c => if wordChar c || c == ' ' then c else '_')⟩

/-- The Mermaid cardinality notation, left connector. -/
def cardLeft : Cardinality → String
  | .oneToOne => "||"
  | .oneToMany => "||"
  | .manyToMany => "\x7do"

/-- The Mermaid cardinality notation, right connector. -/
def cardRight : Cardinality → String
  | .oneToOne => "||"
  | .oneToMany => "o\x7b"
  | .manyToMany => "o\x7b"

/-- The simplified lowercase Mermaid column-type vocabulary. -/
def mermaidType : ColumnType → String
  | .integer => "int"
  | .bigint => "bigint"
  | .smallint => "smallint"
  | .serial => "serial"
  | .bigserial => "bigserial"
  | .varchar => "varchar"
  | .text => "text"
  | .char => "char"
  | .boolean => "boolean"
  | .date => "date"
  | .timestamp => "timestamp"
  | .timestamptz => "timestamptz"
  | .time => "time"
  | .decimal => "decimal"
  | .numeric => "numeric"
  | .float => "float"
  | .double => "double"
  | .json => "json"
  | .jsonb => "jsonb"
  | .uuid => "uuid"
  | .blob => "blob"
  | .enum => "enum"

/-- One column line of an entity block: type, sanitized name, and an
optional `"PK"` / `"UK"` marker (primary key takes precedence). -/
def mermaidColumnLine (col : ColumnDefinition) : String :=
  mermaidType col.type ++ " " ++ sanitizeName col.name
    ++ (let ms : List String :=
          (if col.isPrimaryKey then ["PK"] else [])
            ++ (if col.isUnique && !col.isPrimaryKey then ["UK"] else []);
        if ms = [] then "" else " \"" ++ joinSep "," ms ++ "\"")

/-- The entity block of one table. -/
def mermaidTableBlock (tb : TableDefinition) : List String :=
  ["    " ++ sanitizeName tb.name ++ " \x7b"]
    ++ tb.columns.map (fun col => "        " ++ mermaidColumnLine col)
    ++ ["    \x7d"]

/-- One explicit relationship line. -/
def mermaidRelLine (rel : RelationshipDefinition) : String :=
  "    " ++ sanitizeName rel.sourceTable ++ " " ++ cardLeft rel.cardinality ++ "--"
    ++ cardRight rel.cardinality ++ " " ++ sanitizeName rel.targetTable ++ " : \""
    ++ (if rel.name = "" then rel.sourceTable ++ "_to_" ++ rel.targetTable
        else sanitizeRelName rel.name)
    ++ "\""

/-- The `"source-target"` key under which a relationship pair is recorded. -/
def pairKey (a b : String) : String := a ++ "-" ++ b

/-- The synthesized one-to-many line from the referenced table to the
owning table. -/
def implicitLine (ref tn : String) : String :=
  "    " ++ sanitizeName ref ++ " ||--o\x7b " ++ sanitizeName tn ++ " : \"has_" ++ tn ++ "\""

/-- One step of the implicit-relationship loop: state is (emitted lines,
seen pair keys). -/
def implicitStep (tn : String) (acc : List String × List String)
    (fk : ForeignKeyDefinition) : List String × List String :=
  if acc.2.contains (pairKey tn fk.referencedTable)
      || acc.2.contains (pairKey fk.referencedTable tn) then acc
  else (acc.1 ++ [implicitLine fk.referencedTable tn], acc.2 ++ [pairKey tn fk.referencedTable])

/-- `generateImplicitRelationships`: the synthesized relationship lines for
foreign keys whose pair key is not yet recorded. -/
def generateImplicitRelationships (S : SchemaDefinition) : List String :=
  (S.tables.foldl (fun acc tb => tb.foreignKeys.foldl (implicitStep tb.name) acc)
    ([], S.relationships.map (fun r => pairKey r.sourceTable r.targetTable))).1

/-- All lines of the Mermaid diagram, in emission order. -/
def mermaidLines (S : SchemaDefinition) : List String :=
  ["erDiagram"]
    ++ S.tables.foldl (fun acc tb => acc ++ mermaidTableBlock tb) []
    ++ S.relationships.map mermaidRelLine
    ++ generateImplicitRelationships S

/-- `MermaidCompiler.compile`. -/
def compileMermaid (S : SchemaDefinition) : String :=
  joinSep "\n" (mermaidLines S)

/-! ## Schema-store update operations (store/schemaStore.ts) -/

/-- Lowercasing used by the deterministic junction column naming. -/
def lowerStr (s : String) : String := ⟨s.data.map Char.toLower⟩

/-- The junction descriptor `changeCardinality` installs when switching a
relationship to many-to-many. -/
def junctionFor (rel : RelationshipDefinition) : JunctionTable :=
  { name := rel.sourceTable ++ "_" ++ rel.targetTable
    sourceColumn := lowerStr rel.sourceTable ++ "_id"
    targetColumn := lowerStr rel.targetTable ++ "_id" }

/-- `changeCardinality` on the relationship list: if no relationship has
the id, the list is unchanged; otherwise every relationship with the id
gets the new cardinality and the junction descriptor computed from the
first found relationship (present exactly when the new cardinality is
many-to-many). -/
def changeCardinality (rels : List RelationshipDefinition) (rid : String)
    (c : Cardinality) : List RelationshipDefinition :=
  match rels.find? (fun r => r.id == rid) with
  | none => rels
  | some rel =>
    let jt : Option JunctionTable :=
      if c = Cardinality.manyToMany then some (junctionFor rel) else none
    rels.map (fun r => if r.id == rid then { r with cardinality := c, junctionTable := jt } else r)

/-- A `Partial<RelationshipDefinition>`: each field either absent or
present; a present `junctionTable` field itself carries an optional
descriptor. -/
structure RelationshipUpdate where
  id : Option String := none
  name : Option String := none
  sourceTable : Option String := none
  sourceColumn : Option String := none
  targetTable : Option String := none
  targetColumn : Option String := none
  cardinality : Option Cardinality := none
  onDelete : Option OnDeleteAction := none
  junctionTable : Option (Option JunctionTable) := none
deriving DecidableEq

/-- The spread `{ ...r, ...updates }`: present fields override. -/
def applyRelUpdate (r : RelationshipDefinition) (u : RelationshipUpdate) :
    RelationshipDefinition :=
  { id := u.id.getD r.id
    name := u.name.getD r.name
    sourceTable := u.sourceTable.getD r.sourceTable
    sourceColumn := u.sourceColumn.getD r.sourceColumn
    targetTable := u.targetTable.getD r.targetTable
    targetColumn := u.targetColumn.getD r.targetColumn
    cardinality := u.cardinality.getD r.cardinality
    onDelete := u.onDelete.getD r.onDelete
    junctionTable := u.junctionTable.getD r.junctionTable }

/-- `updateRelationship` on the relationship list. -/
def updateRelationship (rels : List RelationshipDefinition) (rid : String)
    (u : RelationshipUpdate) : List RelationshipDefinition :=
  rels.map (fun r => if r.id == rid then applyRelUpdate r u else r)

/-- The junction-descriptor invariant: the descriptor is present iff the
cardinality is many-to-many. -/
def junctionInvariant (r : RelationshipDefinition) : Prop :=
  r.junctionTable.isSome = true ↔ r.cardinality = Cardinality.manyToMany

instance (r : RelationshipDefinition) : Decidable (junctionInvariant r) := by
  unfold junctionInvariant; infer_instance

/-- `deleteTable`: find the table by id; when absent the state is returned
unchanged; when present the table (and every other table with the same id)
is removed, along with every relationship whose source or target table name
equals the found table's name, and `updatedAt` is refreshed by the
recompile wrapper. -/
def deleteTable (s : SchemaDefinition) (tid now : String) : SchemaDefinition :=
  match s.tables.find? (fun t => t.id == tid) with
  | none => s
  | some tb =>
    { s with
      updatedAt := now
      tables := s.tables.filter (fun t => !(t.id == tid))
      relationships := s.relationships.filter
        (fun r => !(r.sourceTable == tb.name) && !(r.targetTable == tb.name)) }

/-! ## Line-structure lemmas for the toolkit -/

theorem splitChar_ne_nil (c : Char) (xs : List Char) : splitChar c xs ≠ [] := by
  induction xs with
  | nil => simp [splitChar]
  | cons x xs ih =>
    cases h : splitChar c xs with
    | nil => exact absurd h ih
    | cons l ls =>
      simp only [splitChar, h]
      split <;> simp

theorem splitChar_append_cons (c : Char) (xs ys : List Char) :
    splitChar c (xs ++ c :: ys) = splitChar c xs ++ splitChar c ys := by
  induction xs with
  | nil =>
    cases h : splitChar c ys with
    | nil => exact absurd h (splitChar_ne_nil c ys)
    | cons l ls => simp [splitChar, h]
  | cons x xs ih =>
    cases h2 : splitChar c xs with
    | nil => exact absurd h2 (splitChar_ne_nil c xs)
    | cons m ms =>
      have hin : splitChar c (xs ++ c :: ys) = m :: (ms ++ splitChar c ys) := by
        rw [ih, h2]; rfl
      show splitChar c (x :: (xs ++ c :: ys)) = splitChar c (x :: xs) ++ splitChar c ys
      simp only [splitChar, hin, h2]
      split <;> simp

theorem splitChar_cons_self (c : Char) (zs : List Char) :
    splitChar c (c :: zs) = [] :: splitChar c zs := by
  have h := splitChar_append_cons c [] zs
  simpa [splitChar] using h

theorem splitChar_eq_single {c : Char} {xs : List Char} (h : c ∉ xs) :
    splitChar c xs = [xs] := by
  induction xs with
  | nil => simp [splitChar]
  | cons x xs ih =>
    have hx : x ≠ c := fun hxc => h (hxc ▸ List.mem_cons_self x xs)
    have hxs : c ∉ xs := fun hc => h (List.mem_cons_of_mem x hc)
    simp [splitChar, ih hxs, hx]

theorem mem_of_mem_splitChar {c : Char} {xs : List Char} :
    ∀ {l : List Char}, l ∈ splitChar c xs → ∀ a ∈ l, a ∈ xs := by
  induction xs with
  | nil =>
    intro l hl
    simp [splitChar] at hl
    subst hl; simp
  | cons x xs ih =>
    intro l hl
    cases h : splitChar c xs with
    | nil => exact absurd h (splitChar_ne_nil c xs)
    | cons m ms =>
      have hm : m ∈ splitChar c xs := by rw [h]; exact List.mem_cons_self m ms
      simp only [splitChar, h] at hl
      by_cases hx : x = c
      · simp only [hx, if_pos rfl] at hl
        rcases List.mem_cons.mp hl with h1 | h1
        · subst h1; simp
        · intro a ha
          exact List.mem_cons_of_mem x (ih (h ▸ h1) a ha)
      · simp only [if_neg hx] at hl
        rcases List.mem_cons.mp hl with h1 | h1
        · subst h1
          intro a ha
          rcases List.mem_cons.mp ha with h2 | h2
          · subst h2; simp
          · exact List.mem_cons_of_mem x (ih hm a h2)
        · intro a ha
          have hmem : l ∈ splitChar c xs := by
            rw [h]; exact List.mem_cons_of_mem m h1
          exact List.mem_cons_of_mem x (ih hmem a ha)

theorem joinSep_cons (sep x : String) {l : List String} (h : l ≠ []) :
    joinSep sep (x :: l) = x ++ sep ++ joinSep sep l := by
  cases l with
  | nil => exact absurd rfl h
  | cons y ys => rfl

theorem linesL_joinSep_nl {l : List String} (h : l ≠ []) :
    linesL (joinSep "\n" l) = (l.map linesL).flatten := by
  induction l with
  | nil => exact absurd rfl h
  | cons x rest ih =>
    cases rest with
    | nil => simp [joinSep, linesL]
    | cons y ys =>
      have hd : (x ++ "\n" ++ joinSep "\n" (y :: ys)).data
          = x.data ++ '\n' :: (joinSep "\n" (y :: ys)).data := by
        simp [String.data_append]
      simp only [joinSep_cons _ _ (List.cons_ne_nil y ys), linesL, hd,
        splitChar_append_cons, List.map_cons, List.flatten_cons]
      congr 1
      exact ih (List.cons_ne_nil y ys)

/-- Filter the lines of a string by a predicate. -/
def lineFilter (p : List Char → Bool) (s : String) : List (List Char) :=
  (linesL s).filter p

theorem filter_flatten (p : List Char → Bool) (L : List (List (List Char))) :
    L.flatten.filter p = (L.map (List.filter p)).flatten := by
  induction L with
  | nil => rfl
  | cons x xs ih => simp [List.filter_append, ih]

theorem lineFilter_joinSep_blank (p : List Char → Bool) (hp : p [] = false)
    (l : List String) :
    lineFilter p (joinSep "\n\n" l) = (l.map (lineFilter p)).flatten := by
  induction l with
  | nil => simp [joinSep, lineFilter, linesL, splitChar, hp]
  | cons x rest ih =>
    cases rest with
    | nil => simp [joinSep, lineFilter]
    | cons y ys =>
      have hd : (x ++ "\n\n" ++ joinSep "\n\n" (y :: ys)).data
          = x.data ++ '\n' :: '\n' :: (joinSep "\n\n" (y :: ys)).data := by
        simp [String.data_append]
      simp only [joinSep_cons _ _ (List.cons_ne_nil y ys), lineFilter, linesL, hd,
        splitChar_append_cons, splitChar_cons_self, List.map_cons, List.flatten_cons]
      rw [List.filter_append, List.filter_cons_of_neg (by simp [hp])]
      exact congrArg (fun t => List.filter p (splitChar '\n' x.data) ++ t) ih

theorem lineFilter_joinSep_nl (p : List Char → Bool) {l : List String} (h : l ≠ []) :
    lineFilter p (joinSep "\n" l) = (l.map (lineFilter p)).flatten := by
  simp only [lineFilter, linesL_joinSep_nl h, filter_flatten, List.map_map]
  rfl

theorem flatten_map_filter {α β : Type} {f : α → List β} {q : α → Bool}
    (h : ∀ s, q s = false → f s = []) (l : List α) :
    ((l.filter q).map f).flatten = (l.map f).flatten := by
  induction l with
  | nil => rfl
  | cons x xs ih =>
    by_cases hx : q x
    · simp [List.filter_cons_of_pos hx, ih]
    · rw [List.filter_cons_of_neg (by simp [hx]), List.map_cons, List.flatten_cons,
        h x (Bool.eq_false_iff.mpr hx), List.nil_append, ih]

/-! ## Prefix tests and line predicates -/

theorem leadsWith_iff {p l : List Char} : leadsWith p l = true ↔ p <+: l := by
  induction p generalizing l with
  | nil => simp [leadsWith]
  | cons a as ih =>
    cases l with
    | nil => simp [leadsWith]
    | cons b bs =>
      simp [leadsWith, ih, List.cons_prefix_cons]

theorem leadsWith_append_self (p r : List Char) : leadsWith p (p ++ r) = true :=
  leadsWith_iff.mpr (List.prefix_append p r)

theorem not_leadsWith_of_diverge {p a : List Char} (h1 : leadsWith p a = false)
    (h2 : leadsWith a p = false) (b : List Char) : leadsWith p (a ++ b) = false := by
  by_contra hcon
  have hp : p <+: a ++ b := leadsWith_iff.mp (eq_true_of_ne_false hcon)
  rcases le_or_lt p.length a.length with hle | hlt
  · have hpa : p <+: a := List.prefix_of_prefix_length_le hp (List.prefix_append a b) hle
    rw [leadsWith_iff.mpr hpa] at h1
    cases h1
  · have hap : a <+: p := List.prefix_of_prefix_length_le (List.prefix_append a b) hp hlt.le
    rw [leadsWith_iff.mpr hap] at h2
    cases h2

theorem leadsWith_cons_false {x y : Char} (h : x ≠ y) (p l : List Char) :
    leadsWith (x :: p) (y :: l) = false := by
  simp [leadsWith, h]

/-- A line that is a `CREATE TABLE` statement opener. -/
def ctLine (l : List Char) : Bool := leadsWith "CREATE TABLE ".data l

/-- A line that is an `ALTER TABLE` statement opener. -/
def atLine (l : List Char) : Bool := leadsWith "ALTER TABLE ".data l

/-- A line that opens either kind of statement. -/
def caLine (l : List Char) : Bool := ctLine l || atLine l

theorem ctLine_false_of_head {c : Char} (h : c ≠ 'C') (l : List Char) :
    ctLine (c :: l) = false := by
  have hd : "CREATE TABLE ".data = 'C' :: "REATE TABLE ".data := rfl
  rw [ctLine, hd]
  exact leadsWith_cons_false (Ne.symm h) _ _

theorem atLine_false_of_head {c : Char} (h : c ≠ 'A') (l : List Char) :
    atLine (c :: l) = false := by
  have hd : "ALTER TABLE ".data = 'A' :: "LTER TABLE ".data := rfl
  rw [atLine, hd]
  exact leadsWith_cons_false (Ne.symm h) _ _

theorem caLine_false_of_head {c : Char} (hc : c ≠ 'C') (ha : c ≠ 'A') (l : List Char) :
    caLine (c :: l) = false := by
  simp [caLine, ctLine_false_of_head hc, atLine_false_of_head ha]

theorem ctLine_append_true (r : List Char) : ctLine ("CREATE TABLE ".data ++ r) = true :=
  leadsWith_append_self _ r

theorem atLine_append_true (r : List Char) : atLine ("ALTER TABLE ".data ++ r) = true :=
  leadsWith_append_self _ r

theorem ctLine_false_lit (lit : String)
    (h1 : leadsWith "CREATE TABLE ".data lit.data = false)
    (h2 : leadsWith lit.data "CREATE TABLE ".data = false) (r : List Char) :
    ctLine (lit.data ++ r) = false :=
  not_leadsWith_of_diverge h1 h2 r

theorem atLine_false_lit (lit : String)
    (h1 : leadsWith "ALTER TABLE ".data lit.data = false)
    (h2 : leadsWith lit.data "ALTER TABLE ".data = false) (r : List Char) :
    atLine (lit.data ++ r) = false :=
  not_leadsWith_of_diverge h1 h2 r

/-! ## Trim lemmas -/

theorem trimWS_ne_empty {s : String} {c : Char} {r : List Char}
    (h : s.data = c :: r) (hc : wsChar c = false) : trimWS s ≠ "" := by
  intro hcon
  have hdata : ((s.data.dropWhile wsChar).reverse.dropWhile wsChar).reverse = [] := by
    have := congrArg String.data hcon
    simpa [trimWS] using this
  rw [h, List.dropWhile_cons_of_neg (by simp [hc])] at hdata
  rw [List.reverse_eq_nil_iff, List.dropWhile_eq_nil_iff] at hdata
  have := hdata c (by simp)
  rw [hc] at this
  cases this

theorem allWS_of_trimWS_empty {s : String} (h : trimWS s = "") :
    ∀ c ∈ s.data, wsChar c = true := by
  have hdata : ((s.data.dropWhile wsChar).reverse.dropWhile wsChar).reverse = [] := by
    have := congrArg String.data h
    simpa [trimWS] using this
  rw [List.reverse_eq_nil_iff, List.dropWhile_eq_nil_iff] at hdata
  have hdrop : ∀ c ∈ s.data.dropWhile wsChar, wsChar c = true := by
    intro c hcmem
    exact hdata c (List.mem_reverse.mpr hcmem)
  intro c hc
  rcases List.mem_append.mp
      ((@List.takeWhile_append_dropWhile _ wsChar s.data) ▸ hc) with h1 | h1
  · exact List.mem_takeWhile_imp h1
  · exact hdrop c h1

theorem ctLine_false_of_ws {l : List Char} (h : ∀ c ∈ l, wsChar c = true) :
    ctLine l = false := by
  cases l with
  | nil => rfl
  | cons c r =>
    have hc : wsChar c = true := h c (List.mem_cons_self c r)
    refine ctLine_false_of_head (fun he => ?_) r
    subst he
    simp [wsChar] at hc

theorem atLine_false_of_ws {l : List Char} (h : ∀ c ∈ l, wsChar c = true) :
    atLine l = false := by
  cases l with
  | nil => rfl
  | cons c r =>
    have hc : wsChar c = true := h c (List.mem_cons_self c r)
    refine atLine_false_of_head (fun he => ?_) r
    subst he
    simp [wsChar] at hc

theorem caLine_false_of_ws {l : List Char} (h : ∀ c ∈ l, wsChar c = true) :
    caLine l = false := by
  simp [caLine, ctLine_false_of_ws h, atLine_false_of_ws h]

theorem lineFilter_empty_of_trim {p : List Char → Bool}
    (hws : ∀ l, (∀ c ∈ l, wsChar c = true) → p l = false) {s : String}
    (h : trimWS s = "") : lineFilter p s = [] := by
  rw [lineFilter, List.filter_eq_nil_iff]
  intro l hl
  simp [hws l (fun c hc => allWS_of_trimWS_empty h c (mem_of_mem_splitChar hl c hc))]

/-- The filtered lines of the compiled SQL are the concatenation of the
filtered lines of the individual sections (a dropped all-whitespace section
contributes nothing). -/
theorem lineFilter_compileSQL (p : List Char → Bool) (hp : p [] = false)
    (hws : ∀ l, (∀ c ∈ l, wsChar c = true) → p l = false)
    (S : SchemaDefinition) (now : String) :
    lineFilter p (compileSQL S now) = ((sqlSections S now).map (lineFilter p)).flatten := by
  rw [compileSQL, lineFilter_joinSep_blank p hp]
  refine flatten_map_filter (fun s hs => lineFilter_empty_of_trim hws ?_) _
  simpa using hs

/-! ## No-newline side conditions

The line-level theorems about the compiled SQL hold for schemas whose
free-text fields contain no newline character (multi-line names or comments
would introduce arbitrary extra lines into the output).  Stored-procedure
bodies are exempt: they are genuinely multi-line and get their own side
condition where needed. -/

def noNL (s : String) : Prop := '\n' ∉ s.data

instance (s : String) : Decidable (noNL s) := by
  unfold noNL; infer_instance

theorem noNL_append {a b : String} (ha : noNL a) (hb : noNL b) : noNL (a ++ b) := by
  intro h
  rw [String.data_append] at h
  rcases List.mem_append.mp h with h1 | h1
  exacts [ha h1, hb h1]

def dvNoNL : Option DefaultValue → Prop
  | some (DefaultValue.vStr s) => noNL s
  | _ => True

instance (o : Option DefaultValue) : Decidable (dvNoNL o) :=
  match o with
  | none => isTrue trivial
  | some DefaultValue.vNull => isTrue trivial
  | some (DefaultValue.vBool _) => isTrue trivial
  | some (DefaultValue.vNum _) => isTrue trivial
  | some (DefaultValue.vStr s) => (inferInstance : Decidable (noNL s))

def jtNoNL : Option JunctionTable → Prop
  | some jt => noNL jt.name ∧ noNL jt.sourceColumn ∧ noNL jt.targetColumn
  | none => True

instance (o : Option JunctionTable) : Decidable (jtNoNL o) :=
  match o with
  | none => isTrue trivial
  | some jt =>
    (inferInstance : Decidable (noNL jt.name ∧ noNL jt.sourceColumn ∧ noNL jt.targetColumn))

def colNoNL (c : ColumnDefinition) : Prop :=
  noNL c.name ∧ noNL c.comment ∧ (∀ v ∈ c.enumValues, noNL v) ∧ dvNoNL c.defaultValue

def idxNoNL (i : IndexDefinition) : Prop :=
  noNL i.name ∧ ∀ cn ∈ i.columns, noNL cn

def fkNoNL (f : ForeignKeyDefinition) : Prop :=
  noNL f.constraintName ∧ noNL f.columnName ∧ noNL f.referencedTable ∧ noNL f.referencedColumn

def tableNoNL (t : TableDefinition) : Prop :=
  noNL t.name ∧ noNL t.schema ∧ noNL t.comment ∧ (∀ c ∈ t.columns, colNoNL c)
    ∧ (∀ i ∈ t.indexes, idxNoNL i) ∧ (∀ f ∈ t.foreignKeys, fkNoNL f)

def relNoNL (r : RelationshipDefinition) : Prop :=
  noNL r.sourceTable ∧ noNL r.sourceColumn ∧ noNL r.targetTable ∧ noNL r.targetColumn
    ∧ jtNoNL r.junctionTable

def procNoNL (p : StoredProcedureDefinition) : Prop :=
  noNL p.name ∧ noNL p.comment ∧ noNL p.language ∧ ∀ q ∈ p.parameters, noNL q.name

def schemaNoNL (S : SchemaDefinition) : Prop :=
  noNL S.name ∧ noNL S.description ∧ (∀ t ∈ S.tables, tableNoNL t)
    ∧ (∀ r ∈ S.relationships, relNoNL r) ∧ (∀ p ∈ S.storedProcedures, procNoNL p)

/-- Every line of every stored-procedure body avoids the predicate `p`
(used with the statement-opener predicates: a body line must not itself
look like a `CREATE TABLE` or `ALTER TABLE` opener). -/
def bodiesFree (p : List Char → Bool) (S : SchemaDefinition) : Prop :=
  ∀ proc ∈ S.storedProcedures, ∀ l ∈ linesL proc.body, p l = false

instance (c : ColumnDefinition) : Decidable (colNoNL c) := by
  unfold colNoNL; infer_instance

instance (i : IndexDefinition) : Decidable (idxNoNL i) := by
  unfold idxNoNL; infer_instance

instance (f : ForeignKeyDefinition) : Decidable (fkNoNL f) := by
  unfold fkNoNL; infer_instance

instance (t : TableDefinition) : Decidable (tableNoNL t) := by
  unfold tableNoNL; infer_instance

instance (r : RelationshipDefinition) : Decidable (relNoNL r) := by
  unfold relNoNL; infer_instance

instance (p : StoredProcedureDefinition) : Decidable (procNoNL p) := by
  unfold procNoNL; infer_instance

instance (S : SchemaDefinition) : Decidable (schemaNoNL S) := by
  unfold schemaNoNL; infer_instance

instance (p : List Char → Bool) (S : SchemaDefinition) : Decidable (bodiesFree p S) := by
  unfold bodiesFree; infer_instance

/-! ## Line-shape facts -/

theorem ct_at_head (lit : String) {c : Char} {r : List Char} (hlit : lit.data = c :: r)
    (hc : c ≠ 'C') (ha : c ≠ 'A') (x : String) :
    ctLine (lit ++ x).data = false ∧ atLine (lit ++ x).data = false := by
  have hd : (lit ++ x).data = c :: (r ++ x.data) := by
    rw [String.data_append, hlit]; rfl
  rw [hd]
  exact ⟨ctLine_false_of_head hc _, atLine_false_of_head ha _⟩

theorem ca_dashdash (x : String) : caLine ("-- " ++ x).data = false := by
  have h := ct_at_head "-- " rfl (by decide) (by decide) x
  unfold caLine
  rw [h.1, h.2]
  rfl

theorem ca_dashdash_ct (x : String) : ctLine ("-- " ++ x).data = false :=
  (ct_at_head "-- " rfl (by decide) (by decide) x).1

theorem ca_dashdash_at (x : String) : atLine ("-- " ++ x).data = false :=
  (ct_at_head "-- " rfl (by decide) (by decide) x).2

theorem ca_twoSpace (x : String) : caLine ("  " ++ x).data = false := by
  have h := ct_at_head "  " rfl (by decide) (by decide) x
  unfold caLine
  rw [h.1, h.2]
  rfl

theorem ca_closeParen (x : String) : caLine (")" ++ x).data = false := by
  have h := ct_at_head ")" rfl (by decide) (by decide) x
  unfold caLine
  rw [h.1, h.2]
  rfl

theorem ca_returns (x : String) : caLine ("RETURNS " ++ x).data = false := by
  have h := ct_at_head "RETURNS " rfl (by decide) (by decide) x
  unfold caLine
  rw [h.1, h.2]
  rfl

theorem ca_language (x : String) : caLine ("LANGUAGE " ++ x).data = false := by
  have h := ct_at_head "LANGUAGE " rfl (by decide) (by decide) x
  unfold caLine
  rw [h.1, h.2]
  rfl

/-- `CREATE …` lines that are not `CREATE TABLE` lines: the literal prefix
diverges from both statement-opener patterns within the literal. -/
theorem ca_lit_diverge (lit : String)
    (h1 : leadsWith "CREATE TABLE ".data lit.data = false)
    (h2 : leadsWith lit.data "CREATE TABLE ".data = false)
    (h3 : leadsWith "ALTER TABLE ".data lit.data = false)
    (h4 : leadsWith lit.data "ALTER TABLE ".data = false)
    (x : String) : caLine (lit ++ x).data = false := by
  rw [caLine, String.data_append]
  simp [ctLine_false_lit lit h1 h2, atLine_false_lit lit h3 h4]

theorem ca_createSchema (x : String) :
    caLine ("CREATE SCHEMA IF NOT EXISTS " ++ x).data = false :=
  ca_lit_diverge "CREATE SCHEMA IF NOT EXISTS " (by decide) (by decide) (by decide) (by decide) x

theorem ca_createType (x : String) : caLine ("CREATE TYPE " ++ x).data = false :=
  ca_lit_diverge "CREATE TYPE " (by decide) (by decide) (by decide) (by decide) x

theorem ca_createIndex (x : String) : caLine ("CREATE INDEX " ++ x).data = false :=
  ca_lit_diverge "CREATE INDEX " (by decide) (by decide) (by decide) (by decide) x

theorem ca_createUniqueIndex (x : String) :
    caLine ("CREATE UNIQUE INDEX " ++ x).data = false :=
  ca_lit_diverge "CREATE UNIQUE INDEX " (by decide) (by decide) (by decide) (by decide) x

theorem ca_createFunction (x : String) :
    caLine ("CREATE OR REPLACE FUNCTION " ++ x).data = false :=
  ca_lit_diverge "CREATE OR REPLACE FUNCTION " (by decide) (by decide) (by decide) (by decide) x

theorem ca_createProcedure (x : String) :
    caLine ("CREATE PROCEDURE " ++ x).data = false :=
  ca_lit_diverge "CREATE PROCEDURE " (by decide) (by decide) (by decide) (by decide) x

theorem ca_commentOn (x : String) : caLine ("COMMENT ON " ++ x).data = false :=
  ca_lit_diverge "COMMENT ON " (by decide) (by decide) (by decide) (by decide) x

theorem ct_createTable (x : String) : ctLine ("CREATE TABLE " ++ x).data = true := by
  rw [String.data_append]; exact ctLine_append_true _

theorem at_createTable (x : String) : atLine ("CREATE TABLE " ++ x).data = false := by
  have hd : ("CREATE TABLE " ++ x).data = 'C' :: ("REATE TABLE " ++ x).data := by
    rw [String.data_append]; rfl
  rw [hd]; exact atLine_false_of_head (by decide) _

theorem at_alterTable (x : String) : atLine ("ALTER TABLE " ++ x).data = true := by
  rw [String.data_append]; exact atLine_append_true _

theorem ct_alterTable (x : String) : ctLine ("ALTER TABLE " ++ x).data = false := by
  have hd : ("ALTER TABLE " ++ x).data = 'A' :: ("LTER TABLE " ++ x).data := by
    rw [String.data_append]; rfl
  rw [hd]; exact ctLine_false_of_head (by decide) _

theorem ca_alterTable (x : String) : caLine ("ALTER TABLE " ++ x).data = true := by
  unfold caLine
  rw [at_alterTable]
  exact Bool.or_true _

theorem ca_createTable (x : String) : caLine ("CREATE TABLE " ++ x).data = true := by
  unfold caLine
  rw [ct_createTable]
  exact Bool.true_or _

/-! ## String-level line-filter algebra -/

theorem lineFilter_append_sep (p : List Char → Bool) (a b : String) :
    lineFilter p (a ++ "\n" ++ b) = lineFilter p a ++ lineFilter p b := by
  have hd : (a ++ "\n" ++ b).data = a.data ++ '\n' :: b.data := by
    simp [String.data_append]
  rw [lineFilter, linesL, hd, splitChar_append_cons, List.filter_append]
  rfl

theorem lineFilter_single (p : List Char → Bool) {s : String} (h : noNL s) :
    lineFilter p s = if p s.data then [s.data] else [] := by
  rw [lineFilter, linesL, splitChar_eq_single h]
  by_cases hp : p s.data
  · simp [List.filter, hp]
  · simp [List.filter, hp]

theorem lineFilter_single_false (p : List Char → Bool) {s : String} (h : noNL s)
    (hp : p s.data = false) : lineFilter p s = [] := by
  rw [lineFilter_single p h, hp]
  rfl

theorem lineFilter_single_true (p : List Char → Bool) {s : String} (h : noNL s)
    (hp : p s.data = true) : lineFilter p s = [s.data] := by
  rw [lineFilter_single p h, hp]
  rfl

/-! ## Section line characterizations: header -/

theorem header_reassoc (S : SchemaDefinition) (now : String) :
    generateHeader S now
      = "-- ============================================" ++ "\n"
        ++ ("-- Database Schema: " ++ S.name) ++ "\n"
        ++ ("-- Dialect: " ++ dialectDisplayName S.dialect) ++ "\n"
        ++ ("-- Generated: " ++ now) ++ "\n"
        ++ ("-- Description: "
          ++ (if S.description = "" then "Auto-generated schema" else S.description)) ++ "\n"
        ++ "-- ============================================" := by
  apply String.ext
  simp [generateHeader, String.data_append, List.append_assoc]

theorem noNL_descStr (S : SchemaDefinition) (h : noNL S.description) :
    noNL (if S.description = "" then "Auto-generated schema" else S.description) := by
  split
  · decide
  · exact h

theorem noNL_dialect (S : SchemaDefinition) : noNL (dialectDisplayName S.dialect) := by
  cases S.dialect <;> decide

theorem caFilter_header (S : SchemaDefinition) (now : String) (h1 : noNL S.name)
    (h2 : noNL S.description) (h3 : noNL now) :
    lineFilter caLine (generateHeader S now) = [] := by
  have f2 : caLine ("-- Database Schema: " ++ S.name).data = false :=
    ca_dashdash ("Database Schema: " ++ S.name)
  have f3 : caLine ("-- Dialect: " ++ dialectDisplayName S.dialect).data = false :=
    ca_dashdash ("Dialect: " ++ dialectDisplayName S.dialect)
  have f4 : caLine ("-- Generated: " ++ now).data = false :=
    ca_dashdash ("Generated: " ++ now)
  have f5 : caLine ("-- Description: "
      ++ (if S.description = "" then "Auto-generated schema" else S.description)).data = false :=
    ca_dashdash ("Description: "
      ++ (if S.description = "" then "Auto-generated schema" else S.description))
  rw [header_reassoc]
  simp only [lineFilter_append_sep]
  rw [lineFilter_single_false caLine (by decide) (by decide),
    lineFilter_single_false caLine (noNL_append (by decide) h1) f2,
    lineFilter_single_false caLine (noNL_append (by decide) (noNL_dialect S)) f3,
    lineFilter_single_false caLine (noNL_append (by decide) h3) f4,
    lineFilter_single_false caLine (noNL_append (by decide) (noNL_descStr S h2)) f5]
  rfl

/-! ## Fold and membership helpers -/

theorem foldl_append_eq {α β : Type} (g : α → List β) (l : List α) (acc : List β) :
    l.foldl (fun a t => a ++ g t) acc = acc ++ (l.map g).flatten := by
  induction l generalizing acc with
  | nil => simp
  | cons x xs ih => simp [List.foldl_cons, ih (acc ++ g x)]

theorem mem_addDistinct {acc : List String} {s x : String} (h : x ∈ addDistinct acc s) :
    x ∈ acc ∨ x = s := by
  unfold addDistinct at h
  split at h
  · exact Or.inl h
  · rcases List.mem_append.mp h with h1 | h1
    · exact Or.inl h1
    · exact Or.inr (List.mem_singleton.mp h1)

theorem mem_schemaNames {S : SchemaDefinition} {s : String} (h : s ∈ schemaNames S) :
    ∃ t ∈ S.tables, t.schema = s := by
  unfold schemaNames at h
  suffices hgen : ∀ (l : List TableDefinition) (acc : List String),
      s ∈ l.foldl
        (fun acc t => if t.schema ≠ "" ∧ t.schema ≠ "public" then addDistinct acc t.schema
          else acc) acc
      → s ∈ acc ∨ ∃ t ∈ l, t.schema = s by
    rcases hgen S.tables [] h with h1 | h1
    · cases h1
    · exact h1
  intro l
  induction l with
  | nil => intro acc hacc; exact Or.inl hacc
  | cons t ts ih =>
    intro acc hacc
    rw [List.foldl_cons] at hacc
    rcases ih _ hacc with h1 | h1
    · split at h1
      · rcases mem_addDistinct h1 with h2 | h2
        · exact Or.inl h2
        · exact Or.inr ⟨t, List.mem_cons_self t ts, h2.symm⟩
      · exact Or.inl h1
    · rcases h1 with ⟨u, hu, hus⟩
      exact Or.inr ⟨u, List.mem_cons_of_mem t hu, hus⟩

theorem noNL_quoteId {d : SQLDialect} {s : String} (h : noNL s) : noNL (quoteId d s) := by
  cases d
  · exact noNL_append (noNL_append (by decide) h) (by decide)
  · exact noNL_append (noNL_append (by decide) h) (by decide)

theorem noNL_joinSep {sep : String} (hsep : noNL sep) {l : List String}
    (h : ∀ x ∈ l, noNL x) : noNL (joinSep sep l) := by
  induction l with
  | nil => simp [joinSep, noNL]
  | cons x rest ih =>
    cases rest with
    | nil => exact h x (List.mem_singleton.mpr rfl)
    | cons y ys =>
      rw [joinSep_cons _ _ (List.cons_ne_nil y ys)]
      exact noNL_append (noNL_append (h x (List.mem_cons_self x _)) hsep)
        (ih (fun z hz => h z (List.mem_cons_of_mem x hz)))

theorem noNL_qualifiedTableName {d : SQLDialect} {tb : TableDefinition}
    (hn : noNL tb.name) (hs : noNL tb.schema) : noNL (qualifiedTableName d tb) := by
  unfold qualifiedTableName
  split
  · exact noNL_append (noNL_append (noNL_quoteId hs) (by decide)) (noNL_quoteId hn)
  · exact noNL_quoteId hn

/-! ## Section line characterizations: schema statements, enums, indexes -/

theorem caFilter_schemaStatements (S : SchemaDefinition)
    (h : ∀ t ∈ S.tables, noNL t.schema) :
    lineFilter caLine (generateSchemaStatements S) = [] := by
  unfold generateSchemaStatements
  split
  · exact lineFilter_single_false caLine (by decide) (by decide)
  · rename_i hne
    rw [lineFilter_joinSep_nl caLine (by simpa using hne)]
    rw [List.flatten_eq_nil_iff]
    intro piece hpiece
    rw [List.map_map] at hpiece
    rcases List.mem_map.mp hpiece with ⟨nmv, hnm, heq⟩
    rcases mem_schemaNames hnm with ⟨t, ht, hts⟩
    have hnl : noNL nmv := hts ▸ h t ht
    have hfalse : caLine ("CREATE SCHEMA IF NOT EXISTS " ++ (quoteId S.dialect nmv ++ ";")).data
        = false := ca_createSchema (quoteId S.dialect nmv ++ ";")
    rw [← heq]
    exact lineFilter_single_false caLine
      (noNL_append (noNL_append (by decide) (noNL_quoteId hnl)) (by decide)) hfalse

theorem caFilter_enumTypes (S : SchemaDefinition)
    (h : ∀ t ∈ S.tables, tableNoNL t) :
    lineFilter caLine (generateEnumTypes S) = [] := by
  unfold generateEnumTypes
  split
  · exact lineFilter_single_false caLine (by decide) (by decide)
  · rename_i hne
    rw [show ("-- Enum Types\n" : String) = "-- Enum Types" ++ "\n" from rfl,
      lineFilter_append_sep, lineFilter_single_false caLine (by decide) (by decide),
      List.nil_append, lineFilter_joinSep_nl caLine hne]
    rw [List.flatten_eq_nil_iff]
    intro piece hpiece
    rcases List.mem_map.mp hpiece with ⟨lv, hlv, heq⟩
    subst heq
    have hmem : ∃ tb ∈ S.tables, ∃ col ∈ tb.columns,
        lv = "CREATE TYPE " ++ tb.name ++ "_" ++ col.name ++ "_enum AS ENUM ("
          ++ joinSep ", " (col.enumValues.map (fun v => "'" ++ v ++ "'")) ++ ");" := by
      unfold enumTypeLines at hlv
      simp only [foldl_append_eq, List.nil_append] at hlv
      rcases List.mem_flatten.mp hlv with ⟨inner, hinner, hmi⟩
      rcases List.mem_map.mp hinner with ⟨tb, htb, heqi⟩
      subst heqi
      rcases List.mem_flatten.mp hmi with ⟨inner2, hinner2, hmi2⟩
      rcases List.mem_map.mp hinner2 with ⟨col, hcol, heqi2⟩
      subst heqi2
      by_cases hc : col.type = ColumnType.enum ∧ col.enumValues ≠ []
      · rw [if_pos hc] at hmi2
        exact ⟨tb, htb, col, hcol, List.mem_singleton.mp hmi2⟩
      · rw [if_neg hc] at hmi2
        cases hmi2
    rcases hmem with ⟨tb, htb, col, hcol, heq2⟩
    subst heq2
    have htn : tableNoNL tb := h tb htb
    have hcn : colNoNL col := htn.2.2.2.1 col hcol
    have hvnl : noNL (joinSep ", " (col.enumValues.map (fun v => "'" ++ v ++ "'"))) := by
      refine noNL_joinSep (by decide) ?_
      intro x hx
      rcases List.mem_map.mp hx with ⟨v, hv, hveq⟩
      subst hveq
      exact noNL_append (noNL_append (by decide) (hcn.2.2.1 v hv)) (by decide)
    have hfalse : caLine ("CREATE TYPE "
        ++ (tb.name ++ "_" ++ col.name ++ "_enum AS ENUM ("
          ++ joinSep ", " (col.enumValues.map (fun v => "'" ++ v ++ "'")) ++ ");")).data
        = false := ca_createType _
    refine lineFilter_single_false caLine ?_ hfalse
    exact noNL_append (noNL_append (noNL_append (noNL_append (noNL_append (noNL_append
      (by decide) htn.1) (by decide)) hcn.1) (by decide)) hvnl) (by decide)

theorem caFilter_indexes (S : SchemaDefinition) (h : ∀ t ∈ S.tables, tableNoNL t) :
    lineFilter caLine (generateIndexes S) = [] := by
  unfold generateIndexes
  split
  · exact lineFilter_single_false caLine (by decide) (by decide)
  · rename_i hne
    rw [show ("-- Indexes\n" : String) = "-- Indexes" ++ "\n" from rfl,
      lineFilter_append_sep, lineFilter_single_false caLine (by decide) (by decide),
      List.nil_append, lineFilter_joinSep_nl caLine hne,
      List.flatten_eq_nil_iff]
    intro piece hpiece
    rcases List.mem_map.mp hpiece with ⟨lv, hlv, heq⟩
    subst heq
    have hmem : ∃ tb ∈ S.tables, ∃ idx ∈ tb.indexes, lv = indexLine S.dialect tb idx := by
      unfold indexLines at hlv
      simp only [foldl_append_eq, List.nil_append] at hlv
      rcases List.mem_flatten.mp hlv with ⟨inner, hinner, hmi⟩
      rcases List.mem_map.mp hinner with ⟨tb, htb, heqi⟩
      subst heqi
      rcases List.mem_map.mp hmi with ⟨idx, hidx, heqi2⟩
      exact ⟨tb, htb, idx, hidx, heqi2.symm⟩
    rcases hmem with ⟨tb, htb, idx, hidx, heq2⟩
    subst heq2
    have htn := h tb htb
    have hin : idxNoNL idx := htn.2.2.2.2.1 idx hidx
    have hite : noNL (if idx.isUnique then "UNIQUE " else "") := by
      split <;> decide
    have hm : noNL (match idx.type with
        | some t => if S.dialect = SQLDialect.postgresql ∧ t ≠ IndexType.btree
            then " USING " ++ upperIndexType t else ""
        | none => "") := by
      rcases hty : idx.type with _ | t
      · show noNL ""
        decide
      · show noNL (if S.dialect = SQLDialect.postgresql ∧ t ≠ IndexType.btree
          then " USING " ++ upperIndexType t else "")
        split
        · exact noNL_append (by decide) (by cases t <;> decide)
        · show noNL ""
          decide
    have hcols : noNL (joinSep ", " (idx.columns.map (quoteId S.dialect))) := by
      refine noNL_joinSep (by decide) ?_
      intro x hx
      rcases List.mem_map.mp hx with ⟨cn, hcn, hceq⟩
      subst hceq
      exact noNL_quoteId (hin.2 cn hcn)
    have hnl : noNL (indexLine S.dialect tb idx) := by
      unfold indexLine
      exact noNL_append (noNL_append (noNL_append (noNL_append (noNL_append (noNL_append
        (noNL_append (noNL_append (noNL_append (by decide) hite) (by decide))
          (noNL_quoteId hin.1)) (by decide)) (noNL_qualifiedTableName htn.1 htn.2.1)) hm)
        (by decide)) hcols) (by decide)
    have hfalse : caLine (indexLine S.dialect tb idx).data = false := by
      unfold indexLine
      rcases hu : idx.isUnique
      · simp only [hu, Bool.false_eq_true, if_false]
        exact ca_createIndex (quoteId S.dialect idx.name ++ " ON " ++ qualifiedTableName S.dialect tb
          ++ (match idx.type with
              | some t => if S.dialect = SQLDialect.postgresql ∧ t ≠ IndexType.btree
                  then " USING " ++ upperIndexType t else ""
              | none => "")
          ++ " (" ++ joinSep ", " (idx.columns.map (quoteId S.dialect)) ++ ");")
      · simp only [hu, if_true]
        exact ca_createUniqueIndex (quoteId S.dialect idx.name ++ " ON "
          ++ qualifiedTableName S.dialect tb
          ++ (match idx.type with
              | some t => if S.dialect = SQLDialect.postgresql ∧ t ≠ IndexType.btree
                  then " USING " ++ upperIndexType t else ""
              | none => "")
          ++ " (" ++ joinSep ", " (idx.columns.map (quoteId S.dialect)) ++ ");")
    exact lineFilter_single_false caLine hnl hfalse

/-! ## Section line characterizations: foreign keys -/

theorem lineFilter_sub_nil {p q : List Char → Bool} (hsub : ∀ l, p l = true → q l = true)
    {s : String} (h : lineFilter q s = []) : lineFilter p s = [] := by
  rw [lineFilter, List.filter_eq_nil_iff] at h ⊢
  intro l hl hpl
  exact h l hl (hsub l hpl)

theorem fkConstraint_reassoc (d : SQLDialect) (tb : TableDefinition)
    (fk : ForeignKeyDefinition) :
    fkConstraint d tb fk
      = ("ALTER TABLE " ++ qualifiedTableName d tb) ++ "\n"
        ++ (("  ADD CONSTRAINT " ++ quoteId d fk.constraintName) ++ "\n"
        ++ (("  FOREIGN KEY (" ++ quoteId d fk.columnName ++ ")") ++ "\n"
        ++ (("  REFERENCES " ++ quoteId d fk.referencedTable ++ " ("
            ++ quoteId d fk.referencedColumn ++ ")") ++ "\n"
        ++ ("  ON DELETE " ++ onDeleteStr fk.onDelete
            ++ (match fk.onUpdate with
                | some a => " ON UPDATE " ++ onDeleteStr a
                | none => "") ++ ";")))) := by
  apply String.ext
  simp [fkConstraint, String.data_append, List.append_assoc]

theorem noNL_onDeleteStr (a : OnDeleteAction) : noNL (onDeleteStr a) := by
  cases a <;> decide

theorem lineFilter_fkConstraint (p : List Char → Bool)
    (hsp : ∀ x : String, p ("  " ++ x).data = false)
    (d : SQLDialect) (tb : TableDefinition) (fk : ForeignKeyDefinition)
    (htn : noNL tb.name) (hts : noNL tb.schema) (hf : fkNoNL fk) :
    lineFilter p (fkConstraint d tb fk)
      = if p ("ALTER TABLE " ++ qualifiedTableName d tb).data
        then [("ALTER TABLE " ++ qualifiedTableName d tb).data] else [] := by
  have hmu : noNL (match fk.onUpdate with
      | some a => " ON UPDATE " ++ onDeleteStr a
      | none => "") := by
    rcases fk.onUpdate with _ | a
    · show noNL ""
      decide
    · exact noNL_append (by decide) (noNL_onDeleteStr a)
  have n1 : noNL ("ALTER TABLE " ++ qualifiedTableName d tb) :=
    noNL_append (by decide) (noNL_qualifiedTableName htn hts)
  have n2 : noNL ("  ADD CONSTRAINT " ++ quoteId d fk.constraintName) :=
    noNL_append (by decide) (noNL_quoteId hf.1)
  have n3 : noNL ("  FOREIGN KEY (" ++ quoteId d fk.columnName ++ ")") :=
    noNL_append (noNL_append (by decide) (noNL_quoteId hf.2.1)) (by decide)
  have n4 : noNL ("  REFERENCES " ++ quoteId d fk.referencedTable ++ " ("
      ++ quoteId d fk.referencedColumn ++ ")") :=
    noNL_append (noNL_append (noNL_append (noNL_append (by decide) (noNL_quoteId hf.2.2.1))
      (by decide)) (noNL_quoteId hf.2.2.2)) (by decide)
  have n5 : noNL ("  ON DELETE " ++ onDeleteStr fk.onDelete
      ++ (match fk.onUpdate with
          | some a => " ON UPDATE " ++ onDeleteStr a
          | none => "") ++ ";") :=
    noNL_append (noNL_append (noNL_append (by decide) (noNL_onDeleteStr fk.onDelete)) hmu)
      (by decide)
  have p2 : p ("  ADD CONSTRAINT " ++ quoteId d fk.constraintName).data = false :=
    hsp ("ADD CONSTRAINT " ++ quoteId d fk.constraintName)
  have p3 : p ("  FOREIGN KEY (" ++ quoteId d fk.columnName ++ ")").data = false :=
    hsp ("FOREIGN KEY (" ++ quoteId d fk.columnName ++ ")")
  have p4 : p ("  REFERENCES " ++ quoteId d fk.referencedTable ++ " ("
      ++ quoteId d fk.referencedColumn ++ ")").data = false :=
    hsp ("REFERENCES " ++ quoteId d fk.referencedTable ++ " ("
      ++ quoteId d fk.referencedColumn ++ ")")
  have p5 : p ("  ON DELETE " ++ onDeleteStr fk.onDelete
      ++ (match fk.onUpdate with
          | some a => " ON UPDATE " ++ onDeleteStr a
          | none => "") ++ ";").data = false :=
    hsp ("ON DELETE " ++ onDeleteStr fk.onDelete
      ++ (match fk.onUpdate with
          | some a => " ON UPDATE " ++ onDeleteStr a
          | none => "") ++ ";")
  rw [fkConstraint_reassoc]
  simp only [lineFilter_append_sep]
  rw [lineFilter_single p n1, lineFilter_single_false p n2 p2, lineFilter_single_false p n3 p3,
    lineFilter_single_false p n4 p4, lineFilter_single_false p n5 p5]
  split <;> simp

theorem fkStatements_eq (S : SchemaDefinition) :
    fkStatements S
      = (S.tables.map (fun tb => tb.foreignKeys.map (fkConstraint S.dialect tb))).flatten := by
  unfold fkStatements
  rw [foldl_append_eq]
  rfl

theorem flatten_map_singleton {α β : Type} (h : α → β) (l : List α) :
    (l.map (fun x => [h x])).flatten = l.map h := by
  induction l with
  | nil => rfl
  | cons a as ih => simp [ih]

/-- The expected `CREATE TABLE` opener line of one table. -/
def tableCTLine (d : SQLDialect) (tb : TableDefinition) : List Char :=
  ("CREATE TABLE " ++ qualifiedTableName d tb ++ " (").data

/-- The expected `ALTER TABLE` opener line of one foreign-key constraint. -/
def fkATLine (d : SQLDialect) (tb : TableDefinition) : List Char :=
  ("ALTER TABLE " ++ qualifiedTableName d tb).data

/-- The expected `CREATE TABLE` opener line of one junction table. -/
def junctionCTLine (d : SQLDialect) (rel : RelationshipDefinition) : List Char :=
  match rel.junctionTable with
  | some jt => ("CREATE TABLE " ++ quoteId d jt.name ++ " (").data
  | none => []

def tableCTLines (S : SchemaDefinition) : List (List Char) :=
  S.tables.map (tableCTLine S.dialect)

def fkATLines (S : SchemaDefinition) : List (List Char) :=
  (S.tables.map (fun tb => tb.foreignKeys.map (fun _ => fkATLine S.dialect tb))).flatten

def junctionCTLines (S : SchemaDefinition) : List (List Char) :=
  (junctionRels S).map (junctionCTLine S.dialect)

theorem fkATLines_nil_of_empty {S : SchemaDefinition} (hfk : fkStatements S = []) :
    fkATLines S = [] := by
  unfold fkATLines
  rw [List.flatten_eq_nil_iff]
  intro l hl
  rcases List.mem_map.mp hl with ⟨tb, htb, heq⟩
  subst heq
  have h2 := fkStatements_eq S
  rw [hfk] at h2
  have h3 := (List.flatten_eq_nil_iff).mp h2.symm _
    (List.mem_map_of_mem (fun tb => tb.foreignKeys.map (fkConstraint S.dialect tb)) htb)
  rw [List.map_eq_nil_iff] at h3
  simp [h3]

theorem atFilter_fk_list (d : SQLDialect) (tb : TableDefinition)
    (htn : noNL tb.name) (hts : noNL tb.schema) :
    ∀ fks : List ForeignKeyDefinition, (∀ fk ∈ fks, fkNoNL fk) →
      ((fks.map (fkConstraint d tb)).map (lineFilter atLine)).flatten
        = fks.map (fun _ => fkATLine d tb) := by
  intro fks hfks
  induction fks with
  | nil => rfl
  | cons fk rest ih =>
    simp only [List.map_cons, List.flatten_cons]
    rw [lineFilter_fkConstraint atLine
      (fun x => (ct_at_head "  " rfl (by decide) (by decide) x).2)
      d tb fk htn hts (hfks fk (List.mem_cons_self fk rest)),
      if_pos (at_alterTable (qualifiedTableName d tb)),
      ih (fun f hf => hfks f (List.mem_cons_of_mem fk hf))]
    rfl

theorem caFilter_fk_list (d : SQLDialect) (tb : TableDefinition)
    (htn : noNL tb.name) (hts : noNL tb.schema) :
    ∀ fks : List ForeignKeyDefinition, (∀ fk ∈ fks, fkNoNL fk) →
      ((fks.map (fkConstraint d tb)).map (lineFilter caLine)).flatten
        = fks.map (fun _ => fkATLine d tb) := by
  intro fks hfks
  induction fks with
  | nil => rfl
  | cons fk rest ih =>
    simp only [List.map_cons, List.flatten_cons]
    rw [lineFilter_fkConstraint caLine ca_twoSpace
      d tb fk htn hts (hfks fk (List.mem_cons_self fk rest)),
      if_pos (ca_alterTable (qualifiedTableName d tb)),
      ih (fun f hf => hfks f (List.mem_cons_of_mem fk hf))]
    rfl

theorem atFilter_generateForeignKeys (S : SchemaDefinition)
    (h : ∀ t ∈ S.tables, tableNoNL t) :
    lineFilter atLine (generateForeignKeys S) = fkATLines S := by
  unfold generateForeignKeys
  split
  · rename_i hfk
    rw [fkATLines_nil_of_empty hfk]
    exact lineFilter_single_false atLine (by decide) (by decide)
  · rw [show ("-- Foreign Key Constraints\n" : String)
        = "-- Foreign Key Constraints" ++ "\n" from rfl,
      lineFilter_append_sep,
      lineFilter_single_false atLine (by decide) (by decide), List.nil_append,
      lineFilter_joinSep_blank atLine rfl, fkStatements_eq, List.map_flatten,
      List.flatten_flatten, List.map_map, List.map_map]
    unfold fkATLines
    refine congrArg List.flatten (List.map_congr_left ?_)
    intro tb htb
    have htn := h tb htb
    exact atFilter_fk_list S.dialect tb htn.1 htn.2.1 tb.foreignKeys
      (fun fk hf => htn.2.2.2.2.2 fk hf)

theorem ctFilter_generateForeignKeys (S : SchemaDefinition)
    (h : ∀ t ∈ S.tables, tableNoNL t) :
    lineFilter ctLine (generateForeignKeys S) = [] := by
  unfold generateForeignKeys
  split
  · exact lineFilter_single_false ctLine (by decide) (by decide)
  · rw [show ("-- Foreign Key Constraints\n" : String)
        = "-- Foreign Key Constraints" ++ "\n" from rfl,
      lineFilter_append_sep,
      lineFilter_single_false ctLine (by decide) (by decide), List.nil_append,
      lineFilter_joinSep_blank ctLine rfl, fkStatements_eq, List.map_flatten]
    rw [List.flatten_eq_nil_iff]
    intro l hl
    rcases List.mem_flatten.mp hl with ⟨inner, hinner, hmem⟩
    rcases List.mem_map.mp hinner with ⟨tstrs, htstrs, heqi⟩
    subst heqi
    rcases List.mem_map.mp htstrs with ⟨tb, htb, heqt⟩
    subst heqt
    rcases List.mem_map.mp hmem with ⟨fkstr, hfkstr, heqf⟩
    subst heqf
    rcases List.mem_map.mp hfkstr with ⟨fk, hfkm, heqfk⟩
    subst heqfk
    have htn := h tb htb
    rw [lineFilter_fkConstraint ctLine
      (fun x => (ct_at_head "  " rfl (by decide) (by decide) x).1)
      S.dialect tb fk htn.1 htn.2.1 (htn.2.2.2.2.2 fk hfkm)]
    rw [if_neg]
    intro hct
    rw [ct_alterTable (qualifiedTableName S.dialect tb)] at hct
    cases hct

theorem caFilter_generateForeignKeys (S : SchemaDefinition)
    (h : ∀ t ∈ S.tables, tableNoNL t) :
    lineFilter caLine (generateForeignKeys S) = fkATLines S := by
  unfold generateForeignKeys
  split
  · rename_i hfk
    rw [fkATLines_nil_of_empty hfk]
    exact lineFilter_single_false caLine (by decide) (by decide)
  · rw [show ("-- Foreign Key Constraints\n" : String)
        = "-- Foreign Key Constraints" ++ "\n" from rfl,
      lineFilter_append_sep,
      lineFilter_single_false caLine (by decide) (by decide), List.nil_append,
      lineFilter_joinSep_blank caLine rfl, fkStatements_eq, List.map_flatten,
      List.flatten_flatten, List.map_map, List.map_map]
    unfold fkATLines
    refine congrArg List.flatten (List.map_congr_left ?_)
    intro tb htb
    have htn := h tb htb
    exact caFilter_fk_list S.dialect tb htn.1 htn.2.1 tb.foreignKeys
      (fun fk hf => htn.2.2.2.2.2 fk hf)

/-! ## No-newline facts for column rendering -/

theorem digitChar_isDigit : ∀ m : Nat, m < 10 → (Nat.digitChar m).isDigit = true := by
  decide

theorem mem_toDigitsCore :
    ∀ (f n : Nat) (ds : List Char), ∀ c ∈ Nat.toDigitsCore 10 f n ds,
      c ∈ ds ∨ c.isDigit = true := by
  intro f
  induction f with
  | zero =>
    intro n ds c hc
    exact Or.inl hc
  | succ f ih =>
    intro n ds c hc
    rw [Nat.toDigitsCore] at hc
    by_cases hnb : n / 10 = 0
    · rw [if_pos hnb] at hc
      rcases List.mem_cons.mp hc with h1 | h1
      · exact Or.inr (h1 ▸ digitChar_isDigit (n % 10) (Nat.mod_lt n (by decide)))
      · exact Or.inl h1
    · rw [if_neg hnb] at hc
      rcases ih (n / 10) (Nat.digitChar (n % 10) :: ds) c hc with h1 | h1
      · rcases List.mem_cons.mp h1 with h2 | h2
        · exact Or.inr (h2 ▸ digitChar_isDigit (n % 10) (Nat.mod_lt n (by decide)))
        · exact Or.inl h2
      · exact Or.inr h1

theorem noNL_natStr (n : Nat) : noNL (natStr n) := by
  intro hc
  rcases mem_toDigitsCore (n + 1) n [] '\n' hc with h1 | h1
  · cases h1
  · cases h1

theorem noNL_intStr (n : Int) : noNL (intStr n) := by
  cases n with
  | ofNat m => exact noNL_natStr m
  | negSucc m => exact noNL_append (by decide) (noNL_natStr (m + 1))

theorem mem_escQuote {l : List Char} {c : Char} (h : c ∈ escQuote l) :
    c ∈ l ∨ c = '\'' := by
  induction l with
  | nil => cases h
  | cons x xs ih =>
    unfold escQuote at h
    split at h
    · rcases List.mem_cons.mp h with h1 | h1
      · exact Or.inr h1
      · rcases List.mem_cons.mp h1 with h2 | h2
        · exact Or.inr h2
        · rcases ih h2 with h3 | h3
          · exact Or.inl (List.mem_cons_of_mem x h3)
          · exact Or.inr h3
    · rcases List.mem_cons.mp h with h1 | h1
      · exact Or.inl (h1 ▸ List.mem_cons_self x xs)
      · rcases ih h1 with h3 | h3
        · exact Or.inl (List.mem_cons_of_mem x h3)
        · exact Or.inr h3

theorem noNL_escapeString {s : String} (h : noNL s) : noNL (escapeString s) := by
  intro hc
  rcases mem_escQuote hc with h1 | h1
  · exact h h1
  · cases h1

theorem noNL_typeMapping (d : SQLDialect) (t : ColumnType) : noNL (typeMapping d t) := by
  cases d <;> cases t <;> decide

theorem noNL_enumVals {vs : List String} (h : ∀ v ∈ vs, noNL v) :
    noNL (joinSep ", " (vs.map (fun v => "'" ++ v ++ "'"))) := by
  refine noNL_joinSep (by decide) ?_
  intro x hx
  rcases List.mem_map.mp hx with ⟨v, hv, hveq⟩
  subst hveq
  exact noNL_append (noNL_append (by decide) (h v hv)) (by decide)

theorem noNL_getColumnType {d : SQLDialect} {tb : TableDefinition} {col : ColumnDefinition}
    (htn : noNL tb.name) (hc : colNoNL col) : noNL (getColumnType d tb col) := by
  unfold getColumnType
  rcases hty : col.type with _ | _ | _ | _ | _ | _ | _ | _ | _ | _ | _ | _ | _ | _ | _ | _
      | _ | _ | _ | _ | _ | _ <;>
    simp only []
  case varchar =>
    exact noNL_append (noNL_append (noNL_append (noNL_typeMapping d _) (by decide))
      (noNL_natStr _)) (by decide)
  case char =>
    exact noNL_append (noNL_append (noNL_append (noNL_typeMapping d _) (by decide))
      (noNL_natStr _)) (by decide)
  case decimal =>
    exact noNL_append (noNL_append (noNL_append (noNL_append (noNL_append
      (noNL_typeMapping d _) (by decide)) (noNL_natStr _)) (by decide)) (noNL_natStr _))
      (by decide)
  case numeric =>
    exact noNL_append (noNL_append (noNL_append (noNL_append (noNL_append
      (noNL_typeMapping d _) (by decide)) (noNL_natStr _)) (by decide)) (noNL_natStr _))
      (by decide)
  case enum =>
    split
    · exact noNL_append (noNL_append (noNL_append htn (by decide)) hc.1) (by decide)
    · exact noNL_append (noNL_append (by decide) (noNL_enumVals hc.2.2.1)) (by decide)
  all_goals exact noNL_typeMapping d _

theorem noNL_formatDefaultValue {d : SQLDialect} {col : ColumnDefinition}
    (hc : colNoNL col) : noNL (formatDefaultValue d col) := by
  unfold formatDefaultValue
  rcases hdv : col.defaultValue with _ | v
  · show noNL "undefined"
    decide
  · rcases v with _ | b | n | str
    · show noNL "NULL"
      decide
    · show noNL (if d = SQLDialect.mysql then (if b = true then "1" else "0")
        else (if b = true then "TRUE" else "FALSE"))
      rcases d <;> rcases b <;> decide
    · show noNL (intStr n)
      exact noNL_intStr n
    · have hs : noNL str := by
        have h2 := hc.2.2.2
        rw [hdv] at h2
        exact h2
      show noNL (if isFnMarker str = true then str else "'" ++ escapeString str ++ "'")
      split
      · exact hs
      · exact noNL_append (noNL_append (by decide) (noNL_escapeString hs)) (by decide)

theorem noNL_colParts {d : SQLDialect} {tb : TableDefinition} {col : ColumnDefinition}
    (htn : noNL tb.name) (hc : colNoNL col) : ∀ x ∈ colParts d tb col, noNL x := by
  intro x hx
  unfold colParts at hx
  rcases List.mem_append.mp hx with h1 | h1
  · rcases List.mem_append.mp h1 with h2 | h2
    · rcases List.mem_append.mp h2 with h3 | h3
      · rcases List.mem_cons.mp h3 with h4 | h4
        · subst h4
          exact noNL_append (by decide) (noNL_quoteId hc.1)
        · have h5 := List.mem_singleton.mp h4
          subst h5
          exact noNL_getColumnType htn hc
      · split at h3
        · have h5 := List.mem_singleton.mp h3
          subst h5
          decide
        · cases h3
    · split at h2
      · have h5 := List.mem_singleton.mp h2
        subst h5
        decide
      · cases h2
  · split at h1
    · cases h1
    · cases h1
    · have h5 := List.mem_singleton.mp h1
      subst h5
      exact noNL_append (by decide) (noNL_formatDefaultValue hc)

theorem noNL_generateColumn {d : SQLDialect} {tb : TableDefinition} {col : ColumnDefinition}
    (htn : noNL tb.name) (hc : colNoNL col) : noNL (generateColumn d tb col) :=
  noNL_joinSep (by decide) (noNL_colParts htn hc)

theorem noNL_pkClause {d : SQLDialect} {tb : TableDefinition}
    (h : ∀ c ∈ tb.columns, colNoNL c) : noNL (pkClause d tb) := by
  unfold pkClause
  refine noNL_append (noNL_append (by decide) (noNL_joinSep (by decide) ?_)) (by decide)
  intro x hx
  rcases List.mem_map.mp hx with ⟨c, hcm, heq⟩
  subst heq
  exact noNL_quoteId (h c (List.mem_of_mem_filter hcm)).1

theorem noNL_columnDefs {d : SQLDialect} {tb : TableDefinition}
    (htn : noNL tb.name) (h : ∀ c ∈ tb.columns, colNoNL c) :
    ∀ x ∈ columnDefs d tb, noNL x := by
  intro x hx
  unfold columnDefs at hx
  rcases List.mem_append.mp hx with h1 | h1
  · rcases List.mem_map.mp h1 with ⟨col, hcm, heq⟩
    subst heq
    exact noNL_generateColumn htn (h col hcm)
  · split at h1
    · cases h1
    · have h5 := List.mem_singleton.mp h1
      subst h5
      exact noNL_pkClause h

theorem p_false_columnDefs (p : List Char → Bool) (hsp : ∀ l, p (' ' :: l) = false)
    (d : SQLDialect) (tb : TableDefinition) :
    ∀ x ∈ columnDefs d tb, ∀ r, p (x.data ++ r) = false := by
  intro x hx r
  unfold columnDefs at hx
  rcases List.mem_append.mp hx with h1 | h1
  · rcases List.mem_map.mp h1 with ⟨col, hcm, heq⟩
    subst heq
    exact hsp _
  · split at h1
    · cases h1
    · have h5 := List.mem_singleton.mp h1
      subst h5
      exact hsp _

theorem lineFilter_joinSep_commaNl (p : List Char → Bool) (hp0 : p [] = false) :
    ∀ l : List String, (∀ x ∈ l, noNL x) → (∀ x ∈ l, ∀ r, p (x.data ++ r) = false) →
      lineFilter p (joinSep ",\n" l) = [] := by
  intro l
  induction l with
  | nil =>
    intro _ _
    show lineFilter p "" = []
    rw [lineFilter, linesL]
    show List.filter p [[]] = []
    simp [hp0]
  | cons x rest ih =>
    intro hnl hpf
    cases rest with
    | nil =>
      show lineFilter p x = []
      refine lineFilter_single_false p (hnl x (by simp)) ?_
      have h2 := hpf x (by simp) []
      rwa [List.append_nil] at h2
    | cons y ys =>
      have e : ((x ++ ",") ++ "\n") ++ joinSep ",\n" (y :: ys)
          = (x ++ ",\n") ++ joinSep ",\n" (y :: ys) := by
        rw [String.append_assoc x "," "\n"]
        rfl
      rw [joinSep_cons _ _ (List.cons_ne_nil y ys), ← e, lineFilter_append_sep]
      have hxc : p ((x ++ ",").data) = false := hpf x (by simp) [',']
      rw [lineFilter_single_false p (noNL_append (hnl x (by simp)) (by decide)) hxc,
        List.nil_append]
      exact ih (fun z hz => hnl z (List.mem_cons_of_mem x hz))
        (fun z hz => hpf z (List.mem_cons_of_mem x hz))

theorem lineFilter_commentStatements (p : List Char → Bool)
    (hco : ∀ r, p ("COMMENT ON ".data ++ r) = false)
    (d : SQLDialect) (tb : TableDefinition) (htn : tableNoNL tb) :
    ∀ x ∈ commentStatements d tb, lineFilter p x = [] := by
  intro x hx
  unfold commentStatements at hx
  rcases List.mem_append.mp hx with h1 | h1
  · split at h1
    · cases h1
    · have h5 := List.mem_singleton.mp h1
      subst h5
      refine lineFilter_single_false p ?_ (hco _)
      exact noNL_append (noNL_append (noNL_append (noNL_append (by decide)
        (noNL_qualifiedTableName htn.1 htn.2.1)) (by decide))
        (noNL_escapeString htn.2.2.1)) (by decide)
  · simp only [foldl_append_eq, List.nil_append] at h1
    rcases List.mem_flatten.mp h1 with ⟨inner, hinner, hmem⟩
    rcases List.mem_map.mp hinner with ⟨col, hcol, heqc⟩
    subst heqc
    split at hmem
    · cases hmem
    · have h5 := List.mem_singleton.mp hmem
      subst h5
      refine lineFilter_single_false p ?_ (hco _)
      have hcn : colNoNL col := htn.2.2.2.1 col hcol
      exact noNL_append (noNL_append (noNL_append (noNL_append (noNL_append
        (noNL_append (by decide) (noNL_qualifiedTableName htn.1 htn.2.1)) (by decide))
        (noNL_quoteId hcn.1)) (by decide)) (noNL_escapeString hcn.2.1)) (by decide)

theorem lineFilter_generateTable (p : List Char → Bool) (hp0 : p [] = false)
    (hds : ∀ l, p ('-' :: l) = false)
    (hsp : ∀ l, p (' ' :: l) = false)
    (hcp : ∀ l, p (')' :: l) = false)
    (hco : ∀ r, p ("COMMENT ON ".data ++ r) = false)
    (d : SQLDialect) (tb : TableDefinition) (htn : tableNoNL tb) :
    lineFilter p (generateTable d tb)
      = if p (tableCTLine d tb) then [tableCTLine d tb] else [] := by
  have hnlct : noNL ("CREATE TABLE " ++ qualifiedTableName d tb ++ " (") :=
    noNL_append (noNL_append (by decide) (noNL_qualifiedTableName htn.1 htn.2.1)) (by decide)
  have hcols : lineFilter p (joinSep ",\n" (columnDefs d tb)) = [] :=
    lineFilter_joinSep_commaNl p hp0 (columnDefs d tb)
      (noNL_columnDefs htn.1 (fun c hc => htn.2.2.2.1 c hc))
      (p_false_columnDefs p hsp d tb)
  have hclose : lineFilter p (")"
      ++ (if d = SQLDialect.mysql then " ENGINE=InnoDB DEFAULT CHARSET=utf8mb4" else "")
      ++ ";") = [] := by
    refine lineFilter_single_false p ?_ (hcp _)
    have hite : noNL (if d = SQLDialect.mysql
        then " ENGINE=InnoDB DEFAULT CHARSET=utf8mb4" else "") := by
      split <;> decide
    exact noNL_append (noNL_append (by decide) hite) (by decide)
  unfold generateTable tableLines
  have hne : ((if tb.comment = "" then [] else ["-- " ++ tb.comment])
      ++ ["CREATE TABLE " ++ qualifiedTableName d tb ++ " ("]
      ++ [joinSep ",\n" (columnDefs d tb)]
      ++ [")" ++ (if d = SQLDialect.mysql then " ENGINE=InnoDB DEFAULT CHARSET=utf8mb4" else "")
        ++ ";"]
      ++ (if d = SQLDialect.postgresql then commentStatements d tb else [])) ≠ [] := by
    intro hcon
    rcases List.append_eq_nil.mp hcon with ⟨h2, _⟩
    rcases List.append_eq_nil.mp h2 with ⟨h3, _⟩
    rcases List.append_eq_nil.mp h3 with ⟨h4, _⟩
    rcases List.append_eq_nil.mp h4 with ⟨_, h5⟩
    cases h5
  rw [lineFilter_joinSep_nl p hne]
  simp only [List.map_append, List.flatten_append, List.map_cons, List.map_nil,
    List.flatten_cons, List.flatten_nil]
  have hcomm : ((if tb.comment = "" then [] else ["-- " ++ tb.comment]).map
      (lineFilter p)).flatten = [] := by
    split
    · rfl
    · rename_i hcne
      simp only [List.map_cons, List.map_nil, List.flatten_cons, List.flatten_nil]
      have hdsc : p (("-- " ++ tb.comment).data) = false := hds _
      rw [lineFilter_single_false p (noNL_append (by decide) htn.2.2.1) hdsc,
        List.nil_append]
  have hpg : ((if d = SQLDialect.postgresql then commentStatements d tb else []).map
      (lineFilter p)).flatten = [] := by
    split
    · rw [List.flatten_eq_nil_iff]
      intro l hl
      rcases List.mem_map.mp hl with ⟨x, hxm, heq⟩
      subst heq
      exact lineFilter_commentStatements p hco d tb htn x hxm
    · rfl
  rw [hcomm, hcols, hclose, hpg, lineFilter_single p hnlct]
  simp only [List.nil_append, List.append_nil]
  rfl

theorem lineFilter_generateTables (p : List Char → Bool) (hp0 : p [] = false)
    (hds : ∀ l, p ('-' :: l) = false)
    (hsp : ∀ l, p (' ' :: l) = false)
    (hcp : ∀ l, p (')' :: l) = false)
    (hco : ∀ r, p ("COMMENT ON ".data ++ r) = false)
    (S : SchemaDefinition) (h : ∀ t ∈ S.tables, tableNoNL t) :
    lineFilter p (generateTables S)
      = (S.tables.map (fun tb =>
          if p (tableCTLine S.dialect tb) then [tableCTLine S.dialect tb] else [])).flatten := by
  unfold generateTables
  have hdsc : p (("-- Tables" : String).data) = false := hds _
  rw [show ("-- Tables\n" : String) = "-- Tables" ++ "\n" from rfl, lineFilter_append_sep,
    lineFilter_single_false p (by decide) hdsc, List.nil_append,
    lineFilter_joinSep_blank p hp0, List.map_map]
  refine congrArg List.flatten (List.map_congr_left ?_)
  intro tb htb
  exact lineFilter_generateTable p hp0 hds hsp hcp hco S.dialect tb (h tb htb)

theorem ctFilter_generateTables (S : SchemaDefinition)
    (h : ∀ t ∈ S.tables, tableNoNL t) :
    lineFilter ctLine (generateTables S) = tableCTLines S := by
  rw [lineFilter_generateTables ctLine rfl
    (fun l => ctLine_false_of_head (by decide) l)
    (fun l => ctLine_false_of_head (by decide) l)
    (fun l => ctLine_false_of_head (by decide) l)
    (fun r => ctLine_false_lit "COMMENT ON " (by decide) (by decide) r) S h]
  unfold tableCTLines
  have hmap : ∀ tb ∈ S.tables,
      (if ctLine (tableCTLine S.dialect tb) then [tableCTLine S.dialect tb] else [])
        = [tableCTLine S.dialect tb] := by
    intro tb _
    have hct : ctLine (tableCTLine S.dialect tb) = true :=
      ct_createTable (qualifiedTableName S.dialect tb ++ " (")
    rw [hct]
    rfl
  rw [List.map_congr_left hmap]
  exact flatten_map_singleton (tableCTLine S.dialect) S.tables

theorem atFilter_generateTables (S : SchemaDefinition)
    (h : ∀ t ∈ S.tables, tableNoNL t) :
    lineFilter atLine (generateTables S) = [] := by
  rw [lineFilter_generateTables atLine rfl
    (fun l => atLine_false_of_head (by decide) l)
    (fun l => atLine_false_of_head (by decide) l)
    (fun l => atLine_false_of_head (by decide) l)
    (fun r => atLine_false_lit "COMMENT ON " (by decide) (by decide) r) S h]
  rw [List.flatten_eq_nil_iff]
  intro l hl
  rcases List.mem_map.mp hl with ⟨tb, _, heq⟩
  subst heq
  have hat : atLine (tableCTLine S.dialect tb) = false :=
    at_createTable (qualifiedTableName S.dialect tb ++ " (")
  rw [hat]
  rfl

theorem caLine_false_of_head_char {c : Char} (hc : c ≠ 'C') (ha : c ≠ 'A') :
    ∀ l, caLine (c :: l) = false :=
  fun l => caLine_false_of_head hc ha l

theorem ca_commentOn_chars (r : List Char) : caLine ("COMMENT ON ".data ++ r) = false := by
  unfold caLine
  rw [ctLine_false_lit "COMMENT ON " (by decide) (by decide) r,
    atLine_false_lit "COMMENT ON " (by decide) (by decide) r]
  rfl

theorem caFilter_generateTables (S : SchemaDefinition)
    (h : ∀ t ∈ S.tables, tableNoNL t) :
    lineFilter caLine (generateTables S) = tableCTLines S := by
  rw [lineFilter_generateTables caLine rfl
    (caLine_false_of_head_char (by decide) (by decide))
    (caLine_false_of_head_char (by decide) (by decide))
    (caLine_false_of_head_char (by decide) (by decide))
    ca_commentOn_chars S h]
  unfold tableCTLines
  have hmap : ∀ tb ∈ S.tables,
      (if caLine (tableCTLine S.dialect tb) then [tableCTLine S.dialect tb] else [])
        = [tableCTLine S.dialect tb] := by
    intro tb _
    have hct : caLine (tableCTLine S.dialect tb) = true :=
      ca_createTable (qualifiedTableName S.dialect tb ++ " (")
    rw [hct]
    rfl
  rw [List.map_congr_left hmap]
  exact flatten_map_singleton (tableCTLine S.dialect) S.tables

/-! ## Section line characterizations: junction tables -/

set_option maxRecDepth 16384 in
theorem junctionSQL_reassoc (d : SQLDialect) (rel : RelationshipDefinition)
    (jt : JunctionTable) (hjt : rel.junctionTable = some jt) :
    junctionSQL d rel
      = ("-- Junction table for " ++ rel.sourceTable ++ " <-> " ++ rel.targetTable) ++ "\n"
        ++ (("CREATE TABLE " ++ quoteId d jt.name ++ " (") ++ "\n"
        ++ (("  " ++ quoteId d jt.sourceColumn ++ " "
            ++ (if d = SQLDialect.postgresql then "INTEGER" else "INT") ++ " NOT NULL,") ++ "\n"
        ++ (("  " ++ quoteId d jt.targetColumn ++ " "
            ++ (if d = SQLDialect.postgresql then "INTEGER" else "INT") ++ " NOT NULL,") ++ "\n"
        ++ (("  created_at TIMESTAMP DEFAULT "
            ++ (if d = SQLDialect.postgresql then "CURRENT_TIMESTAMP" else "CURRENT_TIMESTAMP")
            ++ ",") ++ "\n"
        ++ (("  PRIMARY KEY (" ++ quoteId d jt.sourceColumn ++ ", "
            ++ quoteId d jt.targetColumn ++ "),") ++ "\n"
        ++ (("  FOREIGN KEY (" ++ quoteId d jt.sourceColumn ++ ") REFERENCES "
            ++ quoteId d rel.sourceTable ++ " (" ++ quoteId d rel.sourceColumn
            ++ ") ON DELETE CASCADE,") ++ "\n"
        ++ (("  FOREIGN KEY (" ++ quoteId d jt.targetColumn ++ ") REFERENCES "
            ++ quoteId d rel.targetTable ++ " (" ++ quoteId d rel.targetColumn
            ++ ") ON DELETE CASCADE") ++ "\n"
        ++ (")"
            ++ (if d = SQLDialect.mysql then " ENGINE=InnoDB DEFAULT CHARSET=utf8mb4" else "")
            ++ ";"))))))))  := by
  unfold junctionSQL
  rw [hjt]
  apply String.ext
  simp [String.data_append, List.append_assoc]

theorem lineFilter_junctionSQL (p : List Char → Bool)
    (hds : ∀ l, p ('-' :: l) = false)
    (hsp : ∀ l, p (' ' :: l) = false)
    (hcp : ∀ l, p (')' :: l) = false)
    (d : SQLDialect) (rel : RelationshipDefinition) (jt : JunctionTable)
    (hjt : rel.junctionTable = some jt) (hrel : relNoNL rel) :
    lineFilter p (junctionSQL d rel)
      = if p (("CREATE TABLE " ++ quoteId d jt.name ++ " (").data)
        then [("CREATE TABLE " ++ quoteId d jt.name ++ " (").data] else [] := by
  have hjn : noNL jt.name ∧ noNL jt.sourceColumn ∧ noNL jt.targetColumn := by
    have h2 := hrel.2.2.2.2
    rw [hjt] at h2
    exact h2
  have hint : noNL (if d = SQLDialect.postgresql then "INTEGER" else "INT") := by
    split <;> decide
  have hcts : noNL (if d = SQLDialect.postgresql
      then "CURRENT_TIMESTAMP" else "CURRENT_TIMESTAMP") := by
    split <;> decide
  have heng : noNL (if d = SQLDialect.mysql
      then " ENGINE=InnoDB DEFAULT CHARSET=utf8mb4" else "") := by
    split <;> decide
  rw [junctionSQL_reassoc d rel jt hjt]
  simp only [lineFilter_append_sep]
  have d1 : p (("-- Junction table for " ++ rel.sourceTable ++ " <-> "
      ++ rel.targetTable).data) = false := hds _
  have d3 : p (("  " ++ quoteId d jt.sourceColumn ++ " "
      ++ (if d = SQLDialect.postgresql then "INTEGER" else "INT") ++ " NOT NULL,").data)
      = false := hsp _
  have d4 : p (("  " ++ quoteId d jt.targetColumn ++ " "
      ++ (if d = SQLDialect.postgresql then "INTEGER" else "INT") ++ " NOT NULL,").data)
      = false := hsp _
  have d5 : p (("  created_at TIMESTAMP DEFAULT "
      ++ (if d = SQLDialect.postgresql then "CURRENT_TIMESTAMP" else "CURRENT_TIMESTAMP")
      ++ ",").data) = false := hsp _
  have d6 : p (("  PRIMARY KEY (" ++ quoteId d jt.sourceColumn ++ ", "
      ++ quoteId d jt.targetColumn ++ "),").data) = false := hsp _
  have d7 : p (("  FOREIGN KEY (" ++ quoteId d jt.sourceColumn ++ ") REFERENCES "
      ++ quoteId d rel.sourceTable ++ " (" ++ quoteId d rel.sourceColumn
      ++ ") ON DELETE CASCADE,").data) = false := hsp _
  have d8 : p (("  FOREIGN KEY (" ++ quoteId d jt.targetColumn ++ ") REFERENCES "
      ++ quoteId d rel.targetTable ++ " (" ++ quoteId d rel.targetColumn
      ++ ") ON DELETE CASCADE").data) = false := hsp _
  have d9 : p ((")"
      ++ (if d = SQLDialect.mysql then " ENGINE=InnoDB DEFAULT CHARSET=utf8mb4" else "")
      ++ ";").data) = false := hcp _
  have n1 : noNL ("-- Junction table for " ++ rel.sourceTable ++ " <-> "
      ++ rel.targetTable) :=
    noNL_append (noNL_append (noNL_append (by decide) hrel.1) (by decide)) hrel.2.2.1
  have n2 : noNL ("CREATE TABLE " ++ quoteId d jt.name ++ " (") :=
    noNL_append (noNL_append (by decide) (noNL_quoteId hjn.1)) (by decide)
  have n3 : noNL ("  " ++ quoteId d jt.sourceColumn ++ " "
      ++ (if d = SQLDialect.postgresql then "INTEGER" else "INT") ++ " NOT NULL,") :=
    noNL_append (noNL_append (noNL_append (noNL_append (by decide)
      (noNL_quoteId hjn.2.1)) (by decide)) hint) (by decide)
  have n4 : noNL ("  " ++ quoteId d jt.targetColumn ++ " "
      ++ (if d = SQLDialect.postgresql then "INTEGER" else "INT") ++ " NOT NULL,") :=
    noNL_append (noNL_append (noNL_append (noNL_append (by decide)
      (noNL_quoteId hjn.2.2)) (by decide)) hint) (by decide)
  have n5 : noNL ("  created_at TIMESTAMP DEFAULT "
      ++ (if d = SQLDialect.postgresql then "CURRENT_TIMESTAMP" else "CURRENT_TIMESTAMP")
      ++ ",") :=
    noNL_append (noNL_append (by decide) hcts) (by decide)
  have n6 : noNL ("  PRIMARY KEY (" ++ quoteId d jt.sourceColumn ++ ", "
      ++ quoteId d jt.targetColumn ++ "),") :=
    noNL_append (noNL_append (noNL_append (noNL_append (by decide)
      (noNL_quoteId hjn.2.1)) (by decide)) (noNL_quoteId hjn.2.2)) (by decide)
  have n7 : noNL ("  FOREIGN KEY (" ++ quoteId d jt.sourceColumn ++ ") REFERENCES "
      ++ quoteId d rel.sourceTable ++ " (" ++ quoteId d rel.sourceColumn
      ++ ") ON DELETE CASCADE,") :=
    noNL_append (noNL_append (noNL_append (noNL_append (noNL_append (noNL_append
      (by decide) (noNL_quoteId hjn.2.1)) (by decide)) (noNL_quoteId hrel.1)) (by decide))
      (noNL_quoteId hrel.2.1)) (by decide)
  have n8 : noNL ("  FOREIGN KEY (" ++ quoteId d jt.targetColumn ++ ") REFERENCES "
      ++ quoteId d rel.targetTable ++ " (" ++ quoteId d rel.targetColumn
      ++ ") ON DELETE CASCADE") :=
    noNL_append (noNL_append (noNL_append (noNL_append (noNL_append (noNL_append
      (by decide) (noNL_quoteId hjn.2.2)) (by decide)) (noNL_quoteId hrel.2.2.1))
      (by decide)) (noNL_quoteId hrel.2.2.2.1)) (by decide)
  have n9 : noNL (")"
      ++ (if d = SQLDialect.mysql then " ENGINE=InnoDB DEFAULT CHARSET=utf8mb4" else "")
      ++ ";") :=
    noNL_append (noNL_append (by decide) heng) (by decide)
  rw [lineFilter_single_false p n1 d1, lineFilter_single p n2,
    lineFilter_single_false p n3 d3, lineFilter_single_false p n4 d4,
    lineFilter_single_false p n5 d5, lineFilter_single_false p n6 d6,
    lineFilter_single_false p n7 d7, lineFilter_single_false p n8 d8,
    lineFilter_single_false p n9 d9]
  simp only [List.nil_append, List.append_nil]

theorem junctionCTLine_eq {d : SQLDialect} {rel : RelationshipDefinition}
    {jt : JunctionTable} (ho : rel.junctionTable = some jt) :
    junctionCTLine d rel = ("CREATE TABLE " ++ quoteId d jt.name ++ " (").data := by
  unfold junctionCTLine
  rw [ho]

theorem mem_junctionRels_some {S : SchemaDefinition} {rel : RelationshipDefinition}
    (hm : rel ∈ junctionRels S) : ∃ jt, rel.junctionTable = some jt := by
  have hpred := List.of_mem_filter hm
  rw [Bool.and_eq_true] at hpred
  rcases ho : rel.junctionTable with _ | jt
  · rw [ho] at hpred
    cases hpred.2
  · exact ⟨jt, rfl⟩

theorem lineFilter_generateJunctionTables (p : List Char → Bool) (hp0 : p [] = false)
    (hds : ∀ l, p ('-' :: l) = false)
    (hsp : ∀ l, p (' ' :: l) = false)
    (hcp : ∀ l, p (')' :: l) = false)
    (S : SchemaDefinition) (h : ∀ r ∈ S.relationships, relNoNL r) :
    lineFilter p (generateJunctionTables S)
      = ((junctionRels S).map (fun rel =>
          if p (junctionCTLine S.dialect rel) then [junctionCTLine S.dialect rel]
          else [])).flatten := by
  unfold generateJunctionTables
  split
  · rename_i hj
    rw [hj]
    simp only [List.map_nil, List.flatten_nil]
    exact lineFilter_single_false p (by decide) hp0
  · have hdsc : p (("-- Junction Tables (Many-to-Many)" : String).data) = false := hds _
    rw [show ("-- Junction Tables (Many-to-Many)\n" : String)
        = "-- Junction Tables (Many-to-Many)" ++ "\n" from rfl,
      lineFilter_append_sep, lineFilter_single_false p (by decide) hdsc, List.nil_append,
      lineFilter_joinSep_blank p hp0, List.map_map]
    refine congrArg List.flatten (List.map_congr_left ?_)
    intro rel hrelmem
    have hrelS : rel ∈ S.relationships := List.mem_of_mem_filter hrelmem
    rcases mem_junctionRels_some hrelmem with ⟨jt, ho⟩
    show lineFilter p (junctionSQL S.dialect rel) = _
    rw [lineFilter_junctionSQL p hds hsp hcp S.dialect rel jt ho (h rel hrelS),
      junctionCTLine_eq ho]

theorem ctFilter_generateJunctionTables (S : SchemaDefinition)
    (h : ∀ r ∈ S.relationships, relNoNL r) :
    lineFilter ctLine (generateJunctionTables S) = junctionCTLines S := by
  rw [lineFilter_generateJunctionTables ctLine rfl
    (fun l => ctLine_false_of_head (by decide) l)
    (fun l => ctLine_false_of_head (by decide) l)
    (fun l => ctLine_false_of_head (by decide) l) S h]
  unfold junctionCTLines
  have hmap : ∀ rel ∈ junctionRels S,
      (if ctLine (junctionCTLine S.dialect rel) then [junctionCTLine S.dialect rel] else [])
        = [junctionCTLine S.dialect rel] := by
    intro rel hm
    rcases mem_junctionRels_some hm with ⟨jt, ho⟩
    rw [junctionCTLine_eq ho]
    have hct : ctLine (("CREATE TABLE " ++ quoteId S.dialect jt.name ++ " (").data) = true :=
      ct_createTable (quoteId S.dialect jt.name ++ " (")
    rw [hct]
    rfl
  rw [List.map_congr_left hmap]
  exact flatten_map_singleton (junctionCTLine S.dialect) (junctionRels S)

theorem atFilter_generateJunctionTables (S : SchemaDefinition)
    (h : ∀ r ∈ S.relationships, relNoNL r) :
    lineFilter atLine (generateJunctionTables S) = [] := by
  rw [lineFilter_generateJunctionTables atLine rfl
    (fun l => atLine_false_of_head (by decide) l)
    (fun l => atLine_false_of_head (by decide) l)
    (fun l => atLine_false_of_head (by decide) l) S h]
  rw [List.flatten_eq_nil_iff]
  intro l hl
  rcases List.mem_map.mp hl with ⟨rel, hm, heq⟩
  subst heq
  rcases mem_junctionRels_some hm with ⟨jt, ho⟩
  have hat : atLine (("CREATE TABLE " ++ quoteId S.dialect jt.name ++ " (").data) = false :=
    at_createTable (quoteId S.dialect jt.name ++ " (")
  rw [junctionCTLine_eq ho, hat]
  rfl

theorem caFilter_generateJunctionTables (S : SchemaDefinition)
    (h : ∀ r ∈ S.relationships, relNoNL r) :
    lineFilter caLine (generateJunctionTables S) = junctionCTLines S := by
  rw [lineFilter_generateJunctionTables caLine rfl
    (caLine_false_of_head_char (by decide) (by decide))
    (caLine_false_of_head_char (by decide) (by decide))
    (caLine_false_of_head_char (by decide) (by decide)) S h]
  unfold junctionCTLines
  have hmap : ∀ rel ∈ junctionRels S,
      (if caLine (junctionCTLine S.dialect rel) then [junctionCTLine S.dialect rel] else [])
        = [junctionCTLine S.dialect rel] := by
    intro rel hm
    rcases mem_junctionRels_some hm with ⟨jt, ho⟩
    rw [junctionCTLine_eq ho]
    have hct : caLine (("CREATE TABLE " ++ quoteId S.dialect jt.name ++ " (").data) = true :=
      ca_createTable (quoteId S.dialect jt.name ++ " (")
    rw [hct]
    rfl
  rw [List.map_congr_left hmap]
  exact flatten_map_singleton (junctionCTLine S.dialect) (junctionRels S)

/-! ## Section line characterizations: stored procedures -/

set_option maxRecDepth 16384 in
theorem pgFunction_reassoc (proc : StoredProcedureDefinition) :
    generatePostgresFunction proc
      = ("-- " ++ (if proc.comment = "" then proc.name else proc.comment)) ++ "\n"
        ++ (("CREATE OR REPLACE FUNCTION " ++ quoteId SQLDialect.postgresql proc.name ++ "("
            ++ joinSep ", " (proc.parameters.map pgParam) ++ ")") ++ "\n"
        ++ (("RETURNS " ++ pgReturnType proc) ++ "\n"
        ++ (("LANGUAGE " ++ (if proc.language = "" then "plpgsql" else proc.language)) ++ "\n"
        ++ ("AS $$" ++ "\n"
        ++ (proc.body ++ "\n" ++ "$$;"))))) := by
  apply String.ext
  simp [generatePostgresFunction, String.data_append, List.append_assoc]

set_option maxRecDepth 16384 in
theorem mysqlProcedure_reassoc (proc : StoredProcedureDefinition) :
    generateMySQLProcedure proc
      = ("-- " ++ (if proc.comment = "" then proc.name else proc.comment)) ++ "\n"
        ++ ("DELIMITER //" ++ "\n"
        ++ (("CREATE PROCEDURE " ++ quoteId SQLDialect.mysql proc.name ++ "("
            ++ joinSep ", "
              (proc.parameters.map
                (fun q => dirStr q.direction ++ " " ++ q.name ++ " "
                  ++ typeMapping SQLDialect.mysql q.type)) ++ ")") ++ "\n"
        ++ ("BEGIN" ++ "\n"
        ++ (proc.body ++ "\n"
        ++ ("END //" ++ "\n" ++ "DELIMITER ;"))))) := by
  apply String.ext
  simp [generateMySQLProcedure, String.data_append, List.append_assoc]

theorem lineFilter_body_nil {p : List Char → Bool} {body : String}
    (hb : ∀ l ∈ linesL body, p l = false) : lineFilter p body = [] := by
  rw [lineFilter, List.filter_eq_nil_iff]
  intro l hl hpl
  rw [hb l hl] at hpl
  cases hpl

theorem noNL_pgParam {q : ProcedureParameter} (hq : noNL q.name) : noNL (pgParam q) := by
  unfold pgParam
  have hdir : noNL (if q.direction ≠ ParamDirection.dirIn
      then dirStr q.direction ++ " " else "") := by
    split
    · exact noNL_append (by cases q.direction <;> decide) (by decide)
    · decide
  exact noNL_append (noNL_append (noNL_append hq (by decide)) hdir) (noNL_typeMapping _ _)

theorem noNL_pgReturnType (proc : StoredProcedureDefinition) : noNL (pgReturnType proc) := by
  unfold pgReturnType
  rcases proc.returnType with _ | rt
  · decide
  · rcases rt with t | _ | _
    · exact noNL_typeMapping _ t
    · decide
    · decide

theorem lineFilter_pgFunction (p : List Char → Bool)
    (hds : ∀ l, p ('-' :: l) = false)
    (hR : ∀ l, p ('R' :: l) = false)
    (hL : ∀ l, p ('L' :: l) = false)
    (hdol : ∀ l, p ('$' :: l) = false)
    (hAS : p (("AS $$" : String).data) = false)
    (hfn : ∀ r, p ("CREATE OR REPLACE FUNCTION ".data ++ r) = false)
    (proc : StoredProcedureDefinition) (hpn : procNoNL proc)
    (hb : ∀ l ∈ linesL proc.body, p l = false) :
    lineFilter p (generatePostgresFunction proc) = [] := by
  have hcm : noNL (if proc.comment = "" then proc.name else proc.comment) := by
    split
    · exact hpn.1
    · exact hpn.2.1
  have hparams : noNL (joinSep ", " (proc.parameters.map pgParam)) := by
    refine noNL_joinSep (by decide) ?_
    intro x hx
    rcases List.mem_map.mp hx with ⟨q, hq, heq⟩
    subst heq
    exact noNL_pgParam (hpn.2.2.2 q hq)
  have hlang : noNL (if proc.language = "" then "plpgsql" else proc.language) := by
    split
    · decide
    · exact hpn.2.2.1
  have n1 : noNL ("-- " ++ (if proc.comment = "" then proc.name else proc.comment)) :=
    noNL_append (by decide) hcm
  have d1 : p (("-- " ++ (if proc.comment = "" then proc.name
      else proc.comment)).data) = false := hds _
  have n2 : noNL ("CREATE OR REPLACE FUNCTION " ++ quoteId SQLDialect.postgresql proc.name
      ++ "(" ++ joinSep ", " (proc.parameters.map pgParam) ++ ")") :=
    noNL_append (noNL_append (noNL_append (noNL_append (by decide)
      (noNL_quoteId hpn.1)) (by decide)) hparams) (by decide)
  have d2 : p (("CREATE OR REPLACE FUNCTION " ++ quoteId SQLDialect.postgresql proc.name
      ++ "(" ++ joinSep ", " (proc.parameters.map pgParam) ++ ")").data) = false := hfn _
  have n3 : noNL ("RETURNS " ++ pgReturnType proc) :=
    noNL_append (by decide) (noNL_pgReturnType proc)
  have d3 : p (("RETURNS " ++ pgReturnType proc).data) = false := hR _
  have n4 : noNL ("LANGUAGE " ++ (if proc.language = "" then "plpgsql"
      else proc.language)) := noNL_append (by decide) hlang
  have d4 : p (("LANGUAGE " ++ (if proc.language = "" then "plpgsql"
      else proc.language)).data) = false := hL _
  have d6 : p (("$$;" : String).data) = false := hdol _
  rw [pgFunction_reassoc]
  simp only [lineFilter_append_sep]
  rw [lineFilter_single_false p n1 d1, lineFilter_single_false p n2 d2,
    lineFilter_single_false p n3 d3, lineFilter_single_false p n4 d4,
    lineFilter_single_false p (by decide) hAS, lineFilter_body_nil hb,
    lineFilter_single_false p (by decide) d6]
  rfl

theorem lineFilter_mysqlProcedure (p : List Char → Bool)
    (hds : ∀ l, p ('-' :: l) = false)
    (hD : ∀ l, p ('D' :: l) = false)
    (hB : ∀ l, p ('B' :: l) = false)
    (hE : ∀ l, p ('E' :: l) = false)
    (hproc : ∀ r, p ("CREATE PROCEDURE ".data ++ r) = false)
    (proc : StoredProcedureDefinition) (hpn : procNoNL proc)
    (hb : ∀ l ∈ linesL proc.body, p l = false) :
    lineFilter p (generateMySQLProcedure proc) = [] := by
  have hcm : noNL (if proc.comment = "" then proc.name else proc.comment) := by
    split
    · exact hpn.1
    · exact hpn.2.1
  have hparams : noNL (joinSep ", "
      (proc.parameters.map
        (fun q => dirStr q.direction ++ " " ++ q.name ++ " "
          ++ typeMapping SQLDialect.mysql q.type))) := by
    refine noNL_joinSep (by decide) ?_
    intro x hx
    rcases List.mem_map.mp hx with ⟨q, hq, heq⟩
    subst heq
    have hqn : noNL q.name := hpn.2.2.2 q hq
    exact noNL_append (noNL_append (noNL_append (noNL_append
      (by cases q.direction <;> decide) (by decide)) hqn) (by decide))
      (noNL_typeMapping _ _)
  have n1 : noNL ("-- " ++ (if proc.comment = "" then proc.name else proc.comment)) :=
    noNL_append (by decide) hcm
  have d1 : p (("-- " ++ (if proc.comment = "" then proc.name
      else proc.comment)).data) = false := hds _
  have n3 : noNL ("CREATE PROCEDURE " ++ quoteId SQLDialect.mysql proc.name ++ "("
      ++ joinSep ", "
        (proc.parameters.map
          (fun q => dirStr q.direction ++ " " ++ q.name ++ " "
            ++ typeMapping SQLDialect.mysql q.type)) ++ ")") :=
    noNL_append (noNL_append (noNL_append (noNL_append (by decide)
      (noNL_quoteId hpn.1)) (by decide)) hparams) (by decide)
  have d3 : p (("CREATE PROCEDURE " ++ quoteId SQLDialect.mysql proc.name ++ "("
      ++ joinSep ", "
        (proc.parameters.map
          (fun q => dirStr q.direction ++ " " ++ q.name ++ " "
            ++ typeMapping SQLDialect.mysql q.type)) ++ ")").data) = false := hproc _
  have dD : p (("DELIMITER //" : String).data) = false := hD _
  have dB : p (("BEGIN" : String).data) = false := hB _
  have dE : p (("END //" : String).data) = false := hE _
  have dD2 : p (("DELIMITER ;" : String).data) = false := hD _
  rw [mysqlProcedure_reassoc]
  simp only [lineFilter_append_sep]
  rw [lineFilter_single_false p n1 d1, lineFilter_single_false p (by decide) dD,
    lineFilter_single_false p n3 d3, lineFilter_single_false p (by decide) dB,
    lineFilter_body_nil hb, lineFilter_single_false p (by decide) dE,
    lineFilter_single_false p (by decide) dD2]
  rfl

theorem lineFilter_generateStoredProcedures (p : List Char → Bool) (hp0 : p [] = false)
    (hds : ∀ l, p ('-' :: l) = false)
    (hR : ∀ l, p ('R' :: l) = false)
    (hL : ∀ l, p ('L' :: l) = false)
    (hdol : ∀ l, p ('$' :: l) = false)
    (hD : ∀ l, p ('D' :: l) = false)
    (hB : ∀ l, p ('B' :: l) = false)
    (hE : ∀ l, p ('E' :: l) = false)
    (hAS : p (("AS $$" : String).data) = false)
    (hfn : ∀ r, p ("CREATE OR REPLACE FUNCTION ".data ++ r) = false)
    (hproc : ∀ r, p ("CREATE PROCEDURE ".data ++ r) = false)
    (S : SchemaDefinition) (hpn : ∀ proc ∈ S.storedProcedures, procNoNL proc)
    (hb : bodiesFree p S) :
    lineFilter p (generateStoredProcedures S) = [] := by
  unfold generateStoredProcedures
  split
  · exact lineFilter_single_false p (by decide) hp0
  · have hdsc : p (("-- Stored Procedures and Functions" : String).data) = false := hds _
    rw [show ("-- Stored Procedures and Functions\n" : String)
        = "-- Stored Procedures and Functions" ++ "\n" from rfl,
      lineFilter_append_sep, lineFilter_single_false p (by decide) hdsc, List.nil_append,
      lineFilter_joinSep_blank p hp0, List.map_map]
    rw [List.flatten_eq_nil_iff]
    intro l hl
    rcases List.mem_map.mp hl with ⟨proc, hm, heq⟩
    subst heq
    show lineFilter p (if S.dialect = SQLDialect.postgresql
        then generatePostgresFunction proc else generateMySQLProcedure proc) = []
    split
    · exact lineFilter_pgFunction p hds hR hL hdol hAS hfn proc (hpn proc hm)
        (hb proc hm)
    · exact lineFilter_mysqlProcedure p hds hD hB hE hproc proc (hpn proc hm)
        (hb proc hm)

/-! ## Whole-output filter characterizations -/

theorem flatten_map_ite {α β : Type} {c : Prop} [Decidable c] (f : α → List β) (x : α) :
    (List.map f (if c then [x] else [])).flatten = if c then f x else [] := by
  split <;> simp

theorem generateJunctionTables_empty_iff (S : SchemaDefinition) :
    generateJunctionTables S = "" ↔ junctionRels S = [] := by
  unfold generateJunctionTables
  split
  · rename_i hj
    simp [hj]
  · rename_i hj
    constructor
    · intro hcon
      have h2 := congrArg String.data hcon
      rw [String.data_append] at h2
      rcases List.append_eq_nil.mp h2 with ⟨h3, _⟩
      cases h3
    · intro hj2
      exact absurd hj2 hj

theorem generateForeignKeys_empty_iff (S : SchemaDefinition) :
    generateForeignKeys S = "" ↔ fkStatements S = [] := by
  unfold generateForeignKeys
  split
  · rename_i hj
    simp [hj]
  · rename_i hj
    constructor
    · intro hcon
      have h2 := congrArg String.data hcon
      rw [String.data_append] at h2
      rcases List.append_eq_nil.mp h2 with ⟨h3, _⟩
      cases h3
    · intro hj2
      exact absurd hj2 hj

theorem ctLine_imp_caLine : ∀ l, ctLine l = true → caLine l = true := by
  intro l hl
  unfold caLine
  rw [hl]
  rfl

theorem atLine_imp_caLine : ∀ l, atLine l = true → caLine l = true := by
  intro l hl
  unfold caLine
  rw [hl]
  exact Bool.or_true _

theorem ctFilter_compileSQL (S : SchemaDefinition) (now : String)
    (h : schemaNoNL S) (hnow : noNL now) (hb : bodiesFree ctLine S) :
    lineFilter ctLine (compileSQL S now) = tableCTLines S ++ junctionCTLines S := by
  have htabs := h.2.2.1
  have hrels := h.2.2.2.1
  have hprocs := h.2.2.2.2
  have hH : lineFilter ctLine (generateHeader S now) = [] :=
    lineFilter_sub_nil ctLine_imp_caLine (caFilter_header S now h.1 h.2.1 hnow)
  have hSch : lineFilter ctLine (generateSchemaStatements S) = [] :=
    lineFilter_sub_nil ctLine_imp_caLine
      (caFilter_schemaStatements S (fun t ht => (htabs t ht).2.1))
  have hEnum : lineFilter ctLine (generateEnumTypes S) = [] :=
    lineFilter_sub_nil ctLine_imp_caLine (caFilter_enumTypes S htabs)
  have hTab : lineFilter ctLine (generateTables S) = tableCTLines S :=
    ctFilter_generateTables S htabs
  have hIdx : lineFilter ctLine (generateIndexes S) = [] :=
    lineFilter_sub_nil ctLine_imp_caLine (caFilter_indexes S htabs)
  have hFK : lineFilter ctLine (generateForeignKeys S) = [] :=
    ctFilter_generateForeignKeys S htabs
  have hJ : lineFilter ctLine (generateJunctionTables S) = junctionCTLines S :=
    ctFilter_generateJunctionTables S hrels
  have hP : lineFilter ctLine (generateStoredProcedures S) = [] :=
    lineFilter_generateStoredProcedures ctLine rfl
      (fun l => ctLine_false_of_head (by decide) l)
      (fun l => ctLine_false_of_head (by decide) l)
      (fun l => ctLine_false_of_head (by decide) l)
      (fun l => ctLine_false_of_head (by decide) l)
      (fun l => ctLine_false_of_head (by decide) l)
      (fun l => ctLine_false_of_head (by decide) l)
      (fun l => ctLine_false_of_head (by decide) l)
      (by decide)
      (fun r => ctLine_false_lit "CREATE OR REPLACE FUNCTION " (by decide) (by decide) r)
      (fun r => ctLine_false_lit "CREATE PROCEDURE " (by decide) (by decide) r)
      S hprocs hb
  rw [lineFilter_compileSQL ctLine rfl (fun l hws => ctLine_false_of_ws hws) S now]
  unfold sqlSections
  simp only [List.map_append, List.flatten_append, List.map_cons, List.map_nil,
    List.flatten_cons, List.flatten_nil, flatten_map_ite]
  rw [hH, hSch, hEnum, hTab, hIdx, hFK, hJ, hP]
  have hjite : (if generateJunctionTables S ≠ "" then junctionCTLines S else [])
      = junctionCTLines S := by
    split
    · rfl
    · rename_i hns
      have hj : junctionRels S = [] :=
        (generateJunctionTables_empty_iff S).mp (not_ne_iff.mp hns)
      simp [junctionCTLines, hj]
  rw [hjite]
  simp [ite_self]

theorem atFilter_compileSQL (S : SchemaDefinition) (now : String)
    (h : schemaNoNL S) (hnow : noNL now) (hb : bodiesFree atLine S) :
    lineFilter atLine (compileSQL S now) = fkATLines S := by
  have htabs := h.2.2.1
  have hrels := h.2.2.2.1
  have hprocs := h.2.2.2.2
  have hH : lineFilter atLine (generateHeader S now) = [] :=
    lineFilter_sub_nil atLine_imp_caLine (caFilter_header S now h.1 h.2.1 hnow)
  have hSch : lineFilter atLine (generateSchemaStatements S) = [] :=
    lineFilter_sub_nil atLine_imp_caLine
      (caFilter_schemaStatements S (fun t ht => (htabs t ht).2.1))
  have hEnum : lineFilter atLine (generateEnumTypes S) = [] :=
    lineFilter_sub_nil atLine_imp_caLine (caFilter_enumTypes S htabs)
  have hTab : lineFilter atLine (generateTables S) = [] :=
    atFilter_generateTables S htabs
  have hIdx : lineFilter atLine (generateIndexes S) = [] :=
    lineFilter_sub_nil atLine_imp_caLine (caFilter_indexes S htabs)
  have hFK : lineFilter atLine (generateForeignKeys S) = fkATLines S :=
    atFilter_generateForeignKeys S htabs
  have hJ : lineFilter atLine (generateJunctionTables S) = [] :=
    atFilter_generateJunctionTables S hrels
  have hP : lineFilter atLine (generateStoredProcedures S) = [] :=
    lineFilter_generateStoredProcedures atLine rfl
      (fun l => atLine_false_of_head (by decide) l)
      (fun l => atLine_false_of_head (by decide) l)
      (fun l => atLine_false_of_head (by decide) l)
      (fun l => atLine_false_of_head (by decide) l)
      (fun l => atLine_false_of_head (by decide) l)
      (fun l => atLine_false_of_head (by decide) l)
      (fun l => atLine_false_of_head (by decide) l)
      (by decide)
      (fun r => atLine_false_lit "CREATE OR REPLACE FUNCTION " (by decide) (by decide) r)
      (fun r => atLine_false_lit "CREATE PROCEDURE " (by decide) (by decide) r)
      S hprocs hb
  rw [lineFilter_compileSQL atLine rfl (fun l hws => atLine_false_of_ws hws) S now]
  unfold sqlSections
  simp only [List.map_append, List.flatten_append, List.map_cons, List.map_nil,
    List.flatten_cons, List.flatten_nil, flatten_map_ite]
  rw [hH, hSch, hEnum, hTab, hIdx, hFK, hJ, hP]
  have hfkite : (if generateForeignKeys S ≠ "" then fkATLines S else [])
      = fkATLines S := by
    split
    · rfl
    · rename_i hns
      have hj : fkStatements S = [] :=
        (generateForeignKeys_empty_iff S).mp (not_ne_iff.mp hns)
      rw [fkATLines_nil_of_empty hj]
  rw [hfkite]
  simp [ite_self]

theorem caFilter_compileSQL (S : SchemaDefinition) (now : String)
    (h : schemaNoNL S) (hnow : noNL now) (hb : bodiesFree caLine S) :
    lineFilter caLine (compileSQL S now)
      = tableCTLines S ++ fkATLines S ++ junctionCTLines S := by
  have htabs := h.2.2.1
  have hrels := h.2.2.2.1
  have hprocs := h.2.2.2.2
  have hH := caFilter_header S now h.1 h.2.1 hnow
  have hSch := caFilter_schemaStatements S (fun t ht => (htabs t ht).2.1)
  have hEnum := caFilter_enumTypes S htabs
  have hTab := caFilter_generateTables S htabs
  have hIdx := caFilter_indexes S htabs
  have hFK := caFilter_generateForeignKeys S htabs
  have hJ := caFilter_generateJunctionTables S hrels
  have hP : lineFilter caLine (generateStoredProcedures S) = [] :=
    lineFilter_generateStoredProcedures caLine rfl
      (caLine_false_of_head_char (by decide) (by decide))
      (caLine_false_of_head_char (by decide) (by decide))
      (caLine_false_of_head_char (by decide) (by decide))
      (caLine_false_of_head_char (by decide) (by decide))
      (caLine_false_of_head_char (by decide) (by decide))
      (caLine_false_of_head_char (by decide) (by decide))
      (caLine_false_of_head_char (by decide) (by decide))
      (by decide)
      (fun r => by
        unfold caLine
        rw [ctLine_false_lit "CREATE OR REPLACE FUNCTION " (by decide) (by decide) r,
          atLine_false_lit "CREATE OR REPLACE FUNCTION " (by decide) (by decide) r]
        rfl)
      (fun r => by
        unfold caLine
        rw [ctLine_false_lit "CREATE PROCEDURE " (by decide) (by decide) r,
          atLine_false_lit "CREATE PROCEDURE " (by decide) (by decide) r]
        rfl)
      S hprocs hb
  rw [lineFilter_compileSQL caLine rfl (fun l hws => caLine_false_of_ws hws) S now]
  unfold sqlSections
  simp only [List.map_append, List.flatten_append, List.map_cons, List.map_nil,
    List.flatten_cons, List.flatten_nil, flatten_map_ite]
  rw [hH, hSch, hEnum, hTab, hIdx, hFK, hJ, hP]
  have hjite : (if generateJunctionTables S ≠ "" then junctionCTLines S else [])
      = junctionCTLines S := by
    split
    · rfl
    · rename_i hns
      have hj : junctionRels S = [] :=
        (generateJunctionTables_empty_iff S).mp (not_ne_iff.mp hns)
      simp [junctionCTLines, hj]
  have hfkite : (if generateForeignKeys S ≠ "" then fkATLines S else [])
      = fkATLines S := by
    split
    · rfl
    · rename_i hns
      have hj : fkStatements S = [] :=
        (generateForeignKeys_empty_iff S).mp (not_ne_iff.mp hns)
      rw [fkATLines_nil_of_empty hj]
  rw [hjite, hfkite]
  simp [ite_self, List.append_assoc]


/-! ## Survival of the always-present sections under the trim filter -/

theorem trimWS_generateHeader_ne (S : SchemaDefinition) (now : String) :
    trimWS (generateHeader S now) ≠ "" := by
  have hd : (generateHeader S now).data
      = '-' :: ("- ============================================\n-- Database Schema: "
          ++ S.name ++ ("\n-- Dialect: " ++ dialectDisplayName S.dialect
          ++ ("\n-- Generated: " ++ now ++ ("\n-- Description: "
          ++ (if S.description = "" then "Auto-generated schema" else S.description)
          ++ "\n-- ============================================")))).data := by
    simp [generateHeader, String.data_append, List.append_assoc]
  exact trimWS_ne_empty hd (by decide)

theorem trimWS_generateTables_ne (S : SchemaDefinition) :
    trimWS (generateTables S) ≠ "" := by
  have hd : (generateTables S).data
      = '-' :: ("- Tables\n"
          ++ joinSep "\n\n" (S.tables.map (generateTable S.dialect))).data := by
    simp [generateTables, String.data_append, List.append_assoc]
  exact trimWS_ne_empty hd (by decide)

/-! ## Concrete values used by witnesses and counterexamples -/

/-- A schema with no tables, relationships or stored procedures. -/
def emptySchema : SchemaDefinition :=
  { id := "s0", name := "Empty", description := "", dialect := SQLDialect.postgresql,
    tables := [], relationships := [], storedProcedures := [] }

def tUsers : TableDefinition :=
  { id := "t1", name := "Users",
    columns :=
      [{ id := "c1", name := "id", type := ColumnType.serial,
         isPrimaryKey := true, isNullable := false, isUnique := false }] }

def tPosts : TableDefinition :=
  { id := "t2", name := "Posts",
    columns :=
      [{ id := "c2", name := "id", type := ColumnType.serial,
         isPrimaryKey := true, isNullable := false, isUnique := false }] }

def relUP : RelationshipDefinition :=
  { id := "r1", name := "", sourceTable := "Users", sourceColumn := "id",
    targetTable := "Posts", targetColumn := "user_id",
    cardinality := Cardinality.oneToMany, onDelete := OnDeleteAction.cascade }

def schemaC10 : SchemaDefinition :=
  { id := "s10", name := "Blog", description := "", dialect := SQLDialect.postgresql,
    tables := [tUsers, tPosts], relationships := [relUP], storedProcedures := [] }

def relC9 : RelationshipDefinition :=
  { id := "r1", name := "", sourceTable := "Students", sourceColumn := "id",
    targetTable := "Courses", targetColumn := "id",
    cardinality := Cardinality.oneToMany, onDelete := OnDeleteAction.cascade }

def updC9 : RelationshipUpdate := { cardinality := some Cardinality.manyToMany }

def tbC5 : TableDefinition := { id := "t5", name := "T", columns := [] }

def colC5null : ColumnDefinition :=
  { id := "c5", name := "note", type := ColumnType.text,
    isPrimaryKey := false, isNullable := true, isUnique := false,
    defaultValue := some DefaultValue.vNull }

def colC5str : ColumnDefinition :=
  { id := "c6", name := "lastname", type := ColumnType.varchar,
    isPrimaryKey := false, isNullable := true, isUnique := false,
    defaultValue := some (DefaultValue.vStr "O'Brien") }

def tbC4 : TableDefinition :=
  { id := "t4", name := "Memberships",
    columns :=
      [{ id := "c1", name := "id", type := ColumnType.integer,
         isPrimaryKey := true, isNullable := false, isUnique := false },
       { id := "c2", name := "tenant", type := ColumnType.integer,
         isPrimaryKey := true, isNullable := false, isUnique := false },
       { id := "c3", name := "note", type := ColumnType.text,
         isPrimaryKey := false, isNullable := true, isUnique := false }] }

/-! ## Claim C8 -/

set_option maxRecDepth 100000 in
/-- C8 counterexample: for the empty schema the compiled output is not the
header comment block alone (a `-- Tables` section marker follows it). -/
theorem spec_C8_counterexample :
    compileSQL emptySchema "2024-01-01T00:00:00.000Z"
      ≠ generateHeader emptySchema "2024-01-01T00:00:00.000Z" := by
  decide

/-- C8 (amended): the compiler is a total function of the schema value, and
for a schema with no tables, no relationships and no stored procedures the
output is the header comment block followed by a blank line and the
`-- Tables` section marker (with its trailing newline), nothing else. -/
theorem spec_C8_empty_schema (S : SchemaDefinition) (now : String)
    (hT : S.tables = []) (hR : S.relationships = []) (hP : S.storedProcedures = []) :
    compileSQL S now = generateHeader S now ++ "\n\n-- Tables\n" := by
  have hTabs : generateTables S = "-- Tables\n" := by
    unfold generateTables
    rw [hT]
    rfl
  have hEnS : generateEnumTypes S = "" := by simp [generateEnumTypes, enumTypeLines, hT]
  have hIdxS : generateIndexes S = "" := by simp [generateIndexes, indexLines, hT]
  have hFkS : generateForeignKeys S = "" := by simp [generateForeignKeys, fkStatements, hT]
  have hJS : generateJunctionTables S = "" := by simp [generateJunctionTables, junctionRels, hR]
  have hPS : generateStoredProcedures S = "" := by simp [generateStoredProcedures, hP]
  have hpred : (trimWS (generateHeader S now) != "") = true :=
    bne_iff_ne.mpr (trimWS_generateHeader_ne S now)
  have hsec : sqlSections S now = [generateHeader S now, "-- Tables\n"] := by
    unfold sqlSections
    rw [hT, hTabs, hEnS, hIdxS, hFkS, hJS, hPS]
    simp
  have hfil : List.filter (fun s => trimWS s != "") [generateHeader S now, "-- Tables\n"]
      = [generateHeader S now, "-- Tables\n"] := by
    simp only [List.filter_cons, hpred]
    rfl
  unfold compileSQL
  rw [hsec, hfil]
  apply String.ext
  simp [joinSep, String.data_append, List.append_assoc]

/-- C8 witness: the amended empty-schema equation at a concrete schema. -/
theorem spec_C8_empty_schema_witness :
    compileSQL emptySchema "2024-01-01T00:00:00.000Z"
      = generateHeader emptySchema "2024-01-01T00:00:00.000Z" ++ "\n\n-- Tables\n" :=
  spec_C8_empty_schema emptySchema "2024-01-01T00:00:00.000Z" rfl rfl rfl

/-! ## Claim C10 -/

/-- C10: `deleteTable` with an unknown table id leaves the state unchanged;
with a known id it removes exactly the tables carrying that id and exactly
the relationships whose source or target table name equals the found
table's name, while stored procedures and all scalar schema fields are
untouched. -/
theorem spec_C10_deleteTable (s : SchemaDefinition) (tid now : String) :
    (s.tables.find? (fun t => t.id == tid) = none → deleteTable s tid now = s)
    ∧ ∀ tb, s.tables.find? (fun t => t.id == tid) = some tb →
        (∀ t, t ∈ (deleteTable s tid now).tables ↔ t ∈ s.tables ∧ t.id ≠ tid)
        ∧ (∀ r, r ∈ (deleteTable s tid now).relationships
            ↔ r ∈ s.relationships ∧ r.sourceTable ≠ tb.name ∧ r.targetTable ≠ tb.name)
        ∧ (deleteTable s tid now).storedProcedures = s.storedProcedures
        ∧ (deleteTable s tid now).name = s.name
        ∧ (deleteTable s tid now).dialect = s.dialect
        ∧ (deleteTable s tid now).id = s.id
        ∧ (deleteTable s tid now).description = s.description := by
  constructor
  · intro hnone
    unfold deleteTable
    rw [hnone]
  · intro tb hfind
    unfold deleteTable
    rw [hfind]
    refine ⟨?_, ?_, rfl, rfl, rfl, rfl, rfl⟩
    · intro t
      simp [List.mem_filter]
    · intro r
      simp [List.mem_filter]

/-- C10 witness: in the concrete two-table blog schema, deleting the Users
table by id keeps the Posts table exactly when its id differs. -/
theorem spec_C10_deleteTable_witness :
    tPosts ∈ (deleteTable schemaC10 "t1" "2024").tables
      ↔ tPosts ∈ schemaC10.tables ∧ tPosts.id ≠ "t1" :=
  ((spec_C10_deleteTable schemaC10 "t1" "2024").2 tUsers (by decide)).1 tPosts

/-! ## Claim C9 -/

/-- C9 counterexample: the junction-descriptor invariant is not preserved by
every relationship-mutating store operation: `updateRelationship` with a
cardinality-only update switches a one-to-many relationship to many-to-many
without populating the descriptor. -/
theorem spec_C9_counterexample :
    junctionInvariant relC9
    ∧ ¬ ∀ r ∈ updateRelationship [relC9] "r1" updC9, junctionInvariant r := by
  decide

/-- C9 (amended): `changeCardinality` preserves the junction-descriptor
invariant, and on the found relationship it installs the cardinality
together with the descriptor named `<sourceTable>_<targetTable>` with
lowercased `<table>_id` column names exactly when the new cardinality is
many-to-many, clearing it otherwise. -/
theorem spec_C9_changeCardinality (rels : List RelationshipDefinition) (rid : String)
    (c : Cardinality) (hinv : ∀ r ∈ rels, junctionInvariant r) :
    (∀ r ∈ changeCardinality rels rid c, junctionInvariant r)
    ∧ (∀ rel, rels.find? (fun r => r.id == rid) = some rel →
        ∀ r ∈ changeCardinality rels rid c, r.id = rid →
          r.cardinality = c
          ∧ r.junctionTable = (if c = Cardinality.manyToMany
              then some
                { name := rel.sourceTable ++ "_" ++ rel.targetTable,
                  sourceColumn := lowerStr rel.sourceTable ++ "_id",
                  targetColumn := lowerStr rel.targetTable ++ "_id" }
              else none)) := by
  constructor
  · intro r hr
    unfold changeCardinality at hr
    cases hf : rels.find? (fun x => x.id == rid) with
    | none =>
      rw [hf] at hr
      exact hinv r hr
    | some rel0 =>
      rw [hf] at hr
      have hr2 : r ∈ rels.map (fun x => if x.id == rid
          then
            { x with
              cardinality := c,
              junctionTable := if c = Cardinality.manyToMany
                then some (junctionFor rel0) else none }
          else x) := hr
      rcases List.mem_map.mp hr2 with ⟨r0, hr0, heq⟩
      by_cases hid0 : (r0.id == rid) = true
      · rw [if_pos hid0] at heq
        rw [← heq]
        unfold junctionInvariant
        by_cases hc : c = Cardinality.manyToMany
        · simp [hc]
        · simp [hc]
      · rw [if_neg hid0] at heq
        rw [← heq]
        exact hinv r0 hr0
  · intro rel0 hf r hr hid
    unfold changeCardinality at hr
    rw [hf] at hr
    have hr2 : r ∈ rels.map (fun x => if x.id == rid
        then
          { x with
            cardinality := c,
            junctionTable := if c = Cardinality.manyToMany
              then some (junctionFor rel0) else none }
        else x) := hr
    rcases List.mem_map.mp hr2 with ⟨r0, hr0, heq⟩
    by_cases hid0 : (r0.id == rid) = true
    · rw [if_pos hid0] at heq
      rw [← heq]
      refine ⟨rfl, ?_⟩
      unfold junctionFor
      rfl
    · rw [if_neg hid0] at heq
      exfalso
      apply hid0
      rw [heq]
      exact beq_iff_eq.mpr hid

/-- C9 witness: switching the concrete Students-Courses relationship to
many-to-many yields a relationship satisfying the invariant, with the
deterministic descriptor naming. -/
theorem spec_C9_changeCardinality_witness :
    junctionInvariant
      { id := "r1", name := "", sourceTable := "Students", sourceColumn := "id",
        targetTable := "Courses", targetColumn := "id",
        cardinality := Cardinality.manyToMany, onDelete := OnDeleteAction.cascade,
        junctionTable := some
          { name := "Students_Courses",
            sourceColumn := "students_id", targetColumn := "courses_id" } } :=
  (spec_C9_changeCardinality [relC9] "r1" Cardinality.manyToMany (by decide)).1
    _ (by decide)

/-! ## Claim C5 -/

/-- C5 counterexample: a column whose default value is `null` produces no
`DEFAULT` clause at all (the claimed `DEFAULT NULL` is never emitted),
because `generateColumn` tests `defaultValue !== null` before appending the
clause. -/
theorem spec_C5_counterexample :
    containsSub "DEFAULT".data
        (generateColumn SQLDialect.postgresql tbC5 colC5null).data = false
    ∧ containsSub "NULL".data
        (generateColumn SQLDialect.postgresql tbC5 colC5null).data = false := by
  decide

/-- C5 (amended): default-value formatting: a `null` default yields no
DEFAULT part in the column line; a boolean default renders as 1/0 under
MySQL and TRUE/FALSE under PostgreSQL; a numeric default renders as its
decimal literal; a string containing a recognized function marker is
emitted verbatim; any other string is single-quoted with embedded quotes
doubled; and every present non-null default yields exactly one trailing
`DEFAULT <formatted>` part. -/
theorem spec_C5_default_formatting (d : SQLDialect) (tb : TableDefinition)
    (col : ColumnDefinition) :
    (col.defaultValue = some DefaultValue.vNull →
      colParts d tb col
        = ["  " ++ quoteId d col.name, getColumnType d tb col]
          ++ (if col.isNullable = false ∧ col.isPrimaryKey = false then ["NOT NULL"] else [])
          ++ (if col.isUnique = true ∧ col.isPrimaryKey = false then ["UNIQUE"] else []))
    ∧ (∀ b, col.defaultValue = some (DefaultValue.vBool b) →
        formatDefaultValue d col
          = if d = SQLDialect.mysql then (if b then "1" else "0")
            else (if b then "TRUE" else "FALSE"))
    ∧ (∀ n, col.defaultValue = some (DefaultValue.vNum n) →
        formatDefaultValue d col = intStr n)
    ∧ (∀ s, col.defaultValue = some (DefaultValue.vStr s) → isFnMarker s = true →
        formatDefaultValue d col = s)
    ∧ (∀ s, col.defaultValue = some (DefaultValue.vStr s) → isFnMarker s = false →
        formatDefaultValue d col = "'" ++ escapeString s ++ "'")
    ∧ (∀ v, col.defaultValue = some v → v ≠ DefaultValue.vNull →
        colParts d tb col
          = ["  " ++ quoteId d col.name, getColumnType d tb col]
            ++ (if col.isNullable = false ∧ col.isPrimaryKey = false then ["NOT NULL"] else [])
            ++ (if col.isUnique = true ∧ col.isPrimaryKey = false then ["UNIQUE"] else [])
            ++ ["DEFAULT " ++ formatDefaultValue d col]) := by
  refine ⟨?_, ?_, ?_, ?_, ?_, ?_⟩
  · intro h
    simp [colParts, h]
  · intro b h
    simp [formatDefaultValue, h]
  · intro n h
    simp [formatDefaultValue, h]
  · intro s h hm
    simp [formatDefaultValue, h, hm]
  · intro s h hm
    simp [formatDefaultValue, h, hm]
  · intro v h hv
    cases v with
    | vNull => exact absurd rfl hv
    | vBool b => simp [colParts, h]
    | vNum n => simp [colParts, h]
    | vStr s => simp [colParts, h]

/-- C5 witness: the spec's quote-doubling example, `O'Brien` compiling to
`'O''Brien'`. -/
theorem spec_C5_default_formatting_witness :
    formatDefaultValue SQLDialect.postgresql colC5str = "'O''Brien'" := by
  have h := (spec_C5_default_formatting SQLDialect.postgresql tbC5 colC5str).2.2.2.2.1
      "O'Brien" rfl (by decide)
  rw [h]
  rfl

/-! ## Claim C4 -/

/-- C4: a primary-key column's definition line never carries an explicit
NOT NULL (or UNIQUE) clause regardless of the nullability flag, and a table
with at least one primary-key column gets exactly one trailing
`PRIMARY KEY (...)` entry listing the primary-key columns in declaration
order. -/
theorem spec_C4_primaryKey (d : SQLDialect) (tb : TableDefinition) :
    (∀ col, col.isPrimaryKey = true →
      colParts d tb col
        = ["  " ++ quoteId d col.name, getColumnType d tb col]
          ++ (match col.defaultValue with
              | none => []
              | some DefaultValue.vNull => []
              | some _ => ["DEFAULT " ++ formatDefaultValue d col]))
    ∧ (pkColumns tb ≠ [] →
      columnDefs d tb
        = tb.columns.map (generateColumn d tb)
          ++ ["  PRIMARY KEY (" ++ joinSep ", "
              ((tb.columns.filter (fun c => c.isPrimaryKey)).map (fun c => quoteId d c.name))
              ++ ")"]) := by
  constructor
  · intro col h
    simp [colParts, h]
  · intro hpk
    unfold columnDefs
    rw [if_neg (by simpa [List.isEmpty_iff] using hpk)]
    rfl

/-- C4 witness: the two-column composite key of the concrete Memberships
table yields the single trailing PRIMARY KEY entry. -/
theorem spec_C4_primaryKey_witness :
    columnDefs SQLDialect.postgresql tbC4
      = tbC4.columns.map (generateColumn SQLDialect.postgresql tbC4)
        ++ ["  PRIMARY KEY (" ++ joinSep ", "
            ((tbC4.columns.filter (fun c => c.isPrimaryKey)).map
              (fun c => quoteId SQLDialect.postgresql c.name)) ++ ")"] :=
  (spec_C4_primaryKey SQLDialect.postgresql tbC4).2 (by decide)

/-! ## Claim C2 -/

/-- C2: for every schema (either dialect), the CREATE-TABLE-opener lines of
the compiled SQL are exactly one per table of `S.tables`, in the same order
as the tables, followed only by the junction-table statements. -/
theorem spec_C2_createTables (S : SchemaDefinition) (now : String)
    (h : schemaNoNL S) (hnow : noNL now) (hb : bodiesFree ctLine S) :
    lineFilter ctLine (compileSQL S now)
      = S.tables.map (tableCTLine S.dialect) ++ junctionCTLines S := by
  rw [ctFilter_compileSQL S now h hnow hb]
  rfl

/-- C2 witness: the CREATE TABLE lines of the concrete two-table blog
schema. -/
theorem spec_C2_createTables_witness :
    lineFilter ctLine (compileSQL schemaC10 "2024")
      = schemaC10.tables.map (tableCTLine schemaC10.dialect) ++ junctionCTLines schemaC10 :=
  spec_C2_createTables schemaC10 "2024" (by decide) (by decide) (by decide)

/-! ## Claim C6 -/

def tbC6A : TableDefinition :=
  { id := "a", name := "A",
    columns :=
      [{ id := "ca", name := "id", type := ColumnType.integer,
         isPrimaryKey := true, isNullable := false, isUnique := false }],
    foreignKeys :=
      [{ id := "f1", constraintName := "fk_a_b", columnName := "b_id",
         referencedTable := "B", referencedColumn := "id",
         onDelete := OnDeleteAction.cascade }] }

def tbC6B : TableDefinition :=
  { id := "b", name := "B",
    columns :=
      [{ id := "cb", name := "id", type := ColumnType.integer,
         isPrimaryKey := true, isNullable := false, isUnique := false }] }

def relC6 : RelationshipDefinition :=
  { id := "r6", name := "", sourceTable := "A", sourceColumn := "id",
    targetTable := "B", targetColumn := "id",
    cardinality := Cardinality.manyToMany, onDelete := OnDeleteAction.cascade,
    junctionTable := some
      { name := "A_B", sourceColumn := "a_id", targetColumn := "b_id" } }

def schemaC6 : SchemaDefinition :=
  { id := "s6", name := "S6", description := "", dialect := SQLDialect.postgresql,
    tables := [tbC6A, tbC6B], relationships := [relC6], storedProcedures := [] }

set_option maxRecDepth 100000 in
/-- C6 counterexample: with a foreign key and a many-to-many junction
relationship, a junction CREATE TABLE statement follows the ALTER TABLE
foreign-key section, so the statement-opener lines in document order are
not the CREATE TABLE openers followed by the ALTER TABLE openers. -/
theorem spec_C6_counterexample :
    lineFilter caLine (compileSQL schemaC6 "2024")
      ≠ lineFilter ctLine (compileSQL schemaC6 "2024")
        ++ lineFilter atLine (compileSQL schemaC6 "2024") := by
  decide

/-- C6 (amended): when the schema has no junction relationships, every
CREATE TABLE statement precedes every ALTER TABLE foreign-key statement in
the compiled SQL: the statement-opener lines in document order are exactly
the CREATE TABLE openers followed by the ALTER TABLE openers. -/
theorem spec_C6_order (S : SchemaDefinition) (now : String)
    (h : schemaNoNL S) (hnow : noNL now) (hj : junctionRels S = [])
    (hbct : bodiesFree ctLine S) (hbat : bodiesFree atLine S)
    (hbca : bodiesFree caLine S) :
    lineFilter caLine (compileSQL S now)
      = lineFilter ctLine (compileSQL S now) ++ lineFilter atLine (compileSQL S now) := by
  rw [ctFilter_compileSQL S now h hnow hbct, atFilter_compileSQL S now h hnow hbat,
    caFilter_compileSQL S now h hnow hbca]
  simp [junctionCTLines, hj]

/-- C6 witness: the ordering equation at the concrete junction-free blog
schema. -/
theorem spec_C6_order_witness :
    lineFilter caLine (compileSQL schemaC10 "2024")
      = lineFilter ctLine (compileSQL schemaC10 "2024")
        ++ lineFilter atLine (compileSQL schemaC10 "2024") :=
  spec_C6_order schemaC10 "2024" (by decide) (by decide) (by decide) (by decide)
    (by decide) (by decide)

/-! ## Claim C1: decomposition of the output around the timestamp line -/

/-- The sections after the header (none of them mentions the clock). -/
def sqlSectionsTail (S : SchemaDefinition) : List String :=
  (if S.dialect = SQLDialect.postgresql ∧ S.tables.any (fun t => t.schema ≠ "") then
      [generateSchemaStatements S] else [])
    ++ (if S.dialect = SQLDialect.postgresql ∧ generateEnumTypes S ≠ "" then
        [generateEnumTypes S] else [])
    ++ [generateTables S]
    ++ (if generateIndexes S ≠ "" then [generateIndexes S] else [])
    ++ (if generateForeignKeys S ≠ "" then [generateForeignKeys S] else [])
    ++ (if generateJunctionTables S ≠ "" then [generateJunctionTables S] else [])
    ++ (if generateStoredProcedures S ≠ "" then [generateStoredProcedures S] else [])

/-- The compiled text after the header and its separating blank line. -/
def sqlRest (S : SchemaDefinition) : String :=
  joinSep "\n\n" ((sqlSectionsTail S).filter (fun s => trimWS s != ""))

theorem sqlSections_eq_cons (S : SchemaDefinition) (now : String) :
    sqlSections S now = generateHeader S now :: sqlSectionsTail S := rfl

theorem filter_sqlSectionsTail_ne_nil (S : SchemaDefinition) :
    (sqlSectionsTail S).filter (fun s => trimWS s != "") ≠ [] := by
  have hmem : generateTables S ∈ sqlSectionsTail S := by
    unfold sqlSectionsTail
    simp
  exact List.ne_nil_of_mem
    (List.mem_filter.mpr ⟨hmem, bne_iff_ne.mpr (trimWS_generateTables_ne S)⟩)

theorem compileSQL_decomp (S : SchemaDefinition) (now : String) :
    compileSQL S now = generateHeader S now ++ "\n\n" ++ sqlRest S := by
  unfold compileSQL
  rw [sqlSections_eq_cons]
  simp only [List.filter_cons]
  rw [if_pos (bne_iff_ne.mpr (trimWS_generateHeader_ne S now))]
  exact joinSep_cons "\n\n" (generateHeader S now) (filter_sqlSectionsTail_ne_nil S)

theorem linesL_append_sep (a b : String) :
    linesL (a ++ "\n" ++ b) = linesL a ++ linesL b := by
  have hd : (a ++ "\n" ++ b).data = a.data ++ '\n' :: b.data := by
    simp [String.data_append]
  rw [linesL, hd, splitChar_append_cons]
  rfl

theorem linesL_single {s : String} (h : noNL s) : linesL s = [s.data] := by
  rw [linesL, splitChar_eq_single h]

theorem linesL_header (S : SchemaDefinition) (now : String) (hname : noNL S.name)
    (hdesc : noNL S.description) (hnow : noNL now) :
    linesL (generateHeader S now)
      = ["-- ============================================".data,
         ("-- Database Schema: " ++ S.name).data,
         ("-- Dialect: " ++ dialectDisplayName S.dialect).data,
         ("-- Generated: " ++ now).data,
         ("-- Description: "
           ++ (if S.description = "" then "Auto-generated schema" else S.description)).data,
         "-- ============================================".data] := by
  rw [header_reassoc]
  simp only [linesL_append_sep]
  rw [linesL_single (by decide : noNL "-- ============================================"),
    linesL_single (noNL_append (by decide) hname),
    linesL_single (noNL_append (by decide) (noNL_dialect S)),
    linesL_single (noNL_append (by decide) hnow),
    linesL_single (noNL_append (by decide) (noNL_descStr S hdesc))]
  rfl

theorem linesL_compileSQL_decomp (S : SchemaDefinition) (now : String)
    (hname : noNL S.name) (hdesc : noNL S.description) (hnow : noNL now) :
    linesL (compileSQL S now)
      = ["-- ============================================".data,
         ("-- Database Schema: " ++ S.name).data,
         ("-- Dialect: " ++ dialectDisplayName S.dialect).data]
        ++ ("-- Generated: " ++ now).data
          :: (("-- Description: "
              ++ (if S.description = "" then "Auto-generated schema" else S.description)).data
            :: "-- ============================================".data
            :: [] :: linesL (sqlRest S)) := by
  have hd : (compileSQL S now).data
      = (generateHeader S now).data ++ '\n' :: ('\n' :: (sqlRest S).data) := by
    rw [compileSQL_decomp]
    simp [String.data_append]
  rw [linesL, hd, splitChar_append_cons, splitChar_cons_self]
  rw [show splitChar '\n' (generateHeader S now).data
      = ["-- ============================================".data,
         ("-- Database Schema: " ++ S.name).data,
         ("-- Dialect: " ++ dialectDisplayName S.dialect).data,
         ("-- Generated: " ++ now).data,
         ("-- Description: "
           ++ (if S.description = "" then "Auto-generated schema" else S.description)).data,
         "-- ============================================".data]
    from linesL_header S now hname hdesc hnow]
  rfl

theorem getElem?_append_cons_self {α : Type} (A B : List α) (x : α) :
    (A ++ x :: B)[A.length]? = some x := by
  rw [List.getElem?_append_right (le_refl A.length)]
  simp

theorem getElem?_append_cons_ne {α : Type} (A B : List α) (x y : α) (i : Nat)
    (hi : i ≠ A.length) :
    (A ++ x :: B)[i]? = (A ++ y :: B)[i]? := by
  rcases Nat.lt_or_ge i A.length with h | h
  · rw [List.getElem?_append_left h, List.getElem?_append_left h]
  · have h2 : A.length < i := lt_of_le_of_ne h (Ne.symm hi)
    have hk2 : i - A.length = (i - A.length - 1) + 1 := by omega
    rw [List.getElem?_append_right h, List.getElem?_append_right h, hk2]
    simp

/-- C1: the compiler is a pure function of the schema and the clock value:
the output of two compilations of the same schema differs at most in the
single header timestamp line, which sits at line index 3 of the output. -/
theorem spec_C1_determinism (S : SchemaDefinition) (now₁ now₂ : String)
    (hname : noNL S.name) (hdesc : noNL S.description)
    (h1 : noNL now₁) (h2 : noNL now₂) :
    (linesL (compileSQL S now₁))[3]? = some ("-- Generated: " ++ now₁).data
    ∧ (linesL (compileSQL S now₂))[3]? = some ("-- Generated: " ++ now₂).data
    ∧ (linesL (compileSQL S now₁)).length = (linesL (compileSQL S now₂)).length
    ∧ ∀ i, i ≠ 3 → (linesL (compileSQL S now₁))[i]? = (linesL (compileSQL S now₂))[i]? := by
  have e1 := linesL_compileSQL_decomp S now₁ hname hdesc h1
  have e2 := linesL_compileSQL_decomp S now₂ hname hdesc h2
  refine ⟨?_, ?_, ?_, ?_⟩
  · rw [e1]
    exact getElem?_append_cons_self _ _ _
  · rw [e2]
    exact getElem?_append_cons_self _ _ _
  · rw [e1, e2]
    simp
  · intro i hi
    rw [e1, e2]
    exact getElem?_append_cons_ne _ _ _ _ i (by simpa using hi)

/-- C1 witness: the timestamp line of a concrete compilation sits at line
index 3. -/
theorem spec_C1_determinism_witness :
    (linesL (compileSQL emptySchema "T1"))[3]? = some ("-- Generated: " ++ "T1").data :=
  (spec_C1_determinism emptySchema "T1" "T2" (by decide) (by decide) (by decide)
    (by decide)).1

/-! ## Claim C3: the junction block as consecutive output lines -/

/-- The nine lines of one junction table's DDL, as the source emits them. -/
def junctionBlockLines (d : SQLDialect) (rel : RelationshipDefinition)
    (jt : JunctionTable) : List (List Char) :=
  [("-- Junction table for " ++ rel.sourceTable ++ " <-> " ++ rel.targetTable).data,
   ("CREATE TABLE " ++ quoteId d jt.name ++ " (").data,
   ("  " ++ quoteId d jt.sourceColumn ++ " "
     ++ (if d = SQLDialect.postgresql then "INTEGER" else "INT") ++ " NOT NULL,").data,
   ("  " ++ quoteId d jt.targetColumn ++ " "
     ++ (if d = SQLDialect.postgresql then "INTEGER" else "INT") ++ " NOT NULL,").data,
   ("  created_at TIMESTAMP DEFAULT "
     ++ (if d = SQLDialect.postgresql then "CURRENT_TIMESTAMP" else "CURRENT_TIMESTAMP")
     ++ ",").data,
   ("  PRIMARY KEY (" ++ quoteId d jt.sourceColumn ++ ", " ++ quoteId d jt.targetColumn
     ++ "),").data,
   ("  FOREIGN KEY (" ++ quoteId d jt.sourceColumn ++ ") REFERENCES "
     ++ quoteId d rel.sourceTable ++ " (" ++ quoteId d rel.sourceColumn
     ++ ") ON DELETE CASCADE,").data,
   ("  FOREIGN KEY (" ++ quoteId d jt.targetColumn ++ ") REFERENCES "
     ++ quoteId d rel.targetTable ++ " (" ++ quoteId d rel.targetColumn
     ++ ") ON DELETE CASCADE").data,
   (")" ++ (if d = SQLDialect.mysql then " ENGINE=InnoDB DEFAULT CHARSET=utf8mb4" else "")
     ++ ";").data]

theorem linesL_junctionSQL (d : SQLDialect) (rel : RelationshipDefinition)
    (jt : JunctionTable) (hjt : rel.junctionTable = some jt) (hrel : relNoNL rel) :
    linesL (junctionSQL d rel) = junctionBlockLines d rel jt := by
  have hjn : noNL jt.name ∧ noNL jt.sourceColumn ∧ noNL jt.targetColumn := by
    have h2 := hrel.2.2.2.2
    rw [hjt] at h2
    exact h2
  have hint : noNL (if d = SQLDialect.postgresql then "INTEGER" else "INT") := by
    split <;> decide
  have hcts : noNL (if d = SQLDialect.postgresql
      then "CURRENT_TIMESTAMP" else "CURRENT_TIMESTAMP") := by
    split <;> decide
  have heng : noNL (if d = SQLDialect.mysql
      then " ENGINE=InnoDB DEFAULT CHARSET=utf8mb4" else "") := by
    split <;> decide
  have n1 : noNL ("-- Junction table for " ++ rel.sourceTable ++ " <-> "
      ++ rel.targetTable) :=
    noNL_append (noNL_append (noNL_append (by decide) hrel.1) (by decide)) hrel.2.2.1
  have n2 : noNL ("CREATE TABLE " ++ quoteId d jt.name ++ " (") :=
    noNL_append (noNL_append (by decide) (noNL_quoteId hjn.1)) (by decide)
  have n3 : noNL ("  " ++ quoteId d jt.sourceColumn ++ " "
      ++ (if d = SQLDialect.postgresql then "INTEGER" else "INT") ++ " NOT NULL,") :=
    noNL_append (noNL_append (noNL_append (noNL_append (by decide)
      (noNL_quoteId hjn.2.1)) (by decide)) hint) (by decide)
  have n4 : noNL ("  " ++ quoteId d jt.targetColumn ++ " "
      ++ (if d = SQLDialect.postgresql then "INTEGER" else "INT") ++ " NOT NULL,") :=
    noNL_append (noNL_append (noNL_append (noNL_append (by decide)
      (noNL_quoteId hjn.2.2)) (by decide)) hint) (by decide)
  have n5 : noNL ("  created_at TIMESTAMP DEFAULT "
      ++ (if d = SQLDialect.postgresql then "CURRENT_TIMESTAMP" else "CURRENT_TIMESTAMP")
      ++ ",") :=
    noNL_append (noNL_append (by decide) hcts) (by decide)
  have n6 : noNL ("  PRIMARY KEY (" ++ quoteId d jt.sourceColumn ++ ", "
      ++ quoteId d jt.targetColumn ++ "),") :=
    noNL_append (noNL_append (noNL_append (noNL_append (by decide)
      (noNL_quoteId hjn.2.1)) (by decide)) (noNL_quoteId hjn.2.2)) (by decide)
  have n7 : noNL ("  FOREIGN KEY (" ++ quoteId d jt.sourceColumn ++ ") REFERENCES "
      ++ quoteId d rel.sourceTable ++ " (" ++ quoteId d rel.sourceColumn
      ++ ") ON DELETE CASCADE,") :=
    noNL_append (noNL_append (noNL_append (noNL_append (noNL_append (noNL_append
      (by decide) (noNL_quoteId hjn.2.1)) (by decide)) (noNL_quoteId hrel.1)) (by decide))
      (noNL_quoteId hrel.2.1)) (by decide)
  have n8 : noNL ("  FOREIGN KEY (" ++ quoteId d jt.targetColumn ++ ") REFERENCES "
      ++ quoteId d rel.targetTable ++ " (" ++ quoteId d rel.targetColumn
      ++ ") ON DELETE CASCADE") :=
    noNL_append (noNL_append (noNL_append (noNL_append (noNL_append (noNL_append
      (by decide) (noNL_quoteId hjn.2.2)) (by decide)) (noNL_quoteId hrel.2.2.1))
      (by decide)) (noNL_quoteId hrel.2.2.2.1)) (by decide)
  have n9 : noNL (")"
      ++ (if d = SQLDialect.mysql then " ENGINE=InnoDB DEFAULT CHARSET=utf8mb4" else "")
      ++ ";") :=
    noNL_append (noNL_append (by decide) heng) (by decide)
  rw [junctionSQL_reassoc d rel jt hjt]
  simp only [linesL_append_sep]
  rw [linesL_single n1, linesL_single n2, linesL_single n3, linesL_single n4,
    linesL_single n5, linesL_single n6, linesL_single n7, linesL_single n8,
    linesL_single n9]
  rfl

theorem infix_linesL_joinSep_blank {x : String} {L : List String} (hx : x ∈ L) :
    linesL x <:+: linesL (joinSep "\n\n" L) := by
  induction L with
  | nil => cases hx
  | cons y rest ih =>
    rcases List.mem_cons.mp hx with h | h
    · subst h
      cases rest with
      | nil => exact List.infix_refl _
      | cons z zs =>
        rw [joinSep_cons _ _ (List.cons_ne_nil z zs)]
        have hd : linesL (x ++ "\n\n" ++ joinSep "\n\n" (z :: zs))
            = linesL x ++ [] :: linesL (joinSep "\n\n" (z :: zs)) := by
          rw [linesL, show (x ++ "\n\n" ++ joinSep "\n\n" (z :: zs)).data
              = x.data ++ '\n' :: ('\n' :: (joinSep "\n\n" (z :: zs)).data) from by
            simp [String.data_append], splitChar_append_cons, splitChar_cons_self]
          rfl
        rw [hd]
        exact (List.prefix_append _ _).isInfix
    · cases rest with
      | nil => cases h
      | cons z zs =>
        rw [joinSep_cons _ _ (List.cons_ne_nil z zs)]
        have hd : linesL (y ++ "\n\n" ++ joinSep "\n\n" (z :: zs))
            = linesL y ++ [] :: linesL (joinSep "\n\n" (z :: zs)) := by
          rw [linesL, show (y ++ "\n\n" ++ joinSep "\n\n" (z :: zs)).data
              = y.data ++ '\n' :: ('\n' :: (joinSep "\n\n" (z :: zs)).data) from by
            simp [String.data_append], splitChar_append_cons, splitChar_cons_self]
          rfl
        rw [hd]
        have hsuf : linesL (joinSep "\n\n" (z :: zs))
            <:+ linesL y ++ [] :: linesL (joinSep "\n\n" (z :: zs)) :=
          (List.suffix_cons [] _).trans (List.suffix_append _ _)
        exact (ih h).trans hsuf.isInfix

/-- C3: for every many-to-many relationship carrying a junction descriptor,
the compiled SQL contains the full nine-line junction table block as
consecutive lines: its CREATE TABLE, the two integer NOT NULL columns named
by the descriptor, the created_at timestamp column, the composite PRIMARY
KEY over exactly (sourceColumn, targetColumn), and the two ON DELETE
CASCADE foreign keys referencing the relationship's source and target
tables. -/
theorem spec_C3_junctionBlock (S : SchemaDefinition) (now : String)
    (rel : RelationshipDefinition) (hmem : rel ∈ S.relationships)
    (hcard : rel.cardinality = Cardinality.manyToMany)
    (jt : JunctionTable) (hjt : rel.junctionTable = some jt)
    (hrel : relNoNL rel) :
    junctionBlockLines S.dialect rel jt <:+: linesL (compileSQL S now) := by
  have hjrel : rel ∈ junctionRels S := by
    unfold junctionRels
    apply List.mem_filter.mpr
    refine ⟨hmem, ?_⟩
    simp [hcard, hjt]
  have hrels : junctionRels S ≠ [] := List.ne_nil_of_mem hjrel
  have hform : generateJunctionTables S
      = "-- Junction Tables (Many-to-Many)" ++ "\n"
        ++ joinSep "\n\n" ((junctionRels S).map (junctionSQL S.dialect)) := by
    unfold generateJunctionTables
    rw [if_neg hrels]
    apply String.ext
    simp [String.data_append, List.append_assoc]
  have hne : generateJunctionTables S ≠ "" :=
    fun hc => hrels ((generateJunctionTables_empty_iff S).mp hc)
  have hmemS : generateJunctionTables S ∈ sqlSections S now := by
    unfold sqlSections
    rw [if_pos hne]
    simp
  have htr : trimWS (generateJunctionTables S) ≠ "" := by
    have hd : (generateJunctionTables S).data
        = '-' :: ("- Junction Tables (Many-to-Many)" ++ "\n"
          ++ joinSep "\n\n" ((junctionRels S).map (junctionSQL S.dialect))).data := by
      rw [hform]
      simp [String.data_append, List.append_assoc]
    exact trimWS_ne_empty hd (by decide)
  have hb : linesL (junctionSQL S.dialect rel) = junctionBlockLines S.dialect rel jt :=
    linesL_junctionSQL S.dialect rel jt hjt hrel
  rw [← hb]
  have i1 : linesL (junctionSQL S.dialect rel)
      <:+: linesL (joinSep "\n\n" ((junctionRels S).map (junctionSQL S.dialect))) :=
    infix_linesL_joinSep_blank (List.mem_map_of_mem _ hjrel)
  have i2 : linesL (joinSep "\n\n" ((junctionRels S).map (junctionSQL S.dialect)))
      <:+: linesL (generateJunctionTables S) := by
    rw [hform, linesL_append_sep,
      linesL_single (by decide : noNL "-- Junction Tables (Many-to-Many)")]
    exact (List.suffix_append _ _).isInfix
  have i3 : linesL (generateJunctionTables S) <:+: linesL (compileSQL S now) := by
    unfold compileSQL
    exact infix_linesL_joinSep_blank
      (List.mem_filter.mpr ⟨hmemS, bne_iff_ne.mpr htr⟩)
  exact (i1.trans i2).trans i3

/-- C3 witness: the junction block of the concrete A-B many-to-many
relationship occurs as consecutive lines of the compiled schema. -/
theorem spec_C3_junctionBlock_witness :
    junctionBlockLines schemaC6.dialect relC6
      { name := "A_B", sourceColumn := "a_id", targetColumn := "b_id" }
      <:+: linesL (compileSQL schemaC6 "2024") :=
  spec_C3_junctionBlock schemaC6 "2024" relC6 (by decide) rfl _ rfl (by decide)

/-! ## Claim C7: name sanity, key and line injectivity -/

/-- Every character of the string is a Mermaid word character
(`[A-Za-z0-9_]`): such names pass through the sanitizers unchanged and
contain neither the hyphen of the pair keys nor the quote of the labels. -/
def allWord (s : String) : Prop := ∀ c ∈ s.data, wordChar c = true

instance (s : String) : Decidable (allWord s) := by
  unfold allWord; infer_instance

theorem not_mem_of_allWord {s : String} (h : allWord s) {c : Char}
    (hc : wordChar c = false) : c ∉ s.data := by
  intro hm
  rw [h c hm] at hc
  cases hc

theorem not_mem_data_append {c : Char} {a b : String} (ha : c ∉ a.data)
    (hb : c ∉ b.data) : c ∉ (a ++ b).data := by
  intro h
  rw [String.data_append] at h
  rcases List.mem_append.mp h with h1 | h1
  exacts [ha h1, hb h1]

theorem sanitizeName_allWord {s : String} (h : allWord s) : sanitizeName s = s := by
  apply String.ext
  show s.data.map (fun c => if wordChar c then c else '_') = s.data
  have hc : ∀ c ∈ s.data, (if wordChar c then c else '_') = id c :=
    fun c hcm => by simp [h c hcm]
  rw [List.map_congr_left hc, List.map_id]

theorem splitChar_pairKey {a b : String} (ha : allWord a) (hb : allWord b) :
    splitChar '-' (pairKey a b).data = [a.data, b.data] := by
  have hd : (pairKey a b).data = a.data ++ '-' :: b.data := by
    simp [pairKey, String.data_append]
  rw [hd, splitChar_append_cons, splitChar_eq_single (not_mem_of_allWord ha (by decide)),
    splitChar_eq_single (not_mem_of_allWord hb (by decide))]
  rfl

theorem pairKey_inj {a b a2 b2 : String} (ha : allWord a) (hb : allWord b)
    (ha2 : allWord a2) (hb2 : allWord b2) (h : pairKey a b = pairKey a2 b2) :
    a = a2 ∧ b = b2 := by
  have h2 : splitChar '-' (pairKey a b).data = splitChar '-' (pairKey a2 b2).data := by
    rw [h]
  rw [splitChar_pairKey ha hb, splitChar_pairKey ha2 hb2] at h2
  simp only [List.cons.injEq, and_true] at h2
  exact ⟨String.ext h2.1, String.ext h2.2⟩

theorem splitChar_implicitLine {r t : String} (hr : allWord r) (ht : allWord t) :
    splitChar '"' (implicitLine r t).data
      = [("    " ++ r ++ " ||--o\x7b " ++ t ++ " : ").data, ("has_" ++ t).data, []] := by
  have hA : '"' ∉ ("    " ++ r ++ " ||--o\x7b " ++ t ++ " : ").data :=
    not_mem_data_append (not_mem_data_append (not_mem_data_append (not_mem_data_append
      (by decide) (not_mem_of_allWord hr (by decide))) (by decide))
      (not_mem_of_allWord ht (by decide))) (by decide)
  have hB : '"' ∉ ("has_" ++ t).data :=
    not_mem_data_append (by decide) (not_mem_of_allWord ht (by decide))
  have hd : (implicitLine r t).data
      = ("    " ++ r ++ " ||--o\x7b " ++ t ++ " : ").data
        ++ '"' :: (("has_" ++ t).data ++ '"' :: []) := by
    simp [implicitLine, sanitizeName_allWord hr, sanitizeName_allWord ht,
      String.data_append, List.append_assoc]
  rw [hd, splitChar_append_cons, splitChar_append_cons, splitChar_eq_single hA,
    splitChar_eq_single hB]
  rfl

theorem implicitLine_inj {r t r2 t2 : String} (hr : allWord r) (ht : allWord t)
    (hr2 : allWord r2) (ht2 : allWord t2) (h : implicitLine r t = implicitLine r2 t2) :
    r = r2 ∧ t = t2 := by
  have h2 : splitChar '"' (implicitLine r t).data
      = splitChar '"' (implicitLine r2 t2).data := by
    rw [h]
  rw [splitChar_implicitLine hr ht, splitChar_implicitLine hr2 ht2] at h2
  simp only [List.cons.injEq, and_true] at h2
  obtain ⟨hA, hB⟩ := h2
  have ht' : t = t2 := by
    apply String.ext
    have h3 := hB
    simp only [String.data_append] at h3
    simpa using h3
  subst ht'
  refine ⟨?_, rfl⟩
  apply String.ext
  have h4 := hA
  simp only [String.data_append, List.append_assoc, List.cons_append] at h4
  simp only [List.cons.injEq, true_and] at h4
  exact List.append_cancel_right h4

theorem contains_append_singleton (keys : List String) (k x : String) :
    (keys ++ [k]).contains x = (keys.contains x || x == k) := by
  induction keys with
  | nil =>
    show [k].contains x = (false || x == k)
    rw [Bool.false_or, List.contains_cons]
    show (x == k || false) = (x == k)
    rw [Bool.or_false]
  | cons y ys ih =>
    rw [List.cons_append, List.contains_cons, ih, List.contains_cons, Bool.or_assoc]

theorem contains_eq_false_of_forall {l : List String} {x : String}
    (h : ∀ k ∈ l, x ≠ k) : l.contains x = false := by
  induction l with
  | nil => rfl
  | cons y ys ih =>
    rw [List.contains_cons,
      beq_eq_false_iff_ne.mpr (h y (List.mem_cons_self y ys)),
      ih (fun k hk => h k (List.mem_cons_of_mem y hk))]
    rfl

theorem count_append_singleton (lines : List String) (x y : String) :
    (lines ++ [x]).count y = lines.count y + (if y = x then 1 else 0) := by
  by_cases h : y = x
  · subst h
    rw [List.count_append, if_pos rfl]
    simp
  · rw [List.count_append, if_neg h,
      List.count_eq_zero.mpr (fun hm => h (List.mem_singleton.mp hm))]

/-! ## Claim C7: the pair-tracking invariant of the implicit-relationship fold -/

/-- Number of synthesized lines connecting the unordered pair (a, b), in
either orientation (a is the owning table, b the referenced table). -/
def pairLines (a b : String) (lines : List String) : Nat :=
  lines.count (implicitLine b a) + lines.count (implicitLine a b)

/-- Whether the pair (a, b) is recorded in the seen-key set, in either
orientation. -/
def pairSeen (a b : String) (keys : List String) : Bool :=
  keys.contains (pairKey a b) || keys.contains (pairKey b a)

/-- The fold invariant for one unordered pair: either it has not been seen
and no line connects it, or it has been seen and exactly one line does. -/
def pairInv (a b : String) (acc : List String × List String) : Prop :=
  (pairSeen a b acc.2 = false ∧ pairLines a b acc.1 = 0)
  ∨ (pairSeen a b acc.2 = true ∧ pairLines a b acc.1 = 1)

/-- The established state: the pair is recorded and exactly one line
connects it. -/
def pairDone (a b : String) (acc : List String × List String) : Prop :=
  pairSeen a b acc.2 = true ∧ pairLines a b acc.1 = 1

theorem implicitStep_other {a b tn : String} {f : ForeignKeyDefinition}
    (ha : allWord a) (hb : allWord b) (htn : allWord tn)
    (hf : allWord f.referencedTable)
    (hc1 : ¬(tn = a ∧ f.referencedTable = b)) (hc2 : ¬(tn = b ∧ f.referencedTable = a))
    (acc : List String × List String) :
    pairSeen a b (implicitStep tn acc f).2 = pairSeen a b acc.2
    ∧ pairLines a b (implicitStep tn acc f).1 = pairLines a b acc.1 := by
  have hk1 : pairKey a b ≠ pairKey tn f.referencedTable := fun he => by
    have h2 := pairKey_inj ha hb htn hf he
    exact hc1 ⟨h2.1.symm, h2.2.symm⟩
  have hk2 : pairKey b a ≠ pairKey tn f.referencedTable := fun he => by
    have h2 := pairKey_inj hb ha htn hf he
    exact hc2 ⟨h2.1.symm, h2.2.symm⟩
  have hl1 : implicitLine b a ≠ implicitLine f.referencedTable tn := fun he => by
    have h2 := implicitLine_inj hb ha hf htn he
    exact hc1 ⟨h2.2.symm, h2.1.symm⟩
  have hl2 : implicitLine a b ≠ implicitLine f.referencedTable tn := fun he => by
    have h2 := implicitLine_inj ha hb hf htn he
    exact hc2 ⟨h2.2.symm, h2.1.symm⟩
  unfold implicitStep
  split
  · exact ⟨rfl, rfl⟩
  · constructor
    · dsimp only
      unfold pairSeen
      rw [contains_append_singleton, contains_append_singleton,
        beq_eq_false_iff_ne.mpr hk1, beq_eq_false_iff_ne.mpr hk2,
        Bool.or_false, Bool.or_false]
    · dsimp only
      unfold pairLines
      rw [count_append_singleton, count_append_singleton, if_neg hl1, if_neg hl2]
      omega

theorem implicitStep_hit {a b tn : String} {f : ForeignKeyDefinition}
    (ha : allWord a) (hb : allWord b) (hab : a ≠ b)
    (horient : (tn = a ∧ f.referencedTable = b) ∨ (tn = b ∧ f.referencedTable = a))
    {acc : List String × List String} (hacc : pairInv a b acc) :
    pairDone a b (implicitStep tn acc f) := by
  have hlineNe : implicitLine b a ≠ implicitLine a b := fun he =>
    hab ((implicitLine_inj hb ha ha hb he).1.symm)
  unfold implicitStep
  have hcond : (acc.2.contains (pairKey tn f.referencedTable)
      || acc.2.contains (pairKey f.referencedTable tn)) = pairSeen a b acc.2 := by
    rcases horient with ⟨h1, h2⟩ | ⟨h1, h2⟩
    · rw [h1, h2]
      rfl
    · rw [h1, h2]
      unfold pairSeen
      rw [Bool.or_comm]
  rw [hcond]
  rcases hacc with ⟨hs, hc⟩ | ⟨hs, hc⟩
  · rw [if_neg (by rw [hs]; exact Bool.false_ne_true)]
    constructor
    · dsimp only
      unfold pairSeen
      rw [contains_append_singleton, contains_append_singleton]
      rcases horient with ⟨h1, h2⟩ | ⟨h1, h2⟩
      · rw [h1, h2]
        simp
      · rw [h1, h2]
        simp
    · dsimp only
      unfold pairLines
      rw [count_append_singleton, count_append_singleton]
      unfold pairLines at hc
      rcases horient with ⟨h1, h2⟩ | ⟨h1, h2⟩
      · rw [h1, h2, if_pos rfl, if_neg (fun he => hlineNe he.symm)]
        omega
      · rw [h1, h2, if_neg hlineNe, if_pos rfl]
        omega
  · rw [if_pos hs]
    exact ⟨hs, hc⟩

theorem implicitStep_pairInv {a b tn : String} (ha : allWord a) (hb : allWord b)
    (hab : a ≠ b) (htn : allWord tn) {f : ForeignKeyDefinition}
    (hf : allWord f.referencedTable) {acc : List String × List String}
    (h : pairInv a b acc) : pairInv a b (implicitStep tn acc f) := by
  by_cases hc1 : tn = a ∧ f.referencedTable = b
  · exact Or.inr (implicitStep_hit ha hb hab (Or.inl hc1) h)
  · by_cases hc2 : tn = b ∧ f.referencedTable = a
    · exact Or.inr (implicitStep_hit ha hb hab (Or.inr hc2) h)
    · have ho := implicitStep_other ha hb htn hf hc1 hc2 acc
      rcases h with ⟨hs, hcnt⟩ | ⟨hs, hcnt⟩
      · exact Or.inl ⟨by rw [ho.1]; exact hs, by rw [ho.2]; exact hcnt⟩
      · exact Or.inr ⟨by rw [ho.1]; exact hs, by rw [ho.2]; exact hcnt⟩

theorem implicitStep_pairDone {a b tn : String} (ha : allWord a) (hb : allWord b)
    (hab : a ≠ b) (htn : allWord tn) {f : ForeignKeyDefinition}
    (hf : allWord f.referencedTable) {acc : List String × List String}
    (h : pairDone a b acc) : pairDone a b (implicitStep tn acc f) := by
  by_cases hc1 : tn = a ∧ f.referencedTable = b
  · exact implicitStep_hit ha hb hab (Or.inl hc1) (Or.inr h)
  · by_cases hc2 : tn = b ∧ f.referencedTable = a
    · exact implicitStep_hit ha hb hab (Or.inr hc2) (Or.inr h)
    · have ho := implicitStep_other ha hb htn hf hc1 hc2 acc
      exact ⟨by rw [ho.1]; exact h.1, by rw [ho.2]; exact h.2⟩

theorem foldl_step_pairInv {a b tn : String} (ha : allWord a) (hb : allWord b)
    (hab : a ≠ b) (htn : allWord tn) :
    ∀ (fks : List ForeignKeyDefinition), (∀ f ∈ fks, allWord f.referencedTable) →
      ∀ acc, pairInv a b acc → pairInv a b (fks.foldl (implicitStep tn) acc) := by
  intro fks
  induction fks with
  | nil => exact fun _ acc h => h
  | cons f fs ih =>
    intro hfks acc h
    rw [List.foldl_cons]
    exact ih (fun g hg => hfks g (List.mem_cons_of_mem f hg)) _
      (implicitStep_pairInv ha hb hab htn (hfks f (List.mem_cons_self f fs)) h)

theorem foldl_step_pairDone {a b tn : String} (ha : allWord a) (hb : allWord b)
    (hab : a ≠ b) (htn : allWord tn) :
    ∀ (fks : List ForeignKeyDefinition), (∀ f ∈ fks, allWord f.referencedTable) →
      ∀ acc, pairDone a b acc → pairDone a b (fks.foldl (implicitStep tn) acc) := by
  intro fks
  induction fks with
  | nil => exact fun _ acc h => h
  | cons f fs ih =>
    intro hfks acc h
    rw [List.foldl_cons]
    exact ih (fun g hg => hfks g (List.mem_cons_of_mem f hg)) _
      (implicitStep_pairDone ha hb hab htn (hfks f (List.mem_cons_self f fs)) h)

theorem foldl_step_innerHit {a b tn : String} (ha : allWord a) (hb : allWord b)
    (hab : a ≠ b) (htn : allWord tn) {f0 : ForeignKeyDefinition}
    (horient : (tn = a ∧ f0.referencedTable = b) ∨ (tn = b ∧ f0.referencedTable = a)) :
    ∀ (fks : List ForeignKeyDefinition), (∀ f ∈ fks, allWord f.referencedTable) →
      f0 ∈ fks → ∀ acc, pairInv a b acc →
        pairDone a b (fks.foldl (implicitStep tn) acc) := by
  intro fks
  induction fks with
  | nil => intro _ hmem; cases hmem
  | cons f fs ih =>
    intro hfks hmem acc h
    rw [List.foldl_cons]
    rcases List.mem_cons.mp hmem with he | hmemtail
    · subst he
      exact foldl_step_pairDone ha hb hab htn fs
        (fun g hg => hfks g (List.mem_cons_of_mem _ hg)) _
        (implicitStep_hit ha hb hab horient h)
    · exact ih (fun g hg => hfks g (List.mem_cons_of_mem f hg)) hmemtail _
        (implicitStep_pairInv ha hb hab htn (hfks f (List.mem_cons_self f fs)) h)

theorem outer_foldl_pairDone {a b : String} (ha : allWord a) (hb : allWord b)
    (hab : a ≠ b) :
    ∀ (tbs : List TableDefinition),
      (∀ t ∈ tbs, allWord t.name ∧ ∀ f ∈ t.foreignKeys, allWord f.referencedTable) →
      ∀ acc, pairDone a b acc →
        pairDone a b
          (tbs.foldl (fun acc tb => tb.foreignKeys.foldl (implicitStep tb.name) acc) acc) := by
  intro tbs
  induction tbs with
  | nil => exact fun _ acc h => h
  | cons t ts ih =>
    intro hsane acc h
    rw [List.foldl_cons]
    exact ih (fun u hu => hsane u (List.mem_cons_of_mem t hu)) _
      (foldl_step_pairDone ha hb hab (hsane t (List.mem_cons_self t ts)).1
        t.foreignKeys (hsane t (List.mem_cons_self t ts)).2 _ h)

theorem outer_foldl_hit {a b : String} (ha : allWord a) (hb : allWord b)
    (hab : a ≠ b) {tb0 : TableDefinition} {f0 : ForeignKeyDefinition}
    (hf0mem : f0 ∈ tb0.foreignKeys)
    (horient : (tb0.name = a ∧ f0.referencedTable = b)
      ∨ (tb0.name = b ∧ f0.referencedTable = a)) :
    ∀ (tbs : List TableDefinition),
      (∀ t ∈ tbs, allWord t.name ∧ ∀ f ∈ t.foreignKeys, allWord f.referencedTable) →
      tb0 ∈ tbs → ∀ acc, pairInv a b acc →
        pairDone a b
          (tbs.foldl (fun acc tb => tb.foreignKeys.foldl (implicitStep tb.name) acc) acc) := by
  intro tbs
  induction tbs with
  | nil => intro _ hmem; cases hmem
  | cons t ts ih =>
    intro hsane hmem acc h
    rw [List.foldl_cons]
    rcases List.mem_cons.mp hmem with he | hmemtail
    · subst he
      exact outer_foldl_pairDone ha hb hab ts
        (fun u hu => hsane u (List.mem_cons_of_mem _ hu)) _
        (foldl_step_innerHit ha hb hab (hsane tb0 (List.mem_cons_self tb0 ts)).1 horient
          tb0.foreignKeys (hsane tb0 (List.mem_cons_self tb0 ts)).2 hf0mem _ h)
    · exact ih (fun u hu => hsane u (List.mem_cons_of_mem t hu)) hmemtail _
        (foldl_step_pairInv ha hb hab (hsane t (List.mem_cons_self t ts)).1
          t.foreignKeys (hsane t (List.mem_cons_self t ts)).2 _ h)

/-! ## Claim C7: main theorem, witness and counterexample -/

def fkC7 : ForeignKeyDefinition :=
  { id := "f7", constraintName := "fk_orders_customers", columnName := "customer_id",
    referencedTable := "Customers", referencedColumn := "id",
    onDelete := OnDeleteAction.cascade }

def tbOrders : TableDefinition :=
  { id := "t71", name := "Orders",
    columns :=
      [{ id := "c71", name := "id", type := ColumnType.serial,
         isPrimaryKey := true, isNullable := false, isUnique := false }],
    foreignKeys := [fkC7] }

def tbCustomers : TableDefinition :=
  { id := "t72", name := "Customers",
    columns :=
      [{ id := "c72", name := "id", type := ColumnType.serial,
         isPrimaryKey := true, isNullable := false, isUnique := false }] }

def schemaC7w : SchemaDefinition :=
  { id := "s7w", name := "Shop", description := "", dialect := SQLDialect.postgresql,
    tables := [tbOrders, tbCustomers], relationships := [], storedProcedures := [] }

def fkTAB : ForeignKeyDefinition :=
  { id := "fab", constraintName := "fk_ta_tb", columnName := "tb_id",
    referencedTable := "TB", referencedColumn := "id",
    onDelete := OnDeleteAction.cascade }

def fkTBA : ForeignKeyDefinition :=
  { id := "fba", constraintName := "fk_tb_ta", columnName := "ta_id",
    referencedTable := "TA", referencedColumn := "id",
    onDelete := OnDeleteAction.cascade }

def tbTA : TableDefinition :=
  { id := "ta", name := "TA",
    columns :=
      [{ id := "cta", name := "id", type := ColumnType.serial,
         isPrimaryKey := true, isNullable := false, isUnique := false }],
    foreignKeys := [fkTAB] }

def tbTB : TableDefinition :=
  { id := "tb", name := "TB",
    columns :=
      [{ id := "ctb", name := "id", type := ColumnType.serial,
         isPrimaryKey := true, isNullable := false, isUnique := false }],
    foreignKeys := [fkTBA] }

def schemaC7x : SchemaDefinition :=
  { id := "s7x", name := "Mutual", description := "", dialect := SQLDialect.postgresql,
    tables := [tbTA, tbTB], relationships := [], storedProcedures := [] }

set_option maxRecDepth 100000 in
/-- C7 counterexample: with mutual foreign keys (TA references TB and TB
references TA) and no explicit relationships, the unordered pair (TB, TA)
is uncovered, yet the diagram does not contain the synthesized line from
the referenced table TA to the owning table TB labeled has_TB: only the
first foreign key of the pair produces a line, with its own orientation. -/
theorem spec_C7_counterexample :
    schemaC7x.relationships = []
    ∧ tbTB ∈ schemaC7x.tables
    ∧ fkTBA ∈ tbTB.foreignKeys
    ∧ fkTBA.referencedTable = "TA" ∧ tbTB.name = "TB"
    ∧ implicitLine "TA" "TB" ∉ generateImplicitRelationships schemaC7x := by
  decide

/-- C7 (amended): for every foreign key on a table whose unordered table
pair is not covered by any explicit relationship in either direction, the
diagram contains exactly one synthesized relationship line connecting that
pair, counting both orientations: the first foreign key sharing the pair
fixes the orientation and label, and later foreign keys with the same pair
(in either orientation) add nothing. Stated for schemas whose table and
referenced-table names consist of word characters, under which the
`src-tgt` key encoding and the line syntax are injective. -/
theorem spec_C7_implicit (S : SchemaDefinition) (tb : TableDefinition)
    (fk : ForeignKeyDefinition) (htb : tb ∈ S.tables) (hfk : fk ∈ tb.foreignKeys)
    (hab : tb.name ≠ fk.referencedTable)
    (hsane : ∀ t ∈ S.tables, allWord t.name ∧ ∀ f ∈ t.foreignKeys, allWord f.referencedTable)
    (hrelsane : ∀ r ∈ S.relationships, allWord r.sourceTable ∧ allWord r.targetTable)
    (hunc : ∀ r ∈ S.relationships,
        ¬(r.sourceTable = tb.name ∧ r.targetTable = fk.referencedTable)
        ∧ ¬(r.sourceTable = fk.referencedTable ∧ r.targetTable = tb.name)) :
    (generateImplicitRelationships S).count (implicitLine fk.referencedTable tb.name)
      + (generateImplicitRelationships S).count (implicitLine tb.name fk.referencedTable)
      = 1 := by
  have ha : allWord tb.name := (hsane tb htb).1
  have hb : allWord fk.referencedTable := (hsane tb htb).2 fk hfk
  have hk1 : (S.relationships.map (fun r => pairKey r.sourceTable r.targetTable)).contains
      (pairKey tb.name fk.referencedTable) = false := by
    apply contains_eq_false_of_forall
    intro k hk
    rcases List.mem_map.mp hk with ⟨r, hr, hkey⟩
    intro he
    rw [← hkey] at he
    have h2 := pairKey_inj ha hb (hrelsane r hr).1 (hrelsane r hr).2 he
    exact (hunc r hr).1 ⟨h2.1.symm, h2.2.symm⟩
  have hk2 : (S.relationships.map (fun r => pairKey r.sourceTable r.targetTable)).contains
      (pairKey fk.referencedTable tb.name) = false := by
    apply contains_eq_false_of_forall
    intro k hk
    rcases List.mem_map.mp hk with ⟨r, hr, hkey⟩
    intro he
    rw [← hkey] at he
    have h2 := pairKey_inj hb ha (hrelsane r hr).1 (hrelsane r hr).2 he
    exact (hunc r hr).2 ⟨h2.1.symm, h2.2.symm⟩
  have hinit : pairInv tb.name fk.referencedTable
      ([], S.relationships.map (fun r => pairKey r.sourceTable r.targetTable)) := by
    left
    constructor
    · unfold pairSeen
      rw [hk1, hk2]
      rfl
    · unfold pairLines
      simp
  have hdone := outer_foldl_hit ha hb hab hfk (Or.inl ⟨rfl, rfl⟩) S.tables hsane htb
    _ hinit
  have hfin := hdone.2
  unfold pairLines at hfin
  exact hfin

/-- C7 witness: the concrete Orders-Customers foreign key with no explicit
relationship synthesizes exactly one connecting line. -/
theorem spec_C7_implicit_witness :
    (generateImplicitRelationships schemaC7w).count (implicitLine "Customers" "Orders")
      + (generateImplicitRelationships schemaC7w).count (implicitLine "Orders" "Customers")
      = 1 :=
  spec_C7_implicit schemaC7w tbOrders fkC7 (by decide) (by decide) (by decide)
    (by decide) (by decide) (by decide)
